import Mathlib

/-!
Verification development for the gloq_massing placement/constraint engine.

The Python source is embedded shallowly:
* `geometry.py` becomes a polymorphic geometry kernel over a linear ordered
  field; a rectangle's rotation angle (degrees) is carried as its
  cosine/sine pair `(cosr, sinr)`, the exact data the source derives via
  `Rectangle._cos_sin` and uses everywhere.  The invariant
  `cosr ^ 2 + sinr ^ 2 = 1` characterises the range of `(cos θ, sin θ)`.
* `fuzzy.py`, `building.py`, `sheaf.py`, `constraints.py`, `solver.py`
  are embedded over `ℚ` (machine floats idealised as exact rationals),
  with `math.sqrt` replaced by the monotone rational stand-in `sqrtQ`
  that is exact on perfect squares (all square roots whose values the
  theorems depend on are perfect squares).
-/

namespace GloqMassing

/-- Point from geometry.py: immutable (x, y) pair. -/
structure Pt (α : Type) where
  x : α
  y : α
deriving DecidableEq, Repr

namespace Pt

variable {α : Type} [LinearOrderedField α]

/-- Componentwise addition (`Point.__add__`). -/
def add (a b : Pt α) : Pt α := ⟨a.x + b.x, a.y + b.y⟩

/-- Componentwise subtraction (`Point.__sub__`). -/
def sub (a b : Pt α) : Pt α := ⟨a.x - b.x, a.y - b.y⟩

end Pt

/-- Rectangle from geometry.py: center, local-axis dimensions, rotation.
The source stores the rotation angle in degrees and derives
`(cos θ, sin θ)` via `_cos_sin`; the embedding stores that pair directly
as `(cosr, sinr)`.  A real rotation angle exists exactly when
`cosr ^ 2 + sinr ^ 2 = 1`. -/
structure Rect (α : Type) where
  x : α
  y : α
  width : α
  height : α
  cosr : α
  sinr : α
deriving DecidableEq, Repr

namespace Rect

variable {α : Type} [LinearOrderedField α]

/-- Axis-aligned rectangle constructor: rotation 0, i.e. `(cos, sin) = (1, 0)`. -/
def axisAligned (x y width height : α) : Rect α := ⟨x, y, width, height, 1, 0⟩

/-- Bounding box width after rotation (`Rectangle.effective_width`). -/
def effectiveWidth (r : Rect α) : α := |r.width * r.cosr| + |r.height * r.sinr|

/-- Bounding box height after rotation (`Rectangle.effective_height`). -/
def effectiveHeight (r : Rect α) : α := |r.width * r.sinr| + |r.height * r.cosr|

/-- Left edge of the axis-aligned bounding box (`Rectangle.left`). -/
def left (r : Rect α) : α := r.x - r.effectiveWidth / 2

/-- Right edge of the axis-aligned bounding box (`Rectangle.right`). -/
def right (r : Rect α) : α := r.x + r.effectiveWidth / 2

/-- Bottom edge of the axis-aligned bounding box (`Rectangle.bottom`). -/
def bottom (r : Rect α) : α := r.y - r.effectiveHeight / 2

/-- Top edge of the axis-aligned bounding box (`Rectangle.top`). -/
def top (r : Rect α) : α := r.y + r.effectiveHeight / 2

/-- Area (`Rectangle.area`): width times height of the local-axis dimensions. -/
def area (r : Rect α) : α := r.width * r.height

/-- Four corners in counter-clockwise order (`Rectangle.corners`), local corners
`(±w/2, ±h/2)` pushed through the rotation matrix `[cos -sin; sin cos]`. -/
def corners (r : Rect α) : List (Pt α) :=
  let hw := r.width / 2
  let hh := r.height / 2
  [⟨r.x + (-hw) * r.cosr - (-hh) * r.sinr, r.y + (-hw) * r.sinr + (-hh) * r.cosr⟩,
   ⟨r.x + hw * r.cosr - (-hh) * r.sinr, r.y + hw * r.sinr + (-hh) * r.cosr⟩,
   ⟨r.x + hw * r.cosr - hh * r.sinr, r.y + hw * r.sinr + hh * r.cosr⟩,
   ⟨r.x + (-hw) * r.cosr - hh * r.sinr, r.y + (-hw) * r.sinr + hh * r.cosr⟩]

/-- Edge normals with their lengths, for the separating-axis test.
The source (`get_axes`) walks the four edges `corners[(i+1)%4] - corners[i]`,
keeps those of positive length, and divides each normal `(-e.y, e.x)` by its
length `sqrt(e.x² + e.y²)`.  Under `cosr² + sinr² = 1` the edge vectors are
`(w·c, w·s)`, `(-h·s, h·c)`, `(-w·c, -w·s)`, `(h·s, -h·c)` with lengths
`|w|, |h|, |w|, |h|`; the embedding keeps the unnormalised normal together
with that length, and `separatedOn` multiplies the 0.001 tolerance by the
length instead of dividing the projections (an equivalent rescaling of the
same comparison).  The caller (`intersects`) slices `[:2]` as the source does. -/
def axesWithLen (r : Rect α) : List ((α × α) × α) :=
  (List.filter (fun p => decide (0 < p.2))
    [((-(r.width * r.sinr), r.width * r.cosr), |r.width|),
     ((-(r.height * r.cosr), -(r.height * r.sinr)), |r.height|),
     ((r.width * r.sinr, -(r.width * r.cosr)), |r.width|),
     ((r.height * r.cosr, r.height * r.sinr), |r.height|)]).take 2

/-- Minimum of a list, 0 on the empty list (the source only applies `min`
to the nonempty list of 4 corner projections). -/
def listMin (l : List α) : α :=
  match l with
  | [] => 0
  | a :: t => t.foldl min a

/-- Maximum of a list, 0 on the empty list. -/
def listMax (l : List α) : α :=
  match l with
  | [] => 0
  | a :: t => t.foldl max a

/-- Projections of corners onto an axis (`project` in `Rectangle.intersects`). -/
def projs (cs : List (Pt α)) (ax : α × α) : List α :=
  cs.map (fun c => c.x * ax.1 + c.y * ax.2)

/-- Separation test on one axis: the source checks
`max_a <= min_b + 0.001 or max_b <= min_a + 0.001` on length-normalised
projections; multiplying through by the positive axis length gives this. -/
def separatedOn (a b : Rect α) (axl : (α × α) × α) : Bool :=
  decide (listMax (projs a.corners axl.1) ≤ listMin (projs b.corners axl.1) + 1 / 1000 * axl.2) ||
  decide (listMax (projs b.corners axl.1) ≤ listMin (projs a.corners axl.1) + 1 / 1000 * axl.2)

/-- Oriented-rectangle overlap test via the separating axis theorem
(`Rectangle.intersects`): true iff no tested axis separates. -/
def intersects (a b : Rect α) : Bool :=
  (a.axesWithLen ++ b.axesWithLen).all (fun axl => !(separatedOn a b axl))

/-- Overlap area via the axis-aligned bounding-box approximation
(`Rectangle.intersection_area`). -/
def intersectionArea (a b : Rect α) : α :=
  max 0 (min a.right b.right - max a.left b.left) *
  max 0 (min a.top b.top - max a.bottom b.bottom)

/-- Point containment in the bounding box (`Rectangle.contains_point`). -/
def containsPoint (r : Rect α) (p : Pt α) : Bool :=
  decide (r.left ≤ p.x ∧ p.x ≤ r.right ∧ r.bottom ≤ p.y ∧ p.y ≤ r.top)

/-- Full containment of another rectangle (`Rectangle.contains_rectangle`). -/
def containsRectangle (r o : Rect α) : Bool :=
  decide (r.left ≤ o.left ∧ o.right ≤ r.right ∧ r.bottom ≤ o.bottom ∧ o.top ≤ r.top)

/-- Translation by `(dx, dy)` (`Rectangle.translate`): same dimensions and rotation. -/
def translate (r : Rect α) (dx dy : α) : Rect α :=
  { r with x := r.x + dx, y := r.y + dy }

/-- Recentering (`Rectangle.move_to`). -/
def moveTo (r : Rect α) (nx ny : α) : Rect α := { r with x := nx, y := ny }

/-- Shared edge length between two rectangles (`Rectangle.shared_edge_length`,
default tolerance 0.1): vertical adjacency is tested first and returns the
y-overlap when positive, then horizontal adjacency, else 0. -/
def sharedEdgeLength (a b : Rect α) (tol : α := 1 / 10) : α :=
  let yOv := min a.top b.top - max a.bottom b.bottom
  let xOv := min a.right b.right - max a.left b.left
  if (|a.right - b.left| < tol ∨ |a.left - b.right| < tol) ∧ 0 < yOv then yOv
  else if (|a.top - b.bottom| < tol ∨ |a.bottom - b.top| < tol) ∧ 0 < xOv then xOv
  else 0

/-- Axis-aligned rectangle from bounding box coordinates (`Rectangle.from_bounds`). -/
def fromBounds (xMin yMin xMax yMax : α) : Rect α :=
  axisAligned ((xMin + xMax) / 2) ((yMin + yMax) / 2) (xMax - xMin) (yMax - yMin)

end Rect

/-- Polygon from geometry.py: ordered vertex list.  The source constructor
raises on fewer than 3 vertices; every polygon built below has 4. -/
structure Polygon (α : Type) where
  vertices : List (Pt α)
deriving DecidableEq, Repr

namespace Polygon

variable {α : Type} [LinearOrderedField α]

/-- Rotation of a list moving the last element to the front; pairing a vertex
list with its right-rotation reproduces the `(v[i], v[j])` pairs of the
source's ray-casting loop (`j` starts at `n-1` and trails `i`). -/
def rotateRight {β : Type} (l : List β) : List β :=
  match l.reverse with
  | [] => []
  | b :: t => b :: t.reverse

/-- Cyclic predecessor pairs `(v[i], v[i-1 mod n])`. -/
def predPairs {β : Type} (l : List β) : List (β × β) := l.zip (rotateRight l)

/-- Cyclic successor pairs `(v[i], v[(i+1) mod n])`, as used by the shoelace
formula and `Polygon.edges`. -/
def succPairs {β : Type} (l : List β) : List (β × β) :=
  match l with
  | [] => []
  | a :: t => l.zip (t ++ [a])

/-- Polygon area by the shoelace formula (`Polygon.area`). -/
def area (p : Polygon α) : α :=
  |(succPairs p.vertices).foldl
      (fun acc pr => acc + pr.1.x * pr.2.y - pr.2.x * pr.1.y) 0| / 2

/-- Axis-aligned bounding box (`Polygon.bounding_box`); the empty case is
unreachable under the ≥3-vertex construction invariant. -/
def boundingBox (p : Polygon α) : Rect α :=
  match p.vertices with
  | [] => Rect.fromBounds 0 0 0 0
  | v :: vs =>
    Rect.fromBounds
      (vs.foldl (fun m w => min m w.x) v.x)
      (vs.foldl (fun m w => min m w.y) v.y)
      (vs.foldl (fun m w => max m w.x) v.x)
      (vs.foldl (fun m w => max m w.y) v.y)

/-- One ray-casting crossing test from `Polygon.contains_point`: the edge
`(vi, vj)` straddles the horizontal line through `p` and the crossing lies
right of `p`.  The division is only reached when `vi.y ≠ vj.y` (guaranteed
by the straddle test, as in the source's short-circuiting `and`). -/
def rayCrosses (p vi vj : Pt α) : Bool :=
  (decide (p.y < vi.y) != decide (p.y < vj.y)) &&
  decide (p.x < (vj.x - vi.x) * (p.y - vi.y) / (vj.y - vi.y) + vi.x)

/-- Point-in-polygon by ray casting (`Polygon.contains_point`). -/
def containsPoint (p : Polygon α) (q : Pt α) : Bool :=
  (predPairs p.vertices).foldl
    (fun inside pr => if rayCrosses q pr.1 pr.2 then !inside else inside) false

/-- Full containment of a rectangle: all 4 corners inside
(`Polygon.contains_rectangle`). -/
def containsRectangle (p : Polygon α) (r : Rect α) : Bool :=
  r.corners.all (fun c => p.containsPoint c)

/-- Rectangular polygon of given dimensions centered at a point
(`Polygon.rectangle`; the default center is the origin). -/
def rectangle (width height : α) (center : Pt α := ⟨0, 0⟩) : Polygon α :=
  let hw := width / 2
  let hh := height / 2
  ⟨[⟨center.x - hw, center.y - hh⟩, ⟨center.x + hw, center.y - hh⟩,
    ⟨center.x + hw, center.y + hh⟩, ⟨center.x - hw, center.y + hh⟩]⟩

/-- Rectangular polygon from bounds (`Polygon.from_bounds`). -/
def fromBounds (xMin yMin xMax yMax : α) : Polygon α :=
  ⟨[⟨xMin, yMin⟩, ⟨xMax, yMin⟩, ⟨xMax, yMax⟩, ⟨xMin, yMax⟩]⟩

end Polygon

/-- Triangular fuzzy membership for area (`fuzzy_area_membership`):
1 at exact match, linear decay to 0 at the fractional tolerance bound,
0 beyond it, and 0 for nonpositive targets. -/
def fuzzyAreaMembership {α : Type} [LinearOrderedField α]
    (actual target tolerance : α) : α :=
  if target ≤ 0 then 0
  else if actual = target then 1
  else if |actual - target| / target ≤ tolerance then
    1 - |actual - target| / target / tolerance
  else 0

/-- Configuration for fuzzy space scaling (`FuzzyConfig`). -/
structure FuzzyConfig (α : Type) where
  area_tolerance : α
  min_membership : α
  aspect_ratio_min : α
  aspect_ratio_max : α
  scale_mode : String
  max_growth : α
  max_shrink : α
deriving DecidableEq, Repr

/-- Default `FuzzyConfig` values from fuzzy.py. -/
def FuzzyConfig.default {α : Type} [LinearOrderedField α] : FuzzyConfig α :=
  ⟨1 / 4, 3 / 10, 3 / 10, 3, "proportional", 1 / 5, 2 / 5⟩

/-- Digit-by-digit integer square root, with an explicit fuel argument so the
recursion is structural (hence reducible inside proofs by plain `rfl`).  With
enough fuel it computes `Nat.sqrt`: the recursion `r = 2 * isqrt (n / 4)`
followed by the `(r + 1) ^ 2 ≤ n` correction is the standard binary
floor-square-root recurrence. -/
def isqrtFuel (fuel n : ℕ) : ℕ :=
  match fuel with
  | 0 => 0
  | fuel + 1 =>
    if n ≤ 1 then n
    else
      let r := 2 * isqrtFuel fuel (n / 4)
      if (r + 1) * (r + 1) ≤ n then r + 1 else r

/-- Floor integer square root (`n` itself is always enough fuel, as the
argument quarters at each step). -/
def isqrtNat (n : ℕ) : ℕ := isqrtFuel n n

/-- Monotone rational stand-in for `math.sqrt`, exact on perfect squares of
rationals (for `q = (a/b)^2` in lowest terms the numerator is `a^2` and the
denominator `b^2`, so the value returned is exactly `a/b`); elsewhere it is
the square root truncated to 6 decimal places.  Every square root whose value
a theorem below depends on is a perfect square. -/
def sqrtQ (q : ℚ) : ℚ :=
  if q ≤ 0 then 0
  else ((isqrtNat (q.num.toNat * q.den * 10 ^ 12) : ℚ) / ((q.den : ℚ) * 10 ^ 6))

/-- Python `int(...)` on a float: truncation toward zero. -/
def pyInt (q : ℚ) : ℤ := if 0 ≤ q then ⌊q⌋ else ⌈q⌉

/-- Python `range(a, b, step)` for a positive step: `a, a+step, ...` while `< b`. -/
def pyRange (a b step : ℤ) : List ℤ :=
  if 0 < step ∧ a < b then
    (List.range ((b - a + step - 1) / step).toNat).map (fun i => a + step * (i : ℤ))
  else []

/-- Optimal scale factor and membership (`compute_optimal_scale`), over ℝ with
the source's `math.sqrt` as `Real.sqrt`.  Returns `(scale_factor, membership)`. -/
noncomputable def computeOptimalScale (target_area available_area : ℝ)
    (config : FuzzyConfig ℝ) : ℝ × ℝ :=
  if target_area ≤ 0 then (1, 0)
  else if target_area ≤ available_area then
    let max_grow_area := target_area * (1 + config.max_growth)
    if available_area ≤ max_grow_area then
      (Real.sqrt (available_area / target_area),
       fuzzyAreaMembership available_area target_area config.area_tolerance)
    else (1, 1)
  else
    let min_area := target_area * (1 - config.max_shrink)
    if available_area < min_area then
      (Real.sqrt (min_area / target_area), 0)
    else
      (Real.sqrt (available_area / target_area),
       fuzzyAreaMembership available_area target_area config.area_tolerance)

/-- Space categories from building.py (`SpaceCategory`). -/
inductive SpaceCategory where
  | DWELLING_UNIT | RETAIL | CIRCULATION | SUPPORT | STAFF
  | AMENITY_INDOOR | AMENITY_OUTDOOR | PARKING | LOW_VOLTAGE
  | DRY_UTILITIES | ELECTRICAL | MECHANICAL | PLUMBING | FIRE_SPRINKLER
deriving DecidableEq, Repr

/-- Floor types from building.py (`FloorType`). -/
inductive FloorType where
  | BASEMENT | PARKING_UNDERGROUND | PARKING_PODIUM | GROUND | PODIUM
  | RESIDENTIAL_TYPICAL | AMENITY | ROOF | MIXED_USE
deriving DecidableEq, Repr

/-- Floor-assignment rules from building.py (`FloorAssignment`). -/
inductive FloorAssignment where
  | GROUND | BASEMENT | TYPICAL | PODIUM | ROOF | ALL | ALL_RESIDENTIAL | VERTICAL
deriving DecidableEq, Repr

/-- Space template from building.py (`SpaceSpec`), with the width/height
already resolved the way `__post_init__` resolves them (see `mkSpaceSpec`). -/
structure SpaceSpecQ where
  id : String
  category : SpaceCategory
  name : String
  area_sf : ℚ
  width_ft : ℚ
  height_ft : ℚ
  count : ℕ
  floor_assignment : FloorAssignment
  must_be_exterior : Bool
  adjacency_requirements : List String
  is_vertical : Bool
deriving DecidableEq, Repr

/-- Constructor for `SpaceSpecQ` mirroring `SpaceSpec.__post_init__`:
with both dimensions missing a square of side `sqrt(area)` is derived; with
one missing it is derived by dividing the area by the other. -/
def mkSpaceSpec (id : String) (category : SpaceCategory) (name : String)
    (area_sf : ℚ) (width_ft height_ft : Option ℚ) (count : ℕ)
    (floor_assignment : FloorAssignment) (must_be_exterior : Bool)
    (adjacency_requirements : List String) (is_vertical : Bool) : SpaceSpecQ :=
  let wh : ℚ × ℚ :=
    match width_ft, height_ft with
    | none, none => (sqrtQ area_sf, sqrtQ area_sf)
    | none, some h => (area_sf / h, h)
    | some w, none => (w, area_sf / w)
    | some w, some h => (w, h)
  ⟨id, category, name, area_sf, wh.1, wh.2, count, floor_assignment,
   must_be_exterior, adjacency_requirements, is_vertical⟩

/-- Dwelling unit template (`DwellingUnit`): a `SpaceSpec` whose
`__post_init__` forces category `DWELLING_UNIT` and floor assignment
`TYPICAL`, extended with the dwelling-type tag (its `.value` string,
used to build unit instance ids).  The bedroom/bathroom counts play no
role in placement and are not modeled. -/
structure DwellingUnitQ where
  spec : SpaceSpecQ
  dwelling_type : String
deriving DecidableEq, Repr

/-- Circulation infrastructure specification (`CirculationSpec`). -/
structure CirculationSpecQ where
  corridor_width_ft : ℚ
  corridor_length_ft : ℚ
  elevator_passenger_count : ℕ
  elevator_passenger_sf : ℚ
  elevator_freight_count : ℕ
  elevator_freight_sf : ℚ
  stair_count : ℕ
  stair_sf : ℚ
  vestibule_lobby_sf : ℚ
  shaft_elevator_sf : ℚ
  shaft_stair_sf : ℚ
deriving DecidableEq, Repr

namespace CirculationSpecQ

/-- Default `CirculationSpec` values from building.py. -/
def default : CirculationSpecQ := ⟨6, 0, 2, 136, 0, 0, 2, 188, 0, 0, 0⟩

/-- Typical elevator cab width (`CirculationSpec.elevator_width`). -/
def elevatorWidth (_ : CirculationSpecQ) : ℚ := 8

/-- Elevator cab depth (`CirculationSpec.elevator_depth`); the source's float
truthiness test `if self.elevator_passenger_sf` is `≠ 0`. -/
def elevatorDepth (c : CirculationSpecQ) : ℚ :=
  if c.elevator_passenger_sf = 0 then 7 else c.elevator_passenger_sf / c.elevatorWidth

/-- Stair width from area at a ~2:1 aspect (`CirculationSpec.stair_width`). -/
def stairWidth (c : CirculationSpecQ) : ℚ :=
  if c.stair_sf = 0 then 8 else sqrtQ (c.stair_sf / 2)

/-- Stair depth (`CirculationSpec.stair_depth`). -/
def stairDepth (c : CirculationSpecQ) : ℚ :=
  if c.stairWidth = 0 then 12 else c.stair_sf / c.stairWidth

end CirculationSpecQ

/-- Parking configuration (`ParkingSpec`); only the stall counts feed the
floor-type logic. -/
structure ParkingSpecQ where
  surface_stalls : ℕ
  podium_stalls : ℕ
  underground_stalls : ℕ
deriving DecidableEq, Repr

/-- Presence of underground stalls (`ParkingSpec.has_underground`). -/
def ParkingSpecQ.hasUnderground (p : ParkingSpecQ) : Bool := 0 < p.underground_stalls

/-- Presence of podium stalls (`ParkingSpec.has_podium`). -/
def ParkingSpecQ.hasPodium (p : ParkingSpecQ) : Bool := 0 < p.podium_stalls

/-- Distribution of floors by use type (`StoryDistribution`). -/
structure StoryDistributionQ where
  dwelling : ℚ
  mixed_use : ℚ
  parking : ℚ
deriving DecidableEq, Repr

/-- Building specification (`BuildingSpec`).  Project metadata, envelope
figures and heights that never reach the solver are not modeled. -/
structure BuildingSpecQ where
  floor_plate_sf : ℚ
  stories_above_grade : ℕ
  stories_below_grade : ℕ
  story_distribution : StoryDistributionQ
  dwelling_units : List DwellingUnitQ
  circulation : CirculationSpecQ
  support_spaces : List SpaceSpecQ
  staff_spaces : List SpaceSpecQ
  amenity_indoor : List SpaceSpecQ
  amenity_outdoor : List SpaceSpecQ
  parking : ParkingSpecQ
  mep_spaces : List SpaceSpecQ
deriving DecidableEq, Repr

namespace BuildingSpecQ

/-- Total dwelling unit count (`BuildingSpec.total_dwelling_units`). -/
def totalDwellingUnits (b : BuildingSpecQ) : ℕ :=
  (b.dwelling_units.map (fun u => u.spec.count)).sum

/-- Estimated floor plate width assuming a square plate
(`BuildingSpec.floor_plate_width`). -/
def floorPlateWidth (b : BuildingSpecQ) : ℚ := sqrtQ b.floor_plate_sf

/-- Average dwelling units per residential floor (`BuildingSpec.units_per_floor`). -/
def unitsPerFloor (b : BuildingSpecQ) : ℚ :=
  if 0 < b.story_distribution.dwelling then
    (b.totalDwellingUnits : ℚ) / b.story_distribution.dwelling
  else 0

/-- Floor type from index and story distribution (`BuildingSpec.get_floor_type`). -/
def getFloorType (b : BuildingSpecQ) (floorIndex : ℤ) : FloorType :=
  if floorIndex < 0 then
    (if b.parking.hasUnderground then .PARKING_UNDERGROUND else .BASEMENT)
  else if floorIndex = 0 then .GROUND
  else
    let parkingFloors : ℤ := ⌈b.story_distribution.parking⌉
    let residentialStart : ℤ := max 1 parkingFloors
    if floorIndex < residentialStart ∧ b.parking.hasPodium then .PARKING_PODIUM
    else if floorIndex = (b.stories_above_grade : ℤ) - 1 ∧ ¬b.amenity_outdoor.isEmpty
      then .AMENITY
    else .RESIDENTIAL_TYPICAL

end BuildingSpecQ

/-- Space specs for circulation elements (`create_circulation_spaces`):
passenger elevators, freight elevators and stairs as vertical elements,
plus a per-floor elevator lobby when the vestibule area is positive. -/
def createCirculationSpaces (c : CirculationSpecQ) : List SpaceSpecQ :=
  ((List.range c.elevator_passenger_count).map fun i =>
    mkSpaceSpec ("elevator_passenger_" ++ toString (i + 1)) .CIRCULATION
      ("Passenger Elevator " ++ toString (i + 1)) c.elevator_passenger_sf
      (some c.elevatorWidth) (some c.elevatorDepth) 1 .VERTICAL false [] true) ++
  ((List.range c.elevator_freight_count).map fun i =>
    mkSpaceSpec ("elevator_freight_" ++ toString (i + 1)) .CIRCULATION
      ("Freight Elevator " ++ toString (i + 1)) c.elevator_freight_sf
      (some 10) (some (c.elevator_freight_sf / 10)) 1 .VERTICAL false [] true) ++
  ((List.range c.stair_count).map fun i =>
    mkSpaceSpec ("stair_" ++ toString (i + 1)) .CIRCULATION
      ("Stair " ++ toString (i + 1)) c.stair_sf
      (some c.stairWidth) (some c.stairDepth) 1 .VERTICAL false [] true) ++
  (if 0 < c.vestibule_lobby_sf then
    [mkSpaceSpec "elevator_lobby" .CIRCULATION "Elevator Lobby"
      c.vestibule_lobby_sf none none 1 .ALL_RESIDENTIAL false [] false]
  else [])

/-- Cosine of an integer angle in degrees, for the angles the data model
admits: sheaf.py restricts `Space.rotation` to `{0, 90, 180, 270}` and the
solver writes only 0 and 90 (plus `% 360` normalisation in `Space.place`).
Angles outside that set never occur in the modeled flows; they default to
the 0° values so that `cosDeg d ^ 2 + sinDeg d ^ 2 = 1` always holds. -/
def cosDeg (d : ℤ) : ℚ :=
  if d % 360 = 0 then 1 else if d % 360 = 90 then 0
  else if d % 360 = 180 then -1 else if d % 360 = 270 then 0 else 1

/-- Sine of an integer angle in degrees; see `cosDeg`. -/
def sinDeg (d : ℤ) : ℚ :=
  if d % 360 = 0 then 0 else if d % 360 = 90 then 1
  else if d % 360 = 180 then 0 else if d % 360 = 270 then -1 else 0

/-- Concrete space instance from sheaf.py (`Space`). -/
structure SpaceQ where
  id : String
  spec : SpaceSpecQ
  floor_index : ℤ
  position : Option (Pt ℚ)
  rotation : ℤ
  actual_width : Option ℚ
  actual_height : Option ℚ
  membership : ℚ
  is_fixed : Bool
  placement_priority : ℤ
deriving DecidableEq, Repr

namespace SpaceQ

/-- Constructor mirroring `Space.__post_init__`: fresh spaces are unplaced
with rotation 0 and membership 1, and vertical elements get priority 100. -/
def mk0 (id : String) (spec : SpaceSpecQ) (floor_index : ℤ)
    (placement_priority : ℤ := 0) : SpaceQ :=
  ⟨id, spec, floor_index, none, 0, none, none, 1, false,
   if spec.is_vertical then 100 else placement_priority⟩

/-- Placement state (`Space.is_placed`). -/
def isPlaced (s : SpaceQ) : Bool := s.position.isSome

/-- Effective width considering rotation and fuzzy scaling (`Space.width`):
the literal membership test `rotation in [90, 270]` from the source. -/
def width (s : SpaceQ) : ℚ :=
  let w := s.actual_width.getD s.spec.width_ft
  let h := s.actual_height.getD s.spec.height_ft
  if s.rotation = 90 ∨ s.rotation = 270 then h else w

/-- Effective height considering rotation and fuzzy scaling (`Space.height`). -/
def height (s : SpaceQ) : ℚ :=
  let w := s.actual_width.getD s.spec.width_ft
  let h := s.actual_height.getD s.spec.height_ft
  if s.rotation = 90 ∨ s.rotation = 270 then w else h

/-- Actual area after fuzzy scaling (`Space.actual_area`). -/
def actualArea (s : SpaceQ) : ℚ := s.width * s.height

/-- Set fuzzy-scaled dimensions (`Space.set_fuzzy_dimensions`). -/
def setFuzzyDimensions (s : SpaceQ) (w h m : ℚ) : SpaceQ :=
  { s with actual_width := some w, actual_height := some h, membership := m }

/-- Rectangle geometry, or `none` when unplaced (`Space.try_geometry`;
`Space.geometry` raises in that case).  The rectangle takes the unswapped
actual-or-spec dimensions together with the rotation, exactly as the source
builds `Rectangle(x, y, w, h, rotation)`. -/
def tryGeometry (s : SpaceQ) : Option (Rect ℚ) :=
  match s.position with
  | none => none
  | some p =>
    some ⟨p.x, p.y, s.actual_width.getD s.spec.width_ft,
          s.actual_height.getD s.spec.height_ft, cosDeg s.rotation, sinDeg s.rotation⟩

/-- Place at a position (`Space.place`): the rotation argument defaults to 0
and is stored modulo 360. -/
def place (s : SpaceQ) (x y : ℚ) (rotation : ℤ := 0) : SpaceQ :=
  { s with position := some ⟨x, y⟩, rotation := rotation % 360 }

/-- Remove placement (`Space.unplace`). -/
def unplace (s : SpaceQ) : SpaceQ := { s with position := none, rotation := 0 }

end SpaceQ

/-- Floor patch from sheaf.py (`FloorPatch`). -/
structure FloorPatchQ where
  index : ℤ
  floor_type : FloorType
  domain : Polygon ℚ
  spaces : List SpaceQ
deriving DecidableEq, Repr

namespace FloorPatchQ

/-- Placed subset (`FloorPatch.placed_spaces`). -/
def placedSpaces (p : FloorPatchQ) : List SpaceQ := p.spaces.filter (·.isPlaced)

/-- Unplaced subset (`FloorPatch.unplaced_spaces`). -/
def unplacedSpaces (p : FloorPatchQ) : List SpaceQ := p.spaces.filter (fun s => !s.isPlaced)

/-- Append a space, rehoming its floor index (`FloorPatch.add_space`). -/
def addSpace (p : FloorPatchQ) (s : SpaceQ) : FloorPatchQ :=
  { p with spaces := p.spaces ++ [{ s with floor_index := p.index }] }

/-- Vertical-element subset (`FloorPatch.get_vertical_spaces`). -/
def verticalSpaces (p : FloorPatchQ) : List SpaceQ := p.spaces.filter (·.spec.is_vertical)

/-- Boundary check (`FloorPatch.check_boundary`): placed and fully inside the
floor polygon. -/
def checkBoundary (p : FloorPatchQ) (s : SpaceQ) : Bool :=
  match s.tryGeometry with
  | none => false
  | some g => p.domain.containsRectangle g

end FloorPatchQ

/-- Vertical stalk from sheaf.py (`VerticalStalk`). -/
structure VerticalStalkQ where
  id : String
  element_type : String
  spec : SpaceSpecQ
  floor_range : ℤ × ℤ
  position : Option (Pt ℚ)
  rotation : ℤ
deriving DecidableEq, Repr

namespace VerticalStalkQ

/-- Placement state (`VerticalStalk.is_placed`). -/
def isPlaced (st : VerticalStalkQ) : Bool := st.position.isSome

/-- Spanned floor indices (`VerticalStalk.floors`): the inclusive range. -/
def floors (st : VerticalStalkQ) : List ℤ := pyRange st.floor_range.1 (st.floor_range.2 + 1) 1

/-- Place the stalk (`VerticalStalk.place`); unlike `Space.place` the source
stores the rotation argument without normalisation. -/
def place (st : VerticalStalkQ) (x y : ℚ) (rotation : ℤ := 0) : VerticalStalkQ :=
  { st with position := some ⟨x, y⟩, rotation := rotation }

/-- Rectangle geometry from the spec dimensions (`VerticalStalk.get_geometry`). -/
def getGeometry (st : VerticalStalkQ) : Option (Rect ℚ) :=
  match st.position with
  | none => none
  | some p =>
    some ⟨p.x, p.y, st.spec.width_ft, st.spec.height_ft, cosDeg st.rotation, sinDeg st.rotation⟩

end VerticalStalkQ

/-- Stable insertion into a sorted list: the new element goes before the first
element it compares `le` to, which preserves original order among equals. -/
def insertLe {β : Type} (le : β → β → Bool) (x : β) : List β → List β
  | [] => [x]
  | y :: t => if le x y then x :: y :: t else y :: insertLe le x t

/-- Stable insertion sort, standing in for Python's stable `sorted`. -/
def sortLe {β : Type} (le : β → β → Bool) : List β → List β
  | [] => []
  | x :: t => insertLe le x (sortLe le t)

/-- Building sheaf from sheaf.py (`Sheaf`).  The source keys patches by floor
index in a dict; the embedding keeps them as a list in insertion order
(`construct_sheaf` inserts each index exactly once, so index lookup is
unambiguous). -/
structure SheafQ where
  patches : List FloorPatchQ
  stalks : List VerticalStalkQ
  building : Option BuildingSpecQ
deriving DecidableEq, Repr

namespace SheafQ

/-- Patch lookup by floor index (`Sheaf.get_patch`). -/
def getPatch (sheaf : SheafQ) (i : ℤ) : Option FloorPatchQ :=
  sheaf.patches.find? (fun p => p.index = i)

/-- Floor type of a floor index, when present. -/
def floorTypeAt (sheaf : SheafQ) (i : ℤ) : Option FloorType :=
  (sheaf.getPatch i).map (·.floor_type)

/-- Sorted floor indices (`Sheaf.floor_indices`). -/
def floorIndices (sheaf : SheafQ) : List ℤ :=
  sortLe (fun a b => a ≤ b) (sheaf.patches.map (·.index))

/-- Number of floors (`Sheaf.num_floors`). -/
def numFloors (sheaf : SheafQ) : ℕ := sheaf.patches.length

/-- Largest floor index, 0 when empty (`Sheaf.max_floor`). -/
def maxFloor (sheaf : SheafQ) : ℤ :=
  match sheaf.patches.map (·.index) with
  | [] => 0
  | i :: t => t.foldl max i

/-- Rewrite the patch with the given index (the source mutates the dict
entry; indices are unique, see `SheafQ`). -/
def modifyPatch (sheaf : SheafQ) (i : ℤ) (f : FloorPatchQ → FloorPatchQ) : SheafQ :=
  { sheaf with patches := sheaf.patches.map (fun p => if p.index = i then f p else p) }

/-- All spaces across all floors (`Sheaf.get_all_spaces`). -/
def getAllSpaces (sheaf : SheafQ) : List SpaceQ :=
  (sheaf.patches.map (·.spaces)).flatten

end SheafQ

/-- Match test from `Sheaf.propagate_stalk_positions`: the space on a floor
corresponding to a stalk has id `{stalk.id}_f{floor}` or exactly the stalk id. -/
def stalkMatchId (st : VerticalStalkQ) (floorIdx : ℤ) (id : String) : Bool :=
  id == st.id ++ "_f" ++ toString floorIdx || id == st.id

/-- Per-space effect of `Sheaf.propagate_stalk_positions`: fold over the
stalks in order; every placed stalk whose floor list contains this patch's
index and whose id pattern matches rewrites the space's position/rotation
via `Space.place`. -/
def propagateIntoSpace (stalks : List VerticalStalkQ) (floorIdx : ℤ) (s : SpaceQ) : SpaceQ :=
  stalks.foldl (fun sp st =>
    match st.position with
    | none => sp
    | some pos =>
      if st.floors.contains floorIdx && stalkMatchId st floorIdx sp.id then
        sp.place pos.x pos.y st.rotation
      else sp) s

/-- Propagation of stalk positions (`Sheaf.propagate_stalk_positions`).
The source loops stalks outermost, then each stalk's floors, looking the
patch up by its unique index and rewriting matching spaces in place;
distinct patches are disjoint state, so this equals rewriting each patch's
spaces by the stalk fold `propagateIntoSpace`. -/
def propagateStalkPositions (sheaf : SheafQ) : SheafQ :=
  { sheaf with patches := sheaf.patches.map (fun p =>
      { p with spaces := p.spaces.map (propagateIntoSpace sheaf.stalks p.index) }) }

/-- Per-side overflow of a geometry beyond a bounding box, from the boundary
section of `Sheaf.compute_cohomology` (also `BoundaryConstraint.evaluate`). -/
def boundaryOverflow (bbox geom : Rect ℚ) : ℚ :=
  (if geom.left < bbox.left then bbox.left - geom.left else 0) +
  (if bbox.right < geom.right then geom.right - bbox.right else 0) +
  (if geom.bottom < bbox.bottom then bbox.bottom - geom.bottom else 0) +
  (if bbox.top < geom.top then geom.top - bbox.top else 0)

/-- Ordered pairs `(l[i], l[j])` with `i < j`, as produced by the source's
`for i, s1 in enumerate(l): for s2 in l[i+1:]` loops. -/
def offDiagPairs {β : Type} : List β → List (β × β)
  | [] => []
  | x :: t => (t.map (fun y => (x, y))) ++ offDiagPairs t

/-- Boundary part of `Sheaf.compute_cohomology` for one patch: every placed
space failing `check_boundary` contributes its bounding-box overflow. -/
def patchBoundaryObstruction (p : FloorPatchQ) : ℚ :=
  (p.placedSpaces.map (fun s =>
    match s.tryGeometry with
    | none => 0
    | some geom =>
      if p.checkBoundary s then 0 else boundaryOverflow (p.domain.boundingBox) geom)).sum

/-- Overlap part of `Sheaf.compute_cohomology` for one patch: every pair of
placed spaces contributes its positive intersection area. -/
def patchOverlapObstruction (p : FloorPatchQ) : ℚ :=
  ((offDiagPairs p.placedSpaces).map (fun pr =>
    match pr.1.tryGeometry, pr.2.tryGeometry with
    | some g1, some g2 =>
      let a := g1.intersectionArea g2
      if 0 < a then a else 0
    | _, _ => 0)).sum

/-- Placed positions of a stalk's per-floor spaces, collected in floor order
exactly as `Sheaf.compute_cohomology` does (prefix match on the stalk id). -/
def stalkPositions (sheaf : SheafQ) (st : VerticalStalkQ) : List (Pt ℚ) :=
  (st.floors.map (fun fi =>
    match sheaf.getPatch fi with
    | none => []
    | some p => p.spaces.filterMap (fun s =>
        if st.id.isPrefixOf s.id then s.position else none))).flatten

/-- Vertical-alignment part of `Sheaf.compute_cohomology`: for each placed
stalk, the Manhattan distances of its instance positions to the first one. -/
def alignmentObstruction (sheaf : SheafQ) : ℚ :=
  (sheaf.stalks.map (fun st =>
    if st.isPlaced then
      match stalkPositions sheaf st with
      | [] => 0
      | ref :: rest => (rest.map (fun pos => |pos.x - ref.x| + |pos.y - ref.y|)).sum
    else 0)).sum

/-- Cohomological obstruction (`Sheaf.compute_cohomology`): boundary
violations plus pairwise overlap areas per floor, plus stalk misalignment. -/
def computeCohomology (sheaf : SheafQ) : ℚ :=
  (sheaf.patches.map (fun p => patchBoundaryObstruction p + patchOverlapObstruction p)).sum +
  alignmentObstruction sheaf

/-- Counter lookup in the unit-type counter map of `construct_sheaf`. -/
def counterGet (l : List (String × ℕ)) (k : String) : ℕ :=
  ((l.find? (fun pr => pr.1 == k)).map (·.2)).getD 0

/-- Counter update in the unit-type counter map of `construct_sheaf`. -/
def counterSet (l : List (String × ℕ)) (k : String) (v : ℕ) : List (String × ℕ) :=
  if (l.find? (fun pr => pr.1 == k)).isSome then
    l.map (fun pr => if pr.1 == k then (pr.1, v) else pr)
  else l ++ [(k, v)]

/-- Floor assignment of one non-vertical space spec (`assign_space_to_floors`):
select floors by the assignment rule (defaulting to the ground floor when the
rule yields none) and add `count` instances to each, with the source's id
scheme and priorities. -/
def assignSpaceToFloors (sheaf : SheafQ) (spec : SpaceSpecQ) : SheafQ :=
  let idxs := sheaf.floorIndices
  let floors0 : List ℤ :=
    match spec.floor_assignment with
    | .GROUND => [0]
    | .BASEMENT => idxs.filter (fun i => i < 0)
    | .TYPICAL => idxs.filter (fun i => sheaf.floorTypeAt i = some .RESIDENTIAL_TYPICAL)
    | .ALL => idxs
    | .ALL_RESIDENTIAL => idxs.filter (fun i =>
        sheaf.floorTypeAt i = some .RESIDENTIAL_TYPICAL ∨
        sheaf.floorTypeAt i = some .GROUND ∨ sheaf.floorTypeAt i = some .PODIUM)
    | .ROOF => [sheaf.maxFloor]
    | .PODIUM => idxs.filter (fun i => sheaf.floorTypeAt i = some .PODIUM)
    | .VERTICAL => []
  let floors := if floors0.isEmpty then [0] else floors0
  floors.foldl (fun sh floorIdx =>
    match sh.getPatch floorIdx with
    | none => sh
    | some _ =>
      let spaceId := if 1 < floors.length then spec.id ++ "_f" ++ toString floorIdx else spec.id
      (List.range spec.count).foldl (fun sh2 j =>
        let instanceId := if 1 < spec.count then spaceId ++ "_" ++ toString (j + 1) else spaceId
        sh2.modifyPatch floorIdx (fun p => p.addSpace
          (SpaceQ.mk0 instanceId spec floorIdx
            (if spec.category = .SUPPORT then 5 else 1)))) sh) sheaf

/-- Sheaf construction (`construct_sheaf`): floor patches over the index range
`[-stories_below_grade, stories_above_grade - 1]` with square floor plates;
circulation specs become stalks with one unplaced space per spanned floor;
dwelling units are round-robin distributed over typical-residential floors;
support, staff, indoor amenity and MEP specs go through
`assign_space_to_floors`.  The lot geometry argument is accepted but unused
by the source. -/
def constructSheaf (building : BuildingSpecQ) (lotGeometry : Polygon ℚ) : SheafQ :=
  let _ := lotGeometry
  let startFloor : ℤ := -(building.stories_below_grade : ℤ)
  let endFloor : ℤ := (building.stories_above_grade : ℤ) - 1
  let floorIdxs := pyRange startFloor (endFloor + 1) 1
  let fpSide := building.floorPlateWidth
  let sheaf0 : SheafQ :=
    ⟨floorIdxs.map (fun i =>
        ⟨i, building.getFloorType i, Polygon.rectangle fpSide fpSide, []⟩),
      [], some building⟩
  let circSpecs := createCirculationSpaces building.circulation
  let sheaf1 := circSpecs.foldl (fun sh spec =>
    if spec.is_vertical then
      let stalk : VerticalStalkQ :=
        ⟨spec.id, (spec.id.splitOn "_").headD "", spec, (startFloor, endFloor), none, 0⟩
      let sh2 := { sh with stalks := sh.stalks ++ [stalk] }
      floorIdxs.foldl (fun sh3 fi =>
        sh3.modifyPatch fi (fun p => p.addSpace
          (SpaceQ.mk0 (spec.id ++ "_f" ++ toString fi) spec fi 100))) sh2
    else assignSpaceToFloors sh spec) sheaf0
  let residentialFloors := sheaf1.floorIndices.filter (fun i =>
    sheaf1.floorTypeAt i = some .RESIDENTIAL_TYPICAL)
  let sheaf2 :=
    if residentialFloors.isEmpty then sheaf1
    else
      -- the source also computes `units_per_floor or 20` here but never uses it
      (building.dwelling_units.foldl (fun (acc : SheafQ × List (String × ℕ)) unitSpec =>
        (List.range unitSpec.spec.count).foldl (fun acc2 _ =>
          let n := counterGet acc2.2 unitSpec.dwelling_type + 1
          let counters := counterSet acc2.2 unitSpec.dwelling_type n
          let fi := residentialFloors.getD ((n - 1) % residentialFloors.length) 0
          let sp := SpaceQ.mk0 ("unit_" ++ unitSpec.dwelling_type ++ "_" ++ toString n)
            unitSpec.spec fi 10
          (acc2.1.modifyPatch fi (fun p => p.addSpace sp), counters)) acc)
        (sheaf1, [])).1
  let sheaf3 := building.support_spaces.foldl (fun sh spec => assignSpaceToFloors sh spec) sheaf2
  let sheaf4 := building.staff_spaces.foldl (fun sh spec => assignSpaceToFloors sh spec) sheaf3
  let sheaf5 := building.amenity_indoor.foldl (fun sh spec => assignSpaceToFloors sh spec) sheaf4
  building.mep_spaces.foldl (fun sh spec => assignSpaceToFloors sh spec) sheaf5

/-- Substring containment, Python's `needle in hay` on strings. -/
def strContains (hay needle : String) : Bool :=
  hay.data.tails.any (fun t => needle.data.isPrefixOf t)

/-- Euclidean distance (`Point.distance_to`) at ℚ, with the `sqrtQ` stand-in
for `math.sqrt`. -/
def distQ (a b : Pt ℚ) : ℚ := sqrtQ ((a.x - b.x) ^ 2 + (a.y - b.y) ^ 2)

/-- Lookup in the solver's `{s.id: s for s in all_spaces}` dict: a Python dict
comprehension keeps the last binding for a duplicated id, so lookup scans the
space list from the end. -/
def dictGet (spaces : List SpaceQ) (k : String) : Option SpaceQ :=
  spaces.reverse.find? (fun s => s.id == k)

/-- Constraint variants from constraints.py.  The source uses an abstract
base class with one dataclass per variant; the closed set of variants becomes
an inductive. -/
inductive ConstraintQ where
  | boundary (space_id : String) (boundary : Polygon ℚ)
  | nonOverlap (space_a_id space_b_id : String)
  | alignment (stalk_id : String) (space_ids : List String)
  | adjacency (space_a_id space_b_id : String) (min_contact_ft : ℚ)
  | minimumDistance (space_a_id space_b_id : String) (min_distance_ft : ℚ)
deriving DecidableEq, Repr

/-- Constraint evaluation (`Constraint.evaluate` of each variant): a
nonnegative violation magnitude, with the source's handling of missing and
unplaced spaces (0 for "can't evaluate", except the full `min_contact_ft`
penalty when an adjacency constraint references an absent space). -/
def evalConstraint (c : ConstraintQ) (spaces : List SpaceQ) : ℚ :=
  match c with
  | .boundary sid bnd =>
    match dictGet spaces sid with
    | none => 0
    | some s =>
      match s.tryGeometry with
      | none => 0
      | some geom => boundaryOverflow bnd.boundingBox geom
  | .nonOverlap aid bid =>
    match dictGet spaces aid, dictGet spaces bid with
    | some a, some b =>
      (match a.tryGeometry, b.tryGeometry with
       | some ga, some gb => ga.intersectionArea gb
       | _, _ => 0)
    | _, _ => 0
  | .alignment _ sids =>
    let positions := sids.filterMap (fun sid => (dictGet spaces sid).bind (·.position))
    (match positions with
     | [] => 0
     | [_] => 0
     | ref :: rest => (rest.map (fun pos => |pos.x - ref.x| + |pos.y - ref.y|)).sum)
  | .adjacency aid bid mc =>
    match dictGet spaces aid, dictGet spaces bid with
    | none, _ => mc
    | _, none => mc
    | some a, some b =>
      match a.tryGeometry, b.tryGeometry with
      | some ga, some gb =>
        let shared := ga.sharedEdgeLength gb
        if mc ≤ shared then 0 else mc - shared
      | _, _ => 0
  | .minimumDistance aid bid md =>
    match dictGet spaces aid, dictGet spaces bid with
    | some a, some b =>
      (match a.position, b.position with
       | some pa, some pb =>
         let dist := distQ pa pb
         if md ≤ dist then 0 else md - dist
       | _, _ => 0)
    | _, _ => 0

/-- Sum of all constraint violations (`ConstraintSet.total_violation`). -/
def totalViolation (cs : List ConstraintQ) (spaces : List SpaceQ) : ℚ :=
  (cs.map (fun c => evalConstraint c spaces)).sum

/-- Violated constraints above the tolerance (`ConstraintSet.get_violations`). -/
def getViolations (cs : List ConstraintQ) (spaces : List SpaceQ)
    (tolerance : ℚ := 1 / 100) : List (ConstraintQ × ℚ) :=
  (cs.map (fun c => (c, evalConstraint c spaces))).filter (fun pr => decide (tolerance < pr.2))

/-- Constraints for a single floor (`build_floor_constraints`): a boundary
constraint per space and a non-overlap constraint per space pair.  The source
also computes corridor/unit lists for adjacency constraints but deliberately
adds none ("For now, skip explicit adjacency constraints"). -/
def buildFloorConstraints (p : FloorPatchQ) : List ConstraintQ :=
  (p.spaces.map (fun s => ConstraintQ.boundary s.id p.domain)) ++
  ((offDiagPairs p.spaces).map (fun pr => ConstraintQ.nonOverlap pr.1.id pr.2.id))

/-- Last space in a patch whose id has the given prefix; the source's
`for space in patch.spaces` scan overwrites its local on every match. -/
def lastWithPrefix (spaces : List SpaceQ) (pre : String) : Option SpaceQ :=
  spaces.reverse.find? (fun s => pre.isPrefixOf s.id)

/-- Constraints for the whole sheaf (`build_sheaf_constraints`): the per-floor
constraints, one alignment constraint per stalk with more than one matching
per-floor space, and a fire-egress minimum-distance constraint (one third of
the floor diagonal) for each stair pair, attached to the first floor hosting
spaces of both stairs. -/
def buildSheafConstraints (sheaf : SheafQ) : List ConstraintQ :=
  let localCs := (sheaf.patches.map buildFloorConstraints).flatten
  let alignCs := sheaf.stalks.filterMap (fun st =>
    let ids := (st.floors.map (fun fi =>
      match sheaf.getPatch fi with
      | none => []
      | some p => (p.spaces.filter (fun s => st.id.isPrefixOf s.id)).map (·.id))).flatten
    if 1 < ids.length then some (ConstraintQ.alignment st.id ids) else none)
  let stairStalks := sheaf.stalks.filter (fun st => strContains st.element_type "stair")
  let stairCs :=
    if 2 ≤ stairStalks.length then
      match sheaf.building with
      | none => []
      | some b =>
        let minStairDist := b.floorPlateWidth * (1414 / 1000) / 3
        (offDiagPairs stairStalks).filterMap (fun pr =>
          (sheaf.patches.filterMap (fun p =>
            match lastWithPrefix p.spaces pr.1.id, lastWithPrefix p.spaces pr.2.id with
            | some s1, some s2 =>
              some (ConstraintQ.minimumDistance s1.id s2.id minStairDist)
            | _, _ => none)).head?)
    else []
  localCs ++ alignCs ++ stairCs

/-- Fuzzy-scaled space value object (`FuzzySpace`). -/
structure FuzzySpaceQ where
  target_width : ℚ
  target_height : ℚ
  target_area : ℚ
  actual_width : ℚ
  actual_height : ℚ
  actual_area : ℚ
  membership : ℚ
  scale_factor : ℚ
deriving DecidableEq, Repr

/-- General 2D fuzzy scaling (`fuzzy_scale_to_fit`): grow or shrink into the
`max_width × max_height` envelope per the configured scale mode, clamp the
aspect ratio into its configured band, recompute area and membership.
`math.sqrt` in the proportional shrink floor is the `sqrtQ` stand-in. -/
def fuzzyScaleToFit (target_width target_height max_width max_height : ℚ)
    (config : FuzzyConfig ℚ) : FuzzySpaceQ :=
  let target_area := target_width * target_height
  if target_width ≤ max_width ∧ target_height ≤ max_height then
    let scale_w := max_width / target_width
    let scale_h := max_height / target_height
    let awah : ℚ × ℚ :=
      if config.scale_mode = "proportional" then
        let max_scale := min (min scale_w scale_h) (1 + config.max_growth)
        if 1 < max_scale then (target_width * max_scale, target_height * max_scale)
        else (target_width, target_height)
      else (target_width, target_height)
    let actual_area := awah.1 * awah.2
    ⟨target_width, target_height, target_area, awah.1, awah.2, actual_area,
     fuzzyAreaMembership actual_area target_area config.area_tolerance,
     if 0 < target_width then awah.1 / target_width else 1⟩
  else
    let awah0 : ℚ × ℚ :=
      if config.scale_mode = "proportional" then
        let scale_w := if 0 < target_width then max_width / target_width else 1
        let scale_h := if 0 < target_height then max_height / target_height else 1
        let scale := max (min scale_w scale_h) (sqrtQ (1 - config.max_shrink))
        (target_width * scale, target_height * scale)
      else if config.scale_mode = "height_priority" then
        (if max_height < target_height then
          let area_needed := target_area * (1 - config.area_tolerance * (1 / 2))
          (min (area_needed / max_height) max_width, max_height)
        else (min target_width max_width, target_height))
      else if config.scale_mode = "width_priority" then
        (if max_width < target_width then
          let area_needed := target_area * (1 - config.area_tolerance * (1 / 2))
          (max_width, min (area_needed / max_width) max_height)
        else (target_width, min target_height max_height))
      else
        let scale := min (max_width / target_width) (max_height / target_height)
        (target_width * scale, target_height * scale)
    let ratio := if 0 < awah0.2 then awah0.1 / awah0.2 else 1
    let awah1 : ℚ × ℚ :=
      if ratio < config.aspect_ratio_min then
        let aw := awah0.2 * config.aspect_ratio_min
        (if max_width < aw then max_width else aw, awah0.2)
      else if config.aspect_ratio_max < ratio then
        let ah := awah0.1 / config.aspect_ratio_max
        (awah0.1, if max_height < ah then max_height else ah)
      else awah0
    let actual_area := awah1.1 * awah1.2
    ⟨target_width, target_height, target_area, awah1.1, awah1.2, actual_area,
     fuzzyAreaMembership actual_area target_area config.area_tolerance,
     if 0 < target_width then awah1.1 / target_width else 1⟩

/-- Solver configuration (`SolverConfig`); `random_seed` only seeds Python's
global RNG, which no placement path consults, and is not modeled. -/
structure SolverConfigQ where
  max_iterations : ℕ
  tolerance : ℚ
  grid_snap : ℚ
  corridor_width : ℚ
  allow_rotation : Bool
  core_margin : ℚ
  unit_spacing : ℚ
  margin : ℚ
  fuzzy : FuzzyConfig ℚ
deriving DecidableEq, Repr

/-- Default `SolverConfig` values from solver.py. -/
def SolverConfigQ.default : SolverConfigQ :=
  ⟨1000, 1 / 100, 1, 367 / 100, true, 1, 367 / 100, 1, FuzzyConfig.default⟩

/-- Solver result (`SolverResult`).  The human-readable `message` and the
formatted violation strings are display-only renderings of the fields below
and are not modeled; the sheaf is always present on this code path. -/
structure SolverResultQ where
  success : Bool
  sheaf : SheafQ
  obstruction : ℚ
  iterations : ℕ
  placement_rate : ℚ
  avg_membership : ℚ
  total_spaces : ℕ
  placed_spaces : ℕ
deriving DecidableEq, Repr

/-- Rewrite the space with the given id inside a patch (the source mutates
the `Space` object held in `patch.spaces`; ids are unique within a patch in
every constructed sheaf). -/
def FloorPatchQ.updateSpace (p : FloorPatchQ) (id : String) (f : SpaceQ → SpaceQ) : FloorPatchQ :=
  { p with spaces := p.spaces.map (fun s => if s.id == id then f s else s) }

/-- Core exclusion zone (`compute_core_exclusion_zone`): bounding box of the
placed stalks (preferred) or of the floor's placed vertical spaces, inflated
by the margin; `none` when there is nothing to exclude. -/
def computeCoreExclusionZone (patch : FloorPatchQ) (sheaf : Option SheafQ)
    (margin : ℚ := 3) : Option (Rect ℚ) :=
  let posX : VerticalStalkQ → ℚ := fun s => match s.position with | some p => p.x | none => 0
  let posY : VerticalStalkQ → ℚ := fun s => match s.position with | some p => p.y | none => 0
  let fromStalks : Option (Rect ℚ) :=
    match sheaf with
    | none => none
    | some sh =>
      if sh.stalks.isEmpty then none
      else
        let placedStalks := sh.stalks.filter (·.isPlaced)
        if placedStalks.isEmpty then none
        else
          let minX := Rect.listMin (placedStalks.map (fun s => posX s - s.spec.width_ft / 2))
          let maxX := Rect.listMax (placedStalks.map (fun s => posX s + s.spec.width_ft / 2))
          let minY := Rect.listMin (placedStalks.map (fun s => posY s - s.spec.height_ft / 2))
          let maxY := Rect.listMax (placedStalks.map (fun s => posY s + s.spec.height_ft / 2))
          some (Rect.axisAligned ((minX + maxX) / 2) ((minY + maxY) / 2)
            ((maxX - minX) + 2 * margin) ((maxY - minY) + 2 * margin))
  match fromStalks with
  | some r => some r
  | none =>
    let spX : SpaceQ → ℚ := fun s => match s.position with | some p => p.x | none => 0
    let spY : SpaceQ → ℚ := fun s => match s.position with | some p => p.y | none => 0
    let verticalSpaces := patch.verticalSpaces
    if verticalSpaces.isEmpty then none
    else
      let placedVertical := verticalSpaces.filter (·.isPlaced)
      if placedVertical.isEmpty then none
      else
        let minX := Rect.listMin (placedVertical.map (fun s => spX s - s.width / 2))
        let maxX := Rect.listMax (placedVertical.map (fun s => spX s + s.width / 2))
        let minY := Rect.listMin (placedVertical.map (fun s => spY s - s.height / 2))
        let maxY := Rect.listMax (placedVertical.map (fun s => spY s + s.height / 2))
        some (Rect.axisAligned ((minX + maxX) / 2) ((minY + maxY) / 2)
          ((maxX - minX) + 2 * margin) ((maxY - minY) + 2 * margin))

/-- Overlap test from `place_residential_floor.has_overlap`: the candidate
rectangle (axis-aligned) overlaps a placed space by more than 1 square foot,
or intersects the core exclusion zone. -/
def hasOverlapQ (patch : FloorPatchQ) (coreZone : Option (Rect ℚ)) (x y w h : ℚ) : Bool :=
  let testRect := Rect.axisAligned x y w h
  (patch.placedSpaces.any (fun other =>
    match other.tryGeometry with
    | some g => decide (1 < testRect.intersectionArea g)
    | none => false)) ||
  (match coreZone with
   | some cz => testRect.intersects cz
   | none => false)

/-- Candidate centers for the radial scans of `place_residential_floor`.
The first component is the SQUARED distance to the floor center: the source
sorts tuples `(dist, x, y)` with `dist = sqrt(...)`, and `sqrt` is strictly
monotone, so ordering by the square is the same ordering. -/
def residentialCandidatePositions (fb : Rect ℚ) (margin w h : ℚ)
    (scanStep : ℤ) : List (ℚ × ℚ × ℚ) :=
  ((pyRange (pyInt (fb.bottom + margin)) (pyInt (fb.top - margin - h)) scanStep).map (fun sy =>
    (pyRange (pyInt (fb.left + margin)) (pyInt (fb.right - margin - w)) scanStep).map (fun sx =>
      let x := (sx : ℚ) + w / 2
      let y := (sy : ℚ) + h / 2
      (((x - fb.x) ^ 2 + (y - fb.y) ^ 2, x, y) : ℚ × ℚ × ℚ)))).flatten

/-- Lexicographic order on `(dist, x, y)` candidate tuples, Python's tuple
comparison used by `positions.sort()`. -/
def tripleLexLe (a b : ℚ × ℚ × ℚ) : Bool :=
  decide (a.1 < b.1 ∨ (a.1 = b.1 ∧ (a.2.1 < b.2.1 ∨ (a.2.1 = b.2.1 ∧ a.2.2 ≤ b.2.2))))

/-- One radial placement step of `place_residential_floor`: assign the
space its target dimensions with membership 1, scan candidates sorted by
distance from the floor center (descending for units, ascending for
back-of-house), and place at the first non-overlapping one. -/
def placeOneRadial (pch : FloorPatchQ) (coreZone : Option (Rect ℚ)) (fb : Rect ℚ)
    (margin : ℚ) (scanStep : ℤ) (sp : SpaceQ) (outwardFirst : Bool) : FloorPatchQ :=
  let sp1 := sp.setFuzzyDimensions sp.spec.width_ft sp.spec.height_ft 1
  let cands := residentialCandidatePositions fb margin sp1.width sp1.height scanStep
  let sorted := if outwardFirst then sortLe (fun a b => tripleLexLe b a) cands
    else sortLe tripleLexLe cands
  let found := sorted.find? (fun c => !(hasOverlapQ pch coreZone c.2.1 c.2.2 sp1.width sp1.height))
  let sp2 := match found with
    | some c => sp1.place c.2.1 c.2.2
    | none => sp1
  pch.updateSpace sp1.id (fun _ => sp2)

/-- Residential floor placement (`place_residential_floor`): re-split the
given spaces into units and back-of-house, sort each by descending area,
place units perimeter-inward then back-of-house core-outward on a 5 ft scan
grid, excluding the core zone (margin 2 ft). -/
def placeResidentialFloor (patch : FloorPatchQ) (units support : List SpaceQ)
    (config : SolverConfigQ) (sheaf : Option SheafQ) : FloorPatchQ :=
  let fb := patch.domain.boundingBox
  let margin := config.margin
  let coreZone := computeCoreExclusionZone patch sheaf 2
  let allSpaces := units ++ support
  let units2 := allSpaces.filter (fun s => s.spec.category = SpaceCategory.DWELLING_UNIT)
  let boh := allSpaces.filter (fun s => ¬(s.spec.category = SpaceCategory.DWELLING_UNIT))
  let units3 := sortLe (fun a b => decide (-a.spec.area_sf ≤ -b.spec.area_sf)) units2
  let boh3 := sortLe (fun a b => decide (-a.spec.area_sf ≤ -b.spec.area_sf)) boh
  let scanStep : ℤ := 5
  let patch1 := units3.foldl (fun pch sp => placeOneRadial pch coreZone fb margin scanStep sp true) patch
  boh3.foldl (fun pch sp => placeOneRadial pch coreZone fb margin scanStep sp false) patch1

/-- Position validity (`is_position_valid`): the candidate rectangle (spec
dimensions at the space's current rotation) lies inside the floor polygon
and does not intersect any other placed space. -/
def isPositionValid (patch : FloorPatchQ) (space : SpaceQ) (pos : Pt ℚ)
    (config : SolverConfigQ) : Bool :=
  let _ := config
  let testRect : Rect ℚ := ⟨pos.x, pos.y, space.spec.width_ft, space.spec.height_ft,
    cosDeg space.rotation, sinDeg space.rotation⟩
  patch.domain.containsRectangle testRect &&
  patch.placedSpaces.all (fun other =>
    other.id == space.id ||
    (match other.tryGeometry with
     | some g => !(testRect.intersects g)
     | none => true))

/-- Grid scan of `find_valid_position`: y outer, x inner, first valid center. -/
def gridSearch (patch : FloorPatchQ) (space : SpaceQ) (config : SolverConfigQ)
    (fb : Rect ℚ) (margin hw hh : ℚ) : Option (Pt ℚ) :=
  (pyRange (pyInt (fb.bottom + margin + hh)) (pyInt (fb.top - margin - hh))
      (pyInt config.grid_snap)).findSome? (fun y =>
    (pyRange (pyInt (fb.left + margin + hw)) (pyInt (fb.right - margin - hw))
        (pyInt config.grid_snap)).findSome? (fun x =>
      let pos : Pt ℚ := ⟨(x : ℚ), (y : ℚ)⟩
      if isPositionValid patch space pos config then some pos else none))

/-- Position search (`find_valid_position`): grid search at the current
rotation; on failure, when rotation is allowed and the spec is not square,
the source mutates `space.rotation = 90`, retries with swapped
half-dimensions, and resets the rotation to 0 only if the retry also fails.
The embedding returns the found position together with the space as mutated
by the search. -/
def findValidPosition (patch : FloorPatchQ) (space : SpaceQ) (config : SolverConfigQ) :
    Option (Pt ℚ) × SpaceQ :=
  let fb := patch.domain.boundingBox
  let margin : ℚ := 2
  let hw := space.spec.width_ft / 2
  let hh := space.spec.height_ft / 2
  match gridSearch patch space config fb margin hw hh with
  | some p => (some p, space)
  | none =>
    if config.allow_rotation && decide (space.spec.width_ft ≠ space.spec.height_ft) then
      let spaceR := { space with rotation := 90 }
      match gridSearch patch spaceR config fb margin hh hw with
      | some p => (some p, spaceR)
      | none => (none, { spaceR with rotation := 0 })
    else (none, space)

/-- Edge scan (`try_place_on_edge`): first valid position along one edge at
margin 2, stepping by the grid snap. -/
def tryPlaceOnEdge (patch : FloorPatchQ) (space : SpaceQ) (edge : String)
    (config : SolverConfigQ) : Option (Pt ℚ) :=
  let fb := patch.domain.boundingBox
  let margin : ℚ := 2
  if edge = "bottom" then
    let y := fb.bottom + margin + space.spec.height_ft / 2
    (pyRange (pyInt (fb.left + margin)) (pyInt (fb.right - margin - space.spec.width_ft))
        (pyInt config.grid_snap)).findSome? (fun x =>
      let pos : Pt ℚ := ⟨(x : ℚ) + space.spec.width_ft / 2, y⟩
      if isPositionValid patch space pos config then some pos else none)
  else if edge = "top" then
    let y := fb.top - margin - space.spec.height_ft / 2
    (pyRange (pyInt (fb.left + margin)) (pyInt (fb.right - margin - space.spec.width_ft))
        (pyInt config.grid_snap)).findSome? (fun x =>
      let pos : Pt ℚ := ⟨(x : ℚ) + space.spec.width_ft / 2, y⟩
      if isPositionValid patch space pos config then some pos else none)
  else if edge = "left" then
    let x := fb.left + margin + space.spec.width_ft / 2
    (pyRange (pyInt (fb.bottom + margin)) (pyInt (fb.top - margin - space.spec.height_ft))
        (pyInt config.grid_snap)).findSome? (fun y =>
      let pos : Pt ℚ := ⟨x, (y : ℚ) + space.spec.height_ft / 2⟩
      if isPositionValid patch space pos config then some pos else none)
  else if edge = "right" then
    let x := fb.right - margin - space.spec.width_ft / 2
    (pyRange (pyInt (fb.bottom + margin)) (pyInt (fb.top - margin - space.spec.height_ft))
        (pyInt config.grid_snap)).findSome? (fun y =>
      let pos : Pt ℚ := ⟨x, (y : ℚ) + space.spec.height_ft / 2⟩
      if isPositionValid patch space pos config then some pos else none)
  else none

/-- Perimeter placement (`place_along_perimeter`): walk the four edges in the
source's fixed order for each unplaced space, falling back to
`find_valid_position`; commits are `space.place(pos.x, pos.y)` with the
default rotation 0. -/
def placeAlongPerimeter (patch : FloorPatchQ) (spaces : List SpaceQ)
    (config : SolverConfigQ) : FloorPatchQ :=
  spaces.foldl (fun pch sp =>
    match pch.spaces.find? (fun s => s.id == sp.id) with
    | none => pch
    | some cur =>
      if cur.isPlaced then pch
      else
        match ["bottom", "right", "top", "left"].findSome?
            (fun e => tryPlaceOnEdge pch cur e config) with
        | some pos => pch.updateSpace cur.id (fun s => s.place pos.x pos.y)
        | none =>
          match findValidPosition pch cur config with
          | (some pos, cur2) => pch.updateSpace cur.id (fun _ => cur2.place pos.x pos.y)
          | (none, cur2) => pch.updateSpace cur.id (fun _ => cur2)) patch

/-- Generic placement (`place_generic`): largest target area first, fuzzy
scaling toward half the floor's minimum bounding dimension (kept only when
the membership clears the configured minimum), then the grid search; commits
are `space.place(pos.x, pos.y)` with the default rotation 0. -/
def placeGeneric (patch : FloorPatchQ) (spaces : List SpaceQ)
    (config : SolverConfigQ) : FloorPatchQ :=
  let sortedSpaces := sortLe (fun a b => decide (-a.spec.area_sf ≤ -b.spec.area_sf)) spaces
  let fb := patch.domain.boundingBox
  let maxDim := min fb.effectiveWidth fb.effectiveHeight / 2
  sortedSpaces.foldl (fun pch sp =>
    match pch.spaces.find? (fun s => s.id == sp.id) with
    | none => pch
    | some cur =>
      if cur.isPlaced then pch
      else
        let fz := fuzzyScaleToFit cur.spec.width_ft cur.spec.height_ft maxDim maxDim config.fuzzy
        let cur1 := if config.fuzzy.min_membership ≤ fz.membership then
            cur.setFuzzyDimensions fz.actual_width fz.actual_height fz.membership
          else cur
        match findValidPosition pch cur1 config with
        | (some pos, cur2) => pch.updateSpace cur.id (fun _ => cur2.place pos.x pos.y)
        | (none, cur2) => pch.updateSpace cur.id (fun _ => cur2)) patch

/-- Ground floor placement (`place_ground_floor`): anchor a lobby (by name
substring) at the entry edge, walk the remaining support spaces along the
perimeter, and run leftover units through the generic placement. -/
def placeGroundFloor (patch : FloorPatchQ) (support units : List SpaceQ)
    (config : SolverConfigQ) : FloorPatchQ :=
  let fb := patch.domain.boundingBox
  let entryY := fb.bottom + 10
  let lobby := support.find? (fun s => strContains s.spec.name.toLower "lobby")
  let patch1 := match lobby with
    | some lb => patch.updateSpace lb.id (fun s => s.place fb.x (entryY + lb.spec.height_ft / 2))
    | none => patch
  let remaining := support.filter (fun s =>
    (match lobby with | some lb => !(s.id == lb.id) | none => true) && !s.isPlaced)
  let patch2 := placeAlongPerimeter patch1 remaining config
  if units.isEmpty then patch2 else placeGeneric patch2 units config

/-- Parking/basement floor placement (`place_parking_floor`): MEP and support
along the perimeter. -/
def placeParkingFloor (patch : FloorPatchQ) (spaces : List SpaceQ)
    (config : SolverConfigQ) : FloorPatchQ :=
  placeAlongPerimeter patch spaces config

/-- Per-floor dispatch (`place_floor_spaces`): split the unplaced non-vertical
spaces by category (after a stable sort by descending priority) and dispatch
by floor type. -/
def placeFloorSpaces (sheaf : SheafQ) (patch : FloorPatchQ)
    (config : SolverConfigQ) : FloorPatchQ :=
  let spaces := sortLe (fun a b => decide (-a.placement_priority ≤ -b.placement_priority))
    patch.unplacedSpaces
  let nonVertical := spaces.filter (fun s => !s.spec.is_vertical)
  let units := nonVertical.filter (fun s => s.spec.category = SpaceCategory.DWELLING_UNIT)
  let support := nonVertical.filter (fun s =>
    [SpaceCategory.SUPPORT, SpaceCategory.STAFF, SpaceCategory.CIRCULATION].contains s.spec.category)
  let amenities := nonVertical.filter (fun s =>
    [SpaceCategory.AMENITY_INDOOR, SpaceCategory.AMENITY_OUTDOOR].contains s.spec.category)
  let mep := nonVertical.filter (fun s =>
    [SpaceCategory.ELECTRICAL, SpaceCategory.MECHANICAL, SpaceCategory.PLUMBING,
     SpaceCategory.FIRE_SPRINKLER, SpaceCategory.LOW_VOLTAGE,
     SpaceCategory.DRY_UTILITIES].contains s.spec.category)
  if patch.floor_type = FloorType.RESIDENTIAL_TYPICAL then
    placeResidentialFloor patch units support config (some sheaf)
  else if patch.floor_type = FloorType.GROUND then
    placeGroundFloor patch (support ++ amenities) (units.take 5) config
  else if patch.floor_type = FloorType.BASEMENT ∨
      patch.floor_type = FloorType.PARKING_UNDERGROUND then
    placeParkingFloor patch (mep ++ support) config
  else
    placeGeneric patch nonVertical config

/-- Positional reassignment used to embed the in-place stalk mutations of
`place_vertical_core`: replace the stalks satisfying the predicate, in
order, by the corresponding entries of the updated list.  The three
predicates (elevator/stair/shaft substring of the element type) are mutually
exclusive for every constructed sheaf. -/
def reassignFrom (pred : VerticalStalkQ → Bool) (updated : List VerticalStalkQ)
    (stalks : List VerticalStalkQ) : List VerticalStalkQ :=
  (stalks.foldl (fun (acc : List VerticalStalkQ × List VerticalStalkQ) st =>
    if pred st then
      match acc.2 with
      | [] => (acc.1 ++ [st], [])
      | u :: rest => (acc.1 ++ [u], rest)
    else (acc.1 ++ [st], acc.2)) ([], updated)).1

/-- Vertical core placement (`place_vertical_core`): stalks laid out left to
right around the center of the first floor's bounding box, in the order
stair 1, elevators, stair 2; further stairs go below the center, shafts into
a service strip 3 ft below the core. -/
def placeVerticalCore (sheaf : SheafQ) (config : SolverConfigQ) : SheafQ :=
  if sheaf.stalks.isEmpty then sheaf
  else
    match sheaf.floorIndices with
    | [] => sheaf
    | fi0 :: _ =>
      match sheaf.getPatch fi0 with
      | none => sheaf
      | some firstPatch =>
        let floorBounds := firstPatch.domain.boundingBox
        let floorCx := floorBounds.x
        let floorCy := floorBounds.y
        let elevators := sheaf.stalks.filter (fun s => strContains s.element_type "elevator")
        let stairs := sheaf.stalks.filter (fun s => strContains s.element_type "stair")
        let shafts := sheaf.stalks.filter (fun s => strContains s.element_type "shaft")
        let elevatorTotalWidth : ℚ := if elevators.isEmpty then 0 else
          (elevators.map (fun s => s.spec.width_ft)).sum +
            config.core_margin * ((elevators.length : ℚ) - 1)
        let stairTotalWidth : ℚ := if stairs.isEmpty then 0 else
          (stairs.map (fun s => s.spec.width_ft)).sum +
            config.core_margin * ((stairs.length : ℚ) - 1)
        let shaftTotalWidth : ℚ := if shafts.isEmpty then 0 else
          (shafts.map (fun s => s.spec.width_ft)).sum +
            config.core_margin * ((shafts.length : ℚ) - 1)
        let coreWidth := elevatorTotalWidth + stairTotalWidth + config.core_margin * 2
        let coreStartX := floorCx - coreWidth / 2
        let step1 : List VerticalStalkQ × ℚ :=
          match stairs with
          | [] => ([], coreStartX)
          | s :: _ => ([s.place (coreStartX + s.spec.width_ft / 2) floorCy],
              coreStartX + s.spec.width_ft + config.core_margin)
        let step2 : List VerticalStalkQ × ℚ :=
          elevators.foldl (fun (acc : List VerticalStalkQ × ℚ) e =>
            (acc.1 ++ [e.place (acc.2 + e.spec.width_ft / 2) floorCy],
             acc.2 + e.spec.width_ft + config.core_margin)) ([], step1.2)
        let step3 : List VerticalStalkQ :=
          match stairs with
          | _ :: s2 :: _ => [s2.place (step2.2 + s2.spec.width_ft / 2) floorCy]
          | _ => []
        let restStairs := (stairs.drop 2).map (fun s =>
          s.place floorCx (floorCy - floorBounds.effectiveHeight / 4))
        let placedStairs := step1.1 ++ step3 ++ restStairs
        let maxCoreHeight : ℚ :=
          max (match elevators with | [] => 0 | e :: _ => e.spec.height_ft)
              (match stairs with | [] => 0 | s :: _ => s.spec.height_ft)
        let shaftY := floorCy - maxCoreHeight / 2 - 3
        let placedShafts : List VerticalStalkQ :=
          (shafts.foldl (fun (acc : List VerticalStalkQ × ℚ) sh =>
            (acc.1 ++ [sh.place (acc.2 + sh.spec.width_ft / 2) (shaftY - sh.spec.height_ft / 2)],
             acc.2 + sh.spec.width_ft + config.core_margin))
            ([], floorCx - shaftTotalWidth / 2)).1
        let stalks1 := reassignFrom (fun s => strContains s.element_type "elevator")
          step2.1 sheaf.stalks
        let stalks2 := reassignFrom (fun s => strContains s.element_type "stair")
          placedStairs stalks1
        let stalks3 := reassignFrom (fun s => strContains s.element_type "shaft")
          placedShafts stalks2
        { sheaf with stalks := stalks3 }

/-- Evaluation phase of `solve_massing` (steps after propagation, solver.py
lines 135-176): build the sheaf constraints, total their violations over the
id-keyed space dict, compute placement rate and average membership, add the
0.1-weighted membership penalty, and report success exactly when the
penalized obstruction is below the tolerance and at least 90% of spaces are
placed. -/
def evaluateSolutionQ (sheaf : SheafQ) (config : SolverConfigQ) : SolverResultQ :=
  let constraints := buildSheafConstraints sheaf
  let allSpaces := sheaf.getAllSpaces
  let obstruction := totalViolation constraints allSpaces
  let totalSpaces := allSpaces.length
  let placed := allSpaces.filter (·.isPlaced)
  let placementRate : ℚ :=
    if 0 < totalSpaces then (placed.length : ℚ) / (totalSpaces : ℚ) else 0
  let avgMembership : ℚ :=
    if placed.isEmpty then 0 else (placed.map (·.membership)).sum / (placed.length : ℚ)
  let membershipPenalty := (placed.map (fun s => 1 - s.membership)).sum * (1 / 10)
  let totalObstruction := obstruction + membershipPenalty
  let success := decide (totalObstruction < config.tolerance) && decide ((9 : ℚ) / 10 ≤ placementRate)
  ⟨success, sheaf, totalObstruction, 1, placementRate, avgMembership,
   totalSpaces, placed.length⟩

/-- Placement phase of `solve_massing` (steps 1-4): construct the sheaf (the
default lot is an 800 ft square), place the vertical core, place each floor
in sorted index order, and propagate stalk positions. -/
def solveSheafQ (building : BuildingSpecQ) (lotGeometry : Option (Polygon ℚ))
    (config : SolverConfigQ) : SheafQ :=
  let lot := match lotGeometry with
    | some p => p
    | none => Polygon.rectangle 800 800
  let sheaf0 := constructSheaf building lot
  let sheaf1 := placeVerticalCore sheaf0 config
  let sheaf2 := sheaf1.floorIndices.foldl (fun sh fi =>
    match sh.getPatch fi with
    | none => sh
    | some _ => sh.modifyPatch fi (fun p => placeFloorSpaces sh p config)) sheaf1
  propagateStalkPositions sheaf2

/-- Main solver entry point (`solve_massing`): the placement phase followed by
the evaluation phase. -/
def solveMassingQ (building : BuildingSpecQ) (lotGeometry : Option (Polygon ℚ) := none)
    (config : SolverConfigQ := SolverConfigQ.default) : SolverResultQ :=
  evaluateSolutionQ (solveSheafQ building lotGeometry config) config

/-- Concrete placed space for the C9 witness: 10×10 support room at (0, 0). -/
def c9SpaceA : SpaceQ :=
  (SpaceQ.mk0 "a" (mkSpaceSpec "a" .SUPPORT "Room A" 100 (some 10) (some 10) 1
    .GROUND false [] false) 0).place 0 0

/-- Concrete placed space for the C9 witness: 10×10 support room at (10, 0),
sharing a 10 ft edge with `c9SpaceA`. -/
def c9SpaceB : SpaceQ :=
  (SpaceQ.mk0 "b" (mkSpaceSpec "b" .SUPPORT "Room B" 100 (some 10) (some 10) 1
    .GROUND false [] false) 0).place 10 0

/-- Proof support for the propagation lemmas: the optional position/rotation
write a single stalk performs on a space id at a floor, as data (mirrors one
step of the `propagate_stalk_positions` loop). -/
def stalkWrite (st : VerticalStalkQ) (floorIdx : ℤ) (id : String)
    (acc : Option (Pt ℚ × ℤ)) : Option (Pt ℚ × ℤ) :=
  match st.position with
  | none => acc
  | some pos =>
    if st.floors.contains floorIdx && stalkMatchId st floorIdx id then
      some (pos, st.rotation)
    else acc

/-- Proof support: apply an optional recorded write to a space via
`Space.place`. -/
def applyWrite (sp : SpaceQ) (w : Option (Pt ℚ × ℤ)) : SpaceQ :=
  match w with
  | none => sp
  | some pr => sp.place pr.1.x pr.1.y pr.2

/-- Claim-side formulation of the cohomological obstruction (C3, written from
the claim text): the sum of (a) per-side boundary overflow beyond the floor
bounding box for every placed space not contained in its floor, (b) pairwise
rectangle-overlap area over placed spaces on the same floor, and (c) for
every placed stalk the `|Δx| + |Δy|` of each placed per-floor position to the
first recorded one. -/
def cohomologySpec (sheaf : SheafQ) : ℚ :=
  (sheaf.patches.map (fun p =>
    (p.placedSpaces.map (fun s =>
      if p.checkBoundary s then 0
      else
        match s.tryGeometry with
        | none => 0
        | some geom =>
          max 0 (p.domain.boundingBox.left - geom.left) +
          max 0 (geom.right - p.domain.boundingBox.right) +
          max 0 (p.domain.boundingBox.bottom - geom.bottom) +
          max 0 (geom.top - p.domain.boundingBox.top))).sum +
    ((offDiagPairs p.placedSpaces).map (fun pr =>
      match pr.1.tryGeometry, pr.2.tryGeometry with
      | some g1, some g2 => g1.intersectionArea g2
      | _, _ => 0)).sum)).sum +
  (sheaf.stalks.map (fun st =>
    if st.isPlaced then
      match stalkPositions sheaf st with
      | [] => 0
      | ref :: rest => (rest.map (fun pos => |pos.x - ref.x| + |pos.y - ref.y|)).sum
    else 0)).sum

/-- Concrete 10×10 support-room template for the C3 sheaves. -/
def c3Spec10 : SpaceSpecQ :=
  mkSpaceSpec "room" .SUPPORT "Room" 100 (some 10) (some 10) 1 .GROUND false [] false

/-- Concrete 8×8 vertical-core template for the C3 sheaves. -/
def c3CoreSpec : SpaceSpecQ :=
  mkSpaceSpec "core" .CIRCULATION "Core" 64 (some 8) (some 8) 1 .VERTICAL false [] true

/-- Hand-constructed sheaf with every placed space inside its floor, no
overlaps, and both stalk instances at identical coordinates. -/
def c3GoodSheaf : SheafQ :=
  ⟨[⟨0, .GROUND, Polygon.rectangle 100 100,
      [(SpaceQ.mk0 "room" c3Spec10 0).place (-20) 0,
       (SpaceQ.mk0 "core_f0" c3CoreSpec 0).place 0 0]⟩,
    ⟨1, .RESIDENTIAL_TYPICAL, Polygon.rectangle 100 100,
      [(SpaceQ.mk0 "core_f1" c3CoreSpec 1).place 0 0]⟩],
   [⟨"core", "shaft", c3CoreSpec, (0, 1), some ⟨0, 0⟩, 0⟩], none⟩

/-- Hand-constructed sheaf with a deliberate 6 ft × 10 ft overlap between two
placed spaces on one floor. -/
def c3BadSheaf : SheafQ :=
  ⟨[⟨0, .GROUND, Polygon.rectangle 100 100,
      [(SpaceQ.mk0 "a" c3Spec10 0).place 0 0,
       (SpaceQ.mk0 "b" c3Spec10 0).place 4 0]⟩], [], none⟩

/-- Concrete building for the stalk-alignment scenario: 6 stories above
grade (1 ground + 5 residential-typical), 10,000 sf floor plate, default
circulation (2 passenger elevators + 2 stairs), no dwelling-unit specs. -/
def c4Building : BuildingSpecQ :=
  ⟨10000, 6, 0, ⟨5, 1, 0⟩, [], CirculationSpecQ.default, [], [], [], [], ⟨0, 0, 0⟩, []⟩

/-- Stalk-alignment check on a solved sheaf: every stalk has exactly one
placed per-floor instance on each floor it spans, and every instance position
agrees with the first recorded one to within 1e-6 in each coordinate. -/
def c4AlignCheck (sheaf : SheafQ) : Bool :=
  sheaf.stalks.all (fun st =>
    let ps := (st.floors.map (fun fi =>
      match sheaf.getPatch fi with
      | none => []
      | some p => p.spaces.filterMap (fun s =>
          if stalkMatchId st fi s.id then s.position else none))).flatten
    (ps.length == st.floors.length) &&
    (match ps with
     | [] => false
     | ref :: rest => rest.all (fun q =>
        decide (|q.x - ref.x| ≤ 1 / 1000000 ∧ |q.y - ref.y| ≤ 1 / 1000000))))

/-- Snapshot of `constructSheaf c4Building (Polygon.rectangle 800 800)`,
recorded as an explicit value so that the solver-pipeline evaluation in the
alignment proof can proceed one stage at a time. -/
def c4Lit0 : SheafQ :=
{ patches := [{ index := 0, floor_type := GloqMassing.FloorType.GROUND, domain := { vertices := [{ x := -50, y := -50 }, { x := 50, y := -50 }, { x := 50, y := 50 }, { x := -50, y := 50 }] }, spaces := [{ id := "elevator_passenger_1_f0", spec := { id := "elevator_passenger_1", category := GloqMassing.SpaceCategory.CIRCULATION, name := "Passenger Elevator 1", area_sf := 136, width_ft := 8, height_ft := 17, count := 1, floor_assignment := GloqMassing.FloorAssignment.VERTICAL, must_be_exterior := false, adjacency_requirements := [], is_vertical := true }, floor_index := 0, position := none, rotation := 0, actual_width := none, actual_height := none, membership := 1, is_fixed := false, placement_priority := 100 }, { id := "elevator_passenger_2_f0", spec := { id := "elevator_passenger_2", category := GloqMassing.SpaceCategory.CIRCULATION, name := "Passenger Elevator 2", area_sf := 136, width_ft := 8, height_ft := 17, count := 1, floor_assignment := GloqMassing.FloorAssignment.VERTICAL, must_be_exterior := false, adjacency_requirements := [], is_vertical := true }, floor_index := 0, position := none, rotation := 0, actual_width := none, actual_height := none, membership := 1, is_fixed := false, placement_priority := 100 }, { id := "stair_1_f0", spec := { id := "stair_1", category := GloqMassing.SpaceCategory.CIRCULATION, name := "Stair 1", area_sf := 188, width_ft := (9695359 : Rat)/1000000, height_ft := (188000000 : Rat)/9695359, count := 1, floor_assignment := GloqMassing.FloorAssignment.VERTICAL, must_be_exterior := false, adjacency_requirements := [], is_vertical := true }, floor_index := 0, position := none, rotation := 0, actual_width := none, actual_height := none, membership := 1, is_fixed := false, placement_priority := 100 }, { id := "stair_2_f0", spec := { id := "stair_2", category := GloqMassing.SpaceCategory.CIRCULATION, name := "Stair 2", area_sf := 188, width_ft := (9695359 : Rat)/1000000, height_ft := (188000000 : Rat)/9695359, count := 1, floor_assignment := GloqMassing.FloorAssignment.VERTICAL, must_be_exterior := false, adjacency_requirements := [], is_vertical := true }, floor_index := 0, position := none, rotation := 0, actual_width := none, actual_height := none, membership := 1, is_fixed := false, placement_priority := 100 }] }, { index := 1, floor_type := GloqMassing.FloorType.RESIDENTIAL_TYPICAL, domain := { vertices := [{ x := -50, y := -50 }, { x := 50, y := -50 }, { x := 50, y := 50 }, { x := -50, y := 50 }] }, spaces := [{ id := "elevator_passenger_1_f1", spec := { id := "elevator_passenger_1", category := GloqMassing.SpaceCategory.CIRCULATION, name := "Passenger Elevator 1", area_sf := 136, width_ft := 8, height_ft := 17, count := 1, floor_assignment := GloqMassing.FloorAssignment.VERTICAL, must_be_exterior := false, adjacency_requirements := [], is_vertical := true }, floor_index := 1, position := none, rotation := 0, actual_width := none, actual_height := none, membership := 1, is_fixed := false, placement_priority := 100 }, { id := "elevator_passenger_2_f1", spec := { id := "elevator_passenger_2", category := GloqMassing.SpaceCategory.CIRCULATION, name := "Passenger Elevator 2", area_sf := 136, width_ft := 8, height_ft := 17, count := 1, floor_assignment := GloqMassing.FloorAssignment.VERTICAL, must_be_exterior := false, adjacency_requirements := [], is_vertical := true }, floor_index := 1, position := none, rotation := 0, actual_width := none, actual_height := none, membership := 1, is_fixed := false, placement_priority := 100 }, { id := "stair_1_f1", spec := { id := "stair_1", category := GloqMassing.SpaceCategory.CIRCULATION, name := "Stair 1", area_sf := 188, width_ft := (9695359 : Rat)/1000000, height_ft := (188000000 : Rat)/9695359, count := 1, floor_assignment := GloqMassing.FloorAssignment.VERTICAL, must_be_exterior := false, adjacency_requirements := [], is_vertical := true }, floor_index := 1, position := none, rotation := 0, actual_width := none, actual_height := none, membership := 1, is_fixed := false, placement_priority := 100 }, { id := "stair_2_f1", spec := { id := "stair_2", category := GloqMassing.SpaceCategory.CIRCULATION, name := "Stair 2", area_sf := 188, width_ft := (9695359 : Rat)/1000000, height_ft := (188000000 : Rat)/9695359, count := 1, floor_assignment := GloqMassing.FloorAssignment.VERTICAL, must_be_exterior := false, adjacency_requirements := [], is_vertical := true }, floor_index := 1, position := none, rotation := 0, actual_width := none, actual_height := none, membership := 1, is_fixed := false, placement_priority := 100 }] }, { index := 2, floor_type := GloqMassing.FloorType.RESIDENTIAL_TYPICAL, domain := { vertices := [{ x := -50, y := -50 }, { x := 50, y := -50 }, { x := 50, y := 50 }, { x := -50, y := 50 }] }, spaces := [{ id := "elevator_passenger_1_f2", spec := { id := "elevator_passenger_1", category := GloqMassing.SpaceCategory.CIRCULATION, name := "Passenger Elevator 1", area_sf := 136, width_ft := 8, height_ft := 17, count := 1, floor_assignment := GloqMassing.FloorAssignment.VERTICAL, must_be_exterior := false, adjacency_requirements := [], is_vertical := true }, floor_index := 2, position := none, rotation := 0, actual_width := none, actual_height := none, membership := 1, is_fixed := false, placement_priority := 100 }, { id := "elevator_passenger_2_f2", spec := { id := "elevator_passenger_2", category := GloqMassing.SpaceCategory.CIRCULATION, name := "Passenger Elevator 2", area_sf := 136, width_ft := 8, height_ft := 17, count := 1, floor_assignment := GloqMassing.FloorAssignment.VERTICAL, must_be_exterior := false, adjacency_requirements := [], is_vertical := true }, floor_index := 2, position := none, rotation := 0, actual_width := none, actual_height := none, membership := 1, is_fixed := false, placement_priority := 100 }, { id := "stair_1_f2", spec := { id := "stair_1", category := GloqMassing.SpaceCategory.CIRCULATION, name := "Stair 1", area_sf := 188, width_ft := (9695359 : Rat)/1000000, height_ft := (188000000 : Rat)/9695359, count := 1, floor_assignment := GloqMassing.FloorAssignment.VERTICAL, must_be_exterior := false, adjacency_requirements := [], is_vertical := true }, floor_index := 2, position := none, rotation := 0, actual_width := none, actual_height := none, membership := 1, is_fixed := false, placement_priority := 100 }, { id := "stair_2_f2", spec := { id := "stair_2", category := GloqMassing.SpaceCategory.CIRCULATION, name := "Stair 2", area_sf := 188, width_ft := (9695359 : Rat)/1000000, height_ft := (188000000 : Rat)/9695359, count := 1, floor_assignment := GloqMassing.FloorAssignment.VERTICAL, must_be_exterior := false, adjacency_requirements := [], is_vertical := true }, floor_index := 2, position := none, rotation := 0, actual_width := none, actual_height := none, membership := 1, is_fixed := false, placement_priority := 100 }] }, { index := 3, floor_type := GloqMassing.FloorType.RESIDENTIAL_TYPICAL, domain := { vertices := [{ x := -50, y := -50 }, { x := 50, y := -50 }, { x := 50, y := 50 }, { x := -50, y := 50 }] }, spaces := [{ id := "elevator_passenger_1_f3", spec := { id := "elevator_passenger_1", category := GloqMassing.SpaceCategory.CIRCULATION, name := "Passenger Elevator 1", area_sf := 136, width_ft := 8, height_ft := 17, count := 1, floor_assignment := GloqMassing.FloorAssignment.VERTICAL, must_be_exterior := false, adjacency_requirements := [], is_vertical := true }, floor_index := 3, position := none, rotation := 0, actual_width := none, actual_height := none, membership := 1, is_fixed := false, placement_priority := 100 }, { id := "elevator_passenger_2_f3", spec := { id := "elevator_passenger_2", category := GloqMassing.SpaceCategory.CIRCULATION, name := "Passenger Elevator 2", area_sf := 136, width_ft := 8, height_ft := 17, count := 1, floor_assignment := GloqMassing.FloorAssignment.VERTICAL, must_be_exterior := false, adjacency_requirements := [], is_vertical := true }, floor_index := 3, position := none, rotation := 0, actual_width := none, actual_height := none, membership := 1, is_fixed := false, placement_priority := 100 }, { id := "stair_1_f3", spec := { id := "stair_1", category := GloqMassing.SpaceCategory.CIRCULATION, name := "Stair 1", area_sf := 188, width_ft := (9695359 : Rat)/1000000, height_ft := (188000000 : Rat)/9695359, count := 1, floor_assignment := GloqMassing.FloorAssignment.VERTICAL, must_be_exterior := false, adjacency_requirements := [], is_vertical := true }, floor_index := 3, position := none, rotation := 0, actual_width := none, actual_height := none, membership := 1, is_fixed := false, placement_priority := 100 }, { id := "stair_2_f3", spec := { id := "stair_2", category := GloqMassing.SpaceCategory.CIRCULATION, name := "Stair 2", area_sf := 188, width_ft := (9695359 : Rat)/1000000, height_ft := (188000000 : Rat)/9695359, count := 1, floor_assignment := GloqMassing.FloorAssignment.VERTICAL, must_be_exterior := false, adjacency_requirements := [], is_vertical := true }, floor_index := 3, position := none, rotation := 0, actual_width := none, actual_height := none, membership := 1, is_fixed := false, placement_priority := 100 }] }, { index := 4, floor_type := GloqMassing.FloorType.RESIDENTIAL_TYPICAL, domain := { vertices := [{ x := -50, y := -50 }, { x := 50, y := -50 }, { x := 50, y := 50 }, { x := -50, y := 50 }] }, spaces := [{ id := "elevator_passenger_1_f4", spec := { id := "elevator_passenger_1", category := GloqMassing.SpaceCategory.CIRCULATION, name := "Passenger Elevator 1", area_sf := 136, width_ft := 8, height_ft := 17, count := 1, floor_assignment := GloqMassing.FloorAssignment.VERTICAL, must_be_exterior := false, adjacency_requirements := [], is_vertical := true }, floor_index := 4, position := none, rotation := 0, actual_width := none, actual_height := none, membership := 1, is_fixed := false, placement_priority := 100 }, { id := "elevator_passenger_2_f4", spec := { id := "elevator_passenger_2", category := GloqMassing.SpaceCategory.CIRCULATION, name := "Passenger Elevator 2", area_sf := 136, width_ft := 8, height_ft := 17, count := 1, floor_assignment := GloqMassing.FloorAssignment.VERTICAL, must_be_exterior := false, adjacency_requirements := [], is_vertical := true }, floor_index := 4, position := none, rotation := 0, actual_width := none, actual_height := none, membership := 1, is_fixed := false, placement_priority := 100 }, { id := "stair_1_f4", spec := { id := "stair_1", category := GloqMassing.SpaceCategory.CIRCULATION, name := "Stair 1", area_sf := 188, width_ft := (9695359 : Rat)/1000000, height_ft := (188000000 : Rat)/9695359, count := 1, floor_assignment := GloqMassing.FloorAssignment.VERTICAL, must_be_exterior := false, adjacency_requirements := [], is_vertical := true }, floor_index := 4, position := none, rotation := 0, actual_width := none, actual_height := none, membership := 1, is_fixed := false, placement_priority := 100 }, { id := "stair_2_f4", spec := { id := "stair_2", category := GloqMassing.SpaceCategory.CIRCULATION, name := "Stair 2", area_sf := 188, width_ft := (9695359 : Rat)/1000000, height_ft := (188000000 : Rat)/9695359, count := 1, floor_assignment := GloqMassing.FloorAssignment.VERTICAL, must_be_exterior := false, adjacency_requirements := [], is_vertical := true }, floor_index := 4, position := none, rotation := 0, actual_width := none, actual_height := none, membership := 1, is_fixed := false, placement_priority := 100 }] }, { index := 5, floor_type := GloqMassing.FloorType.RESIDENTIAL_TYPICAL, domain := { vertices := [{ x := -50, y := -50 }, { x := 50, y := -50 }, { x := 50, y := 50 }, { x := -50, y := 50 }] }, spaces := [{ id := "elevator_passenger_1_f5", spec := { id := "elevator_passenger_1", category := GloqMassing.SpaceCategory.CIRCULATION, name := "Passenger Elevator 1", area_sf := 136, width_ft := 8, height_ft := 17, count := 1, floor_assignment := GloqMassing.FloorAssignment.VERTICAL, must_be_exterior := false, adjacency_requirements := [], is_vertical := true }, floor_index := 5, position := none, rotation := 0, actual_width := none, actual_height := none, membership := 1, is_fixed := false, placement_priority := 100 }, { id := "elevator_passenger_2_f5", spec := { id := "elevator_passenger_2", category := GloqMassing.SpaceCategory.CIRCULATION, name := "Passenger Elevator 2", area_sf := 136, width_ft := 8, height_ft := 17, count := 1, floor_assignment := GloqMassing.FloorAssignment.VERTICAL, must_be_exterior := false, adjacency_requirements := [], is_vertical := true }, floor_index := 5, position := none, rotation := 0, actual_width := none, actual_height := none, membership := 1, is_fixed := false, placement_priority := 100 }, { id := "stair_1_f5", spec := { id := "stair_1", category := GloqMassing.SpaceCategory.CIRCULATION, name := "Stair 1", area_sf := 188, width_ft := (9695359 : Rat)/1000000, height_ft := (188000000 : Rat)/9695359, count := 1, floor_assignment := GloqMassing.FloorAssignment.VERTICAL, must_be_exterior := false, adjacency_requirements := [], is_vertical := true }, floor_index := 5, position := none, rotation := 0, actual_width := none, actual_height := none, membership := 1, is_fixed := false, placement_priority := 100 }, { id := "stair_2_f5", spec := { id := "stair_2", category := GloqMassing.SpaceCategory.CIRCULATION, name := "Stair 2", area_sf := 188, width_ft := (9695359 : Rat)/1000000, height_ft := (188000000 : Rat)/9695359, count := 1, floor_assignment := GloqMassing.FloorAssignment.VERTICAL, must_be_exterior := false, adjacency_requirements := [], is_vertical := true }, floor_index := 5, position := none, rotation := 0, actual_width := none, actual_height := none, membership := 1, is_fixed := false, placement_priority := 100 }] }], stalks := [{ id := "elevator_passenger_1", element_type := "elevator", spec := { id := "elevator_passenger_1", category := GloqMassing.SpaceCategory.CIRCULATION, name := "Passenger Elevator 1", area_sf := 136, width_ft := 8, height_ft := 17, count := 1, floor_assignment := GloqMassing.FloorAssignment.VERTICAL, must_be_exterior := false, adjacency_requirements := [], is_vertical := true }, floor_range := (0, 5), position := none, rotation := 0 }, { id := "elevator_passenger_2", element_type := "elevator", spec := { id := "elevator_passenger_2", category := GloqMassing.SpaceCategory.CIRCULATION, name := "Passenger Elevator 2", area_sf := 136, width_ft := 8, height_ft := 17, count := 1, floor_assignment := GloqMassing.FloorAssignment.VERTICAL, must_be_exterior := false, adjacency_requirements := [], is_vertical := true }, floor_range := (0, 5), position := none, rotation := 0 }, { id := "stair_1", element_type := "stair", spec := { id := "stair_1", category := GloqMassing.SpaceCategory.CIRCULATION, name := "Stair 1", area_sf := 188, width_ft := (9695359 : Rat)/1000000, height_ft := (188000000 : Rat)/9695359, count := 1, floor_assignment := GloqMassing.FloorAssignment.VERTICAL, must_be_exterior := false, adjacency_requirements := [], is_vertical := true }, floor_range := (0, 5), position := none, rotation := 0 }, { id := "stair_2", element_type := "stair", spec := { id := "stair_2", category := GloqMassing.SpaceCategory.CIRCULATION, name := "Stair 2", area_sf := 188, width_ft := (9695359 : Rat)/1000000, height_ft := (188000000 : Rat)/9695359, count := 1, floor_assignment := GloqMassing.FloorAssignment.VERTICAL, must_be_exterior := false, adjacency_requirements := [], is_vertical := true }, floor_range := (0, 5), position := none, rotation := 0 }], building := some { floor_plate_sf := 10000, stories_above_grade := 6, stories_below_grade := 0, story_distribution := { dwelling := 5, mixed_use := 1, parking := 0 }, dwelling_units := [], circulation := { corridor_width_ft := 6, corridor_length_ft := 0, elevator_passenger_count := 2, elevator_passenger_sf := 136, elevator_freight_count := 0, elevator_freight_sf := 0, stair_count := 2, stair_sf := 188, vestibule_lobby_sf := 0, shaft_elevator_sf := 0, shaft_stair_sf := 0 }, support_spaces := [], staff_spaces := [], amenity_indoor := [], amenity_outdoor := [], parking := { surface_stalls := 0, podium_stalls := 0, underground_stalls := 0 }, mep_spaces := [] } }

/-- Snapshot of `placeVerticalCore c4Lit0 SolverConfigQ.default`: the four
stalks (two passenger elevators, two stairs) receive core positions. -/
def c4Lit1 : SheafQ :=
{ patches := [{ index := 0, floor_type := GloqMassing.FloorType.GROUND, domain := { vertices := [{ x := -50, y := -50 }, { x := 50, y := -50 }, { x := 50, y := 50 }, { x := -50, y := 50 }] }, spaces := [{ id := "elevator_passenger_1_f0", spec := { id := "elevator_passenger_1", category := GloqMassing.SpaceCategory.CIRCULATION, name := "Passenger Elevator 1", area_sf := 136, width_ft := 8, height_ft := 17, count := 1, floor_assignment := GloqMassing.FloorAssignment.VERTICAL, must_be_exterior := false, adjacency_requirements := [], is_vertical := true }, floor_index := 0, position := none, rotation := 0, actual_width := none, actual_height := none, membership := 1, is_fixed := false, placement_priority := 100 }, { id := "elevator_passenger_2_f0", spec := { id := "elevator_passenger_2", category := GloqMassing.SpaceCategory.CIRCULATION, name := "Passenger Elevator 2", area_sf := 136, width_ft := 8, height_ft := 17, count := 1, floor_assignment := GloqMassing.FloorAssignment.VERTICAL, must_be_exterior := false, adjacency_requirements := [], is_vertical := true }, floor_index := 0, position := none, rotation := 0, actual_width := none, actual_height := none, membership := 1, is_fixed := false, placement_priority := 100 }, { id := "stair_1_f0", spec := { id := "stair_1", category := GloqMassing.SpaceCategory.CIRCULATION, name := "Stair 1", area_sf := 188, width_ft := (9695359 : Rat)/1000000, height_ft := (188000000 : Rat)/9695359, count := 1, floor_assignment := GloqMassing.FloorAssignment.VERTICAL, must_be_exterior := false, adjacency_requirements := [], is_vertical := true }, floor_index := 0, position := none, rotation := 0, actual_width := none, actual_height := none, membership := 1, is_fixed := false, placement_priority := 100 }, { id := "stair_2_f0", spec := { id := "stair_2", category := GloqMassing.SpaceCategory.CIRCULATION, name := "Stair 2", area_sf := 188, width_ft := (9695359 : Rat)/1000000, height_ft := (188000000 : Rat)/9695359, count := 1, floor_assignment := GloqMassing.FloorAssignment.VERTICAL, must_be_exterior := false, adjacency_requirements := [], is_vertical := true }, floor_index := 0, position := none, rotation := 0, actual_width := none, actual_height := none, membership := 1, is_fixed := false, placement_priority := 100 }] }, { index := 1, floor_type := GloqMassing.FloorType.RESIDENTIAL_TYPICAL, domain := { vertices := [{ x := -50, y := -50 }, { x := 50, y := -50 }, { x := 50, y := 50 }, { x := -50, y := 50 }] }, spaces := [{ id := "elevator_passenger_1_f1", spec := { id := "elevator_passenger_1", category := GloqMassing.SpaceCategory.CIRCULATION, name := "Passenger Elevator 1", area_sf := 136, width_ft := 8, height_ft := 17, count := 1, floor_assignment := GloqMassing.FloorAssignment.VERTICAL, must_be_exterior := false, adjacency_requirements := [], is_vertical := true }, floor_index := 1, position := none, rotation := 0, actual_width := none, actual_height := none, membership := 1, is_fixed := false, placement_priority := 100 }, { id := "elevator_passenger_2_f1", spec := { id := "elevator_passenger_2", category := GloqMassing.SpaceCategory.CIRCULATION, name := "Passenger Elevator 2", area_sf := 136, width_ft := 8, height_ft := 17, count := 1, floor_assignment := GloqMassing.FloorAssignment.VERTICAL, must_be_exterior := false, adjacency_requirements := [], is_vertical := true }, floor_index := 1, position := none, rotation := 0, actual_width := none, actual_height := none, membership := 1, is_fixed := false, placement_priority := 100 }, { id := "stair_1_f1", spec := { id := "stair_1", category := GloqMassing.SpaceCategory.CIRCULATION, name := "Stair 1", area_sf := 188, width_ft := (9695359 : Rat)/1000000, height_ft := (188000000 : Rat)/9695359, count := 1, floor_assignment := GloqMassing.FloorAssignment.VERTICAL, must_be_exterior := false, adjacency_requirements := [], is_vertical := true }, floor_index := 1, position := none, rotation := 0, actual_width := none, actual_height := none, membership := 1, is_fixed := false, placement_priority := 100 }, { id := "stair_2_f1", spec := { id := "stair_2", category := GloqMassing.SpaceCategory.CIRCULATION, name := "Stair 2", area_sf := 188, width_ft := (9695359 : Rat)/1000000, height_ft := (188000000 : Rat)/9695359, count := 1, floor_assignment := GloqMassing.FloorAssignment.VERTICAL, must_be_exterior := false, adjacency_requirements := [], is_vertical := true }, floor_index := 1, position := none, rotation := 0, actual_width := none, actual_height := none, membership := 1, is_fixed := false, placement_priority := 100 }] }, { index := 2, floor_type := GloqMassing.FloorType.RESIDENTIAL_TYPICAL, domain := { vertices := [{ x := -50, y := -50 }, { x := 50, y := -50 }, { x := 50, y := 50 }, { x := -50, y := 50 }] }, spaces := [{ id := "elevator_passenger_1_f2", spec := { id := "elevator_passenger_1", category := GloqMassing.SpaceCategory.CIRCULATION, name := "Passenger Elevator 1", area_sf := 136, width_ft := 8, height_ft := 17, count := 1, floor_assignment := GloqMassing.FloorAssignment.VERTICAL, must_be_exterior := false, adjacency_requirements := [], is_vertical := true }, floor_index := 2, position := none, rotation := 0, actual_width := none, actual_height := none, membership := 1, is_fixed := false, placement_priority := 100 }, { id := "elevator_passenger_2_f2", spec := { id := "elevator_passenger_2", category := GloqMassing.SpaceCategory.CIRCULATION, name := "Passenger Elevator 2", area_sf := 136, width_ft := 8, height_ft := 17, count := 1, floor_assignment := GloqMassing.FloorAssignment.VERTICAL, must_be_exterior := false, adjacency_requirements := [], is_vertical := true }, floor_index := 2, position := none, rotation := 0, actual_width := none, actual_height := none, membership := 1, is_fixed := false, placement_priority := 100 }, { id := "stair_1_f2", spec := { id := "stair_1", category := GloqMassing.SpaceCategory.CIRCULATION, name := "Stair 1", area_sf := 188, width_ft := (9695359 : Rat)/1000000, height_ft := (188000000 : Rat)/9695359, count := 1, floor_assignment := GloqMassing.FloorAssignment.VERTICAL, must_be_exterior := false, adjacency_requirements := [], is_vertical := true }, floor_index := 2, position := none, rotation := 0, actual_width := none, actual_height := none, membership := 1, is_fixed := false, placement_priority := 100 }, { id := "stair_2_f2", spec := { id := "stair_2", category := GloqMassing.SpaceCategory.CIRCULATION, name := "Stair 2", area_sf := 188, width_ft := (9695359 : Rat)/1000000, height_ft := (188000000 : Rat)/9695359, count := 1, floor_assignment := GloqMassing.FloorAssignment.VERTICAL, must_be_exterior := false, adjacency_requirements := [], is_vertical := true }, floor_index := 2, position := none, rotation := 0, actual_width := none, actual_height := none, membership := 1, is_fixed := false, placement_priority := 100 }] }, { index := 3, floor_type := GloqMassing.FloorType.RESIDENTIAL_TYPICAL, domain := { vertices := [{ x := -50, y := -50 }, { x := 50, y := -50 }, { x := 50, y := 50 }, { x := -50, y := 50 }] }, spaces := [{ id := "elevator_passenger_1_f3", spec := { id := "elevator_passenger_1", category := GloqMassing.SpaceCategory.CIRCULATION, name := "Passenger Elevator 1", area_sf := 136, width_ft := 8, height_ft := 17, count := 1, floor_assignment := GloqMassing.FloorAssignment.VERTICAL, must_be_exterior := false, adjacency_requirements := [], is_vertical := true }, floor_index := 3, position := none, rotation := 0, actual_width := none, actual_height := none, membership := 1, is_fixed := false, placement_priority := 100 }, { id := "elevator_passenger_2_f3", spec := { id := "elevator_passenger_2", category := GloqMassing.SpaceCategory.CIRCULATION, name := "Passenger Elevator 2", area_sf := 136, width_ft := 8, height_ft := 17, count := 1, floor_assignment := GloqMassing.FloorAssignment.VERTICAL, must_be_exterior := false, adjacency_requirements := [], is_vertical := true }, floor_index := 3, position := none, rotation := 0, actual_width := none, actual_height := none, membership := 1, is_fixed := false, placement_priority := 100 }, { id := "stair_1_f3", spec := { id := "stair_1", category := GloqMassing.SpaceCategory.CIRCULATION, name := "Stair 1", area_sf := 188, width_ft := (9695359 : Rat)/1000000, height_ft := (188000000 : Rat)/9695359, count := 1, floor_assignment := GloqMassing.FloorAssignment.VERTICAL, must_be_exterior := false, adjacency_requirements := [], is_vertical := true }, floor_index := 3, position := none, rotation := 0, actual_width := none, actual_height := none, membership := 1, is_fixed := false, placement_priority := 100 }, { id := "stair_2_f3", spec := { id := "stair_2", category := GloqMassing.SpaceCategory.CIRCULATION, name := "Stair 2", area_sf := 188, width_ft := (9695359 : Rat)/1000000, height_ft := (188000000 : Rat)/9695359, count := 1, floor_assignment := GloqMassing.FloorAssignment.VERTICAL, must_be_exterior := false, adjacency_requirements := [], is_vertical := true }, floor_index := 3, position := none, rotation := 0, actual_width := none, actual_height := none, membership := 1, is_fixed := false, placement_priority := 100 }] }, { index := 4, floor_type := GloqMassing.FloorType.RESIDENTIAL_TYPICAL, domain := { vertices := [{ x := -50, y := -50 }, { x := 50, y := -50 }, { x := 50, y := 50 }, { x := -50, y := 50 }] }, spaces := [{ id := "elevator_passenger_1_f4", spec := { id := "elevator_passenger_1", category := GloqMassing.SpaceCategory.CIRCULATION, name := "Passenger Elevator 1", area_sf := 136, width_ft := 8, height_ft := 17, count := 1, floor_assignment := GloqMassing.FloorAssignment.VERTICAL, must_be_exterior := false, adjacency_requirements := [], is_vertical := true }, floor_index := 4, position := none, rotation := 0, actual_width := none, actual_height := none, membership := 1, is_fixed := false, placement_priority := 100 }, { id := "elevator_passenger_2_f4", spec := { id := "elevator_passenger_2", category := GloqMassing.SpaceCategory.CIRCULATION, name := "Passenger Elevator 2", area_sf := 136, width_ft := 8, height_ft := 17, count := 1, floor_assignment := GloqMassing.FloorAssignment.VERTICAL, must_be_exterior := false, adjacency_requirements := [], is_vertical := true }, floor_index := 4, position := none, rotation := 0, actual_width := none, actual_height := none, membership := 1, is_fixed := false, placement_priority := 100 }, { id := "stair_1_f4", spec := { id := "stair_1", category := GloqMassing.SpaceCategory.CIRCULATION, name := "Stair 1", area_sf := 188, width_ft := (9695359 : Rat)/1000000, height_ft := (188000000 : Rat)/9695359, count := 1, floor_assignment := GloqMassing.FloorAssignment.VERTICAL, must_be_exterior := false, adjacency_requirements := [], is_vertical := true }, floor_index := 4, position := none, rotation := 0, actual_width := none, actual_height := none, membership := 1, is_fixed := false, placement_priority := 100 }, { id := "stair_2_f4", spec := { id := "stair_2", category := GloqMassing.SpaceCategory.CIRCULATION, name := "Stair 2", area_sf := 188, width_ft := (9695359 : Rat)/1000000, height_ft := (188000000 : Rat)/9695359, count := 1, floor_assignment := GloqMassing.FloorAssignment.VERTICAL, must_be_exterior := false, adjacency_requirements := [], is_vertical := true }, floor_index := 4, position := none, rotation := 0, actual_width := none, actual_height := none, membership := 1, is_fixed := false, placement_priority := 100 }] }, { index := 5, floor_type := GloqMassing.FloorType.RESIDENTIAL_TYPICAL, domain := { vertices := [{ x := -50, y := -50 }, { x := 50, y := -50 }, { x := 50, y := 50 }, { x := -50, y := 50 }] }, spaces := [{ id := "elevator_passenger_1_f5", spec := { id := "elevator_passenger_1", category := GloqMassing.SpaceCategory.CIRCULATION, name := "Passenger Elevator 1", area_sf := 136, width_ft := 8, height_ft := 17, count := 1, floor_assignment := GloqMassing.FloorAssignment.VERTICAL, must_be_exterior := false, adjacency_requirements := [], is_vertical := true }, floor_index := 5, position := none, rotation := 0, actual_width := none, actual_height := none, membership := 1, is_fixed := false, placement_priority := 100 }, { id := "elevator_passenger_2_f5", spec := { id := "elevator_passenger_2", category := GloqMassing.SpaceCategory.CIRCULATION, name := "Passenger Elevator 2", area_sf := 136, width_ft := 8, height_ft := 17, count := 1, floor_assignment := GloqMassing.FloorAssignment.VERTICAL, must_be_exterior := false, adjacency_requirements := [], is_vertical := true }, floor_index := 5, position := none, rotation := 0, actual_width := none, actual_height := none, membership := 1, is_fixed := false, placement_priority := 100 }, { id := "stair_1_f5", spec := { id := "stair_1", category := GloqMassing.SpaceCategory.CIRCULATION, name := "Stair 1", area_sf := 188, width_ft := (9695359 : Rat)/1000000, height_ft := (188000000 : Rat)/9695359, count := 1, floor_assignment := GloqMassing.FloorAssignment.VERTICAL, must_be_exterior := false, adjacency_requirements := [], is_vertical := true }, floor_index := 5, position := none, rotation := 0, actual_width := none, actual_height := none, membership := 1, is_fixed := false, placement_priority := 100 }, { id := "stair_2_f5", spec := { id := "stair_2", category := GloqMassing.SpaceCategory.CIRCULATION, name := "Stair 2", area_sf := 188, width_ft := (9695359 : Rat)/1000000, height_ft := (188000000 : Rat)/9695359, count := 1, floor_assignment := GloqMassing.FloorAssignment.VERTICAL, must_be_exterior := false, adjacency_requirements := [], is_vertical := true }, floor_index := 5, position := none, rotation := 0, actual_width := none, actual_height := none, membership := 1, is_fixed := false, placement_priority := 100 }] }], stalks := [{ id := "elevator_passenger_1", element_type := "elevator", spec := { id := "elevator_passenger_1", category := GloqMassing.SpaceCategory.CIRCULATION, name := "Passenger Elevator 1", area_sf := 136, width_ft := 8, height_ft := 17, count := 1, floor_assignment := GloqMassing.FloorAssignment.VERTICAL, must_be_exterior := false, adjacency_requirements := [], is_vertical := true }, floor_range := (0, 5), position := some { x := -5, y := 0 }, rotation := 0 }, { id := "elevator_passenger_2", element_type := "elevator", spec := { id := "elevator_passenger_2", category := GloqMassing.SpaceCategory.CIRCULATION, name := "Passenger Elevator 2", area_sf := 136, width_ft := 8, height_ft := 17, count := 1, floor_assignment := GloqMassing.FloorAssignment.VERTICAL, must_be_exterior := false, adjacency_requirements := [], is_vertical := true }, floor_range := (0, 5), position := some { x := 4, y := 0 }, rotation := 0 }, { id := "stair_1", element_type := "stair", spec := { id := "stair_1", category := GloqMassing.SpaceCategory.CIRCULATION, name := "Stair 1", area_sf := 188, width_ft := (9695359 : Rat)/1000000, height_ft := (188000000 : Rat)/9695359, count := 1, floor_assignment := GloqMassing.FloorAssignment.VERTICAL, must_be_exterior := false, adjacency_requirements := [], is_vertical := true }, floor_range := (0, 5), position := some { x := (-29695359 : Rat)/2000000, y := 0 }, rotation := 0 }, { id := "stair_2", element_type := "stair", spec := { id := "stair_2", category := GloqMassing.SpaceCategory.CIRCULATION, name := "Stair 2", area_sf := 188, width_ft := (9695359 : Rat)/1000000, height_ft := (188000000 : Rat)/9695359, count := 1, floor_assignment := GloqMassing.FloorAssignment.VERTICAL, must_be_exterior := false, adjacency_requirements := [], is_vertical := true }, floor_range := (0, 5), position := some { x := (27695359 : Rat)/2000000, y := 0 }, rotation := 0 }], building := some { floor_plate_sf := 10000, stories_above_grade := 6, stories_below_grade := 0, story_distribution := { dwelling := 5, mixed_use := 1, parking := 0 }, dwelling_units := [], circulation := { corridor_width_ft := 6, corridor_length_ft := 0, elevator_passenger_count := 2, elevator_passenger_sf := 136, elevator_freight_count := 0, elevator_freight_sf := 0, stair_count := 2, stair_sf := 188, vestibule_lobby_sf := 0, shaft_elevator_sf := 0, shaft_stair_sf := 0 }, support_spaces := [], staff_spaces := [], amenity_indoor := [], amenity_outdoor := [], parking := { surface_stalls := 0, podium_stalls := 0, underground_stalls := 0 }, mep_spaces := [] } }

/-- Snapshot of the per-floor placement fold over `c4Lit1`. -/
def c4Lit2 : SheafQ :=
{ patches := [{ index := 0, floor_type := GloqMassing.FloorType.GROUND, domain := { vertices := [{ x := -50, y := -50 }, { x := 50, y := -50 }, { x := 50, y := 50 }, { x := -50, y := 50 }] }, spaces := [{ id := "elevator_passenger_1_f0", spec := { id := "elevator_passenger_1", category := GloqMassing.SpaceCategory.CIRCULATION, name := "Passenger Elevator 1", area_sf := 136, width_ft := 8, height_ft := 17, count := 1, floor_assignment := GloqMassing.FloorAssignment.VERTICAL, must_be_exterior := false, adjacency_requirements := [], is_vertical := true }, floor_index := 0, position := none, rotation := 0, actual_width := none, actual_height := none, membership := 1, is_fixed := false, placement_priority := 100 }, { id := "elevator_passenger_2_f0", spec := { id := "elevator_passenger_2", category := GloqMassing.SpaceCategory.CIRCULATION, name := "Passenger Elevator 2", area_sf := 136, width_ft := 8, height_ft := 17, count := 1, floor_assignment := GloqMassing.FloorAssignment.VERTICAL, must_be_exterior := false, adjacency_requirements := [], is_vertical := true }, floor_index := 0, position := none, rotation := 0, actual_width := none, actual_height := none, membership := 1, is_fixed := false, placement_priority := 100 }, { id := "stair_1_f0", spec := { id := "stair_1", category := GloqMassing.SpaceCategory.CIRCULATION, name := "Stair 1", area_sf := 188, width_ft := (9695359 : Rat)/1000000, height_ft := (188000000 : Rat)/9695359, count := 1, floor_assignment := GloqMassing.FloorAssignment.VERTICAL, must_be_exterior := false, adjacency_requirements := [], is_vertical := true }, floor_index := 0, position := none, rotation := 0, actual_width := none, actual_height := none, membership := 1, is_fixed := false, placement_priority := 100 }, { id := "stair_2_f0", spec := { id := "stair_2", category := GloqMassing.SpaceCategory.CIRCULATION, name := "Stair 2", area_sf := 188, width_ft := (9695359 : Rat)/1000000, height_ft := (188000000 : Rat)/9695359, count := 1, floor_assignment := GloqMassing.FloorAssignment.VERTICAL, must_be_exterior := false, adjacency_requirements := [], is_vertical := true }, floor_index := 0, position := none, rotation := 0, actual_width := none, actual_height := none, membership := 1, is_fixed := false, placement_priority := 100 }] }, { index := 1, floor_type := GloqMassing.FloorType.RESIDENTIAL_TYPICAL, domain := { vertices := [{ x := -50, y := -50 }, { x := 50, y := -50 }, { x := 50, y := 50 }, { x := -50, y := 50 }] }, spaces := [{ id := "elevator_passenger_1_f1", spec := { id := "elevator_passenger_1", category := GloqMassing.SpaceCategory.CIRCULATION, name := "Passenger Elevator 1", area_sf := 136, width_ft := 8, height_ft := 17, count := 1, floor_assignment := GloqMassing.FloorAssignment.VERTICAL, must_be_exterior := false, adjacency_requirements := [], is_vertical := true }, floor_index := 1, position := none, rotation := 0, actual_width := none, actual_height := none, membership := 1, is_fixed := false, placement_priority := 100 }, { id := "elevator_passenger_2_f1", spec := { id := "elevator_passenger_2", category := GloqMassing.SpaceCategory.CIRCULATION, name := "Passenger Elevator 2", area_sf := 136, width_ft := 8, height_ft := 17, count := 1, floor_assignment := GloqMassing.FloorAssignment.VERTICAL, must_be_exterior := false, adjacency_requirements := [], is_vertical := true }, floor_index := 1, position := none, rotation := 0, actual_width := none, actual_height := none, membership := 1, is_fixed := false, placement_priority := 100 }, { id := "stair_1_f1", spec := { id := "stair_1", category := GloqMassing.SpaceCategory.CIRCULATION, name := "Stair 1", area_sf := 188, width_ft := (9695359 : Rat)/1000000, height_ft := (188000000 : Rat)/9695359, count := 1, floor_assignment := GloqMassing.FloorAssignment.VERTICAL, must_be_exterior := false, adjacency_requirements := [], is_vertical := true }, floor_index := 1, position := none, rotation := 0, actual_width := none, actual_height := none, membership := 1, is_fixed := false, placement_priority := 100 }, { id := "stair_2_f1", spec := { id := "stair_2", category := GloqMassing.SpaceCategory.CIRCULATION, name := "Stair 2", area_sf := 188, width_ft := (9695359 : Rat)/1000000, height_ft := (188000000 : Rat)/9695359, count := 1, floor_assignment := GloqMassing.FloorAssignment.VERTICAL, must_be_exterior := false, adjacency_requirements := [], is_vertical := true }, floor_index := 1, position := none, rotation := 0, actual_width := none, actual_height := none, membership := 1, is_fixed := false, placement_priority := 100 }] }, { index := 2, floor_type := GloqMassing.FloorType.RESIDENTIAL_TYPICAL, domain := { vertices := [{ x := -50, y := -50 }, { x := 50, y := -50 }, { x := 50, y := 50 }, { x := -50, y := 50 }] }, spaces := [{ id := "elevator_passenger_1_f2", spec := { id := "elevator_passenger_1", category := GloqMassing.SpaceCategory.CIRCULATION, name := "Passenger Elevator 1", area_sf := 136, width_ft := 8, height_ft := 17, count := 1, floor_assignment := GloqMassing.FloorAssignment.VERTICAL, must_be_exterior := false, adjacency_requirements := [], is_vertical := true }, floor_index := 2, position := none, rotation := 0, actual_width := none, actual_height := none, membership := 1, is_fixed := false, placement_priority := 100 }, { id := "elevator_passenger_2_f2", spec := { id := "elevator_passenger_2", category := GloqMassing.SpaceCategory.CIRCULATION, name := "Passenger Elevator 2", area_sf := 136, width_ft := 8, height_ft := 17, count := 1, floor_assignment := GloqMassing.FloorAssignment.VERTICAL, must_be_exterior := false, adjacency_requirements := [], is_vertical := true }, floor_index := 2, position := none, rotation := 0, actual_width := none, actual_height := none, membership := 1, is_fixed := false, placement_priority := 100 }, { id := "stair_1_f2", spec := { id := "stair_1", category := GloqMassing.SpaceCategory.CIRCULATION, name := "Stair 1", area_sf := 188, width_ft := (9695359 : Rat)/1000000, height_ft := (188000000 : Rat)/9695359, count := 1, floor_assignment := GloqMassing.FloorAssignment.VERTICAL, must_be_exterior := false, adjacency_requirements := [], is_vertical := true }, floor_index := 2, position := none, rotation := 0, actual_width := none, actual_height := none, membership := 1, is_fixed := false, placement_priority := 100 }, { id := "stair_2_f2", spec := { id := "stair_2", category := GloqMassing.SpaceCategory.CIRCULATION, name := "Stair 2", area_sf := 188, width_ft := (9695359 : Rat)/1000000, height_ft := (188000000 : Rat)/9695359, count := 1, floor_assignment := GloqMassing.FloorAssignment.VERTICAL, must_be_exterior := false, adjacency_requirements := [], is_vertical := true }, floor_index := 2, position := none, rotation := 0, actual_width := none, actual_height := none, membership := 1, is_fixed := false, placement_priority := 100 }] }, { index := 3, floor_type := GloqMassing.FloorType.RESIDENTIAL_TYPICAL, domain := { vertices := [{ x := -50, y := -50 }, { x := 50, y := -50 }, { x := 50, y := 50 }, { x := -50, y := 50 }] }, spaces := [{ id := "elevator_passenger_1_f3", spec := { id := "elevator_passenger_1", category := GloqMassing.SpaceCategory.CIRCULATION, name := "Passenger Elevator 1", area_sf := 136, width_ft := 8, height_ft := 17, count := 1, floor_assignment := GloqMassing.FloorAssignment.VERTICAL, must_be_exterior := false, adjacency_requirements := [], is_vertical := true }, floor_index := 3, position := none, rotation := 0, actual_width := none, actual_height := none, membership := 1, is_fixed := false, placement_priority := 100 }, { id := "elevator_passenger_2_f3", spec := { id := "elevator_passenger_2", category := GloqMassing.SpaceCategory.CIRCULATION, name := "Passenger Elevator 2", area_sf := 136, width_ft := 8, height_ft := 17, count := 1, floor_assignment := GloqMassing.FloorAssignment.VERTICAL, must_be_exterior := false, adjacency_requirements := [], is_vertical := true }, floor_index := 3, position := none, rotation := 0, actual_width := none, actual_height := none, membership := 1, is_fixed := false, placement_priority := 100 }, { id := "stair_1_f3", spec := { id := "stair_1", category := GloqMassing.SpaceCategory.CIRCULATION, name := "Stair 1", area_sf := 188, width_ft := (9695359 : Rat)/1000000, height_ft := (188000000 : Rat)/9695359, count := 1, floor_assignment := GloqMassing.FloorAssignment.VERTICAL, must_be_exterior := false, adjacency_requirements := [], is_vertical := true }, floor_index := 3, position := none, rotation := 0, actual_width := none, actual_height := none, membership := 1, is_fixed := false, placement_priority := 100 }, { id := "stair_2_f3", spec := { id := "stair_2", category := GloqMassing.SpaceCategory.CIRCULATION, name := "Stair 2", area_sf := 188, width_ft := (9695359 : Rat)/1000000, height_ft := (188000000 : Rat)/9695359, count := 1, floor_assignment := GloqMassing.FloorAssignment.VERTICAL, must_be_exterior := false, adjacency_requirements := [], is_vertical := true }, floor_index := 3, position := none, rotation := 0, actual_width := none, actual_height := none, membership := 1, is_fixed := false, placement_priority := 100 }] }, { index := 4, floor_type := GloqMassing.FloorType.RESIDENTIAL_TYPICAL, domain := { vertices := [{ x := -50, y := -50 }, { x := 50, y := -50 }, { x := 50, y := 50 }, { x := -50, y := 50 }] }, spaces := [{ id := "elevator_passenger_1_f4", spec := { id := "elevator_passenger_1", category := GloqMassing.SpaceCategory.CIRCULATION, name := "Passenger Elevator 1", area_sf := 136, width_ft := 8, height_ft := 17, count := 1, floor_assignment := GloqMassing.FloorAssignment.VERTICAL, must_be_exterior := false, adjacency_requirements := [], is_vertical := true }, floor_index := 4, position := none, rotation := 0, actual_width := none, actual_height := none, membership := 1, is_fixed := false, placement_priority := 100 }, { id := "elevator_passenger_2_f4", spec := { id := "elevator_passenger_2", category := GloqMassing.SpaceCategory.CIRCULATION, name := "Passenger Elevator 2", area_sf := 136, width_ft := 8, height_ft := 17, count := 1, floor_assignment := GloqMassing.FloorAssignment.VERTICAL, must_be_exterior := false, adjacency_requirements := [], is_vertical := true }, floor_index := 4, position := none, rotation := 0, actual_width := none, actual_height := none, membership := 1, is_fixed := false, placement_priority := 100 }, { id := "stair_1_f4", spec := { id := "stair_1", category := GloqMassing.SpaceCategory.CIRCULATION, name := "Stair 1", area_sf := 188, width_ft := (9695359 : Rat)/1000000, height_ft := (188000000 : Rat)/9695359, count := 1, floor_assignment := GloqMassing.FloorAssignment.VERTICAL, must_be_exterior := false, adjacency_requirements := [], is_vertical := true }, floor_index := 4, position := none, rotation := 0, actual_width := none, actual_height := none, membership := 1, is_fixed := false, placement_priority := 100 }, { id := "stair_2_f4", spec := { id := "stair_2", category := GloqMassing.SpaceCategory.CIRCULATION, name := "Stair 2", area_sf := 188, width_ft := (9695359 : Rat)/1000000, height_ft := (188000000 : Rat)/9695359, count := 1, floor_assignment := GloqMassing.FloorAssignment.VERTICAL, must_be_exterior := false, adjacency_requirements := [], is_vertical := true }, floor_index := 4, position := none, rotation := 0, actual_width := none, actual_height := none, membership := 1, is_fixed := false, placement_priority := 100 }] }, { index := 5, floor_type := GloqMassing.FloorType.RESIDENTIAL_TYPICAL, domain := { vertices := [{ x := -50, y := -50 }, { x := 50, y := -50 }, { x := 50, y := 50 }, { x := -50, y := 50 }] }, spaces := [{ id := "elevator_passenger_1_f5", spec := { id := "elevator_passenger_1", category := GloqMassing.SpaceCategory.CIRCULATION, name := "Passenger Elevator 1", area_sf := 136, width_ft := 8, height_ft := 17, count := 1, floor_assignment := GloqMassing.FloorAssignment.VERTICAL, must_be_exterior := false, adjacency_requirements := [], is_vertical := true }, floor_index := 5, position := none, rotation := 0, actual_width := none, actual_height := none, membership := 1, is_fixed := false, placement_priority := 100 }, { id := "elevator_passenger_2_f5", spec := { id := "elevator_passenger_2", category := GloqMassing.SpaceCategory.CIRCULATION, name := "Passenger Elevator 2", area_sf := 136, width_ft := 8, height_ft := 17, count := 1, floor_assignment := GloqMassing.FloorAssignment.VERTICAL, must_be_exterior := false, adjacency_requirements := [], is_vertical := true }, floor_index := 5, position := none, rotation := 0, actual_width := none, actual_height := none, membership := 1, is_fixed := false, placement_priority := 100 }, { id := "stair_1_f5", spec := { id := "stair_1", category := GloqMassing.SpaceCategory.CIRCULATION, name := "Stair 1", area_sf := 188, width_ft := (9695359 : Rat)/1000000, height_ft := (188000000 : Rat)/9695359, count := 1, floor_assignment := GloqMassing.FloorAssignment.VERTICAL, must_be_exterior := false, adjacency_requirements := [], is_vertical := true }, floor_index := 5, position := none, rotation := 0, actual_width := none, actual_height := none, membership := 1, is_fixed := false, placement_priority := 100 }, { id := "stair_2_f5", spec := { id := "stair_2", category := GloqMassing.SpaceCategory.CIRCULATION, name := "Stair 2", area_sf := 188, width_ft := (9695359 : Rat)/1000000, height_ft := (188000000 : Rat)/9695359, count := 1, floor_assignment := GloqMassing.FloorAssignment.VERTICAL, must_be_exterior := false, adjacency_requirements := [], is_vertical := true }, floor_index := 5, position := none, rotation := 0, actual_width := none, actual_height := none, membership := 1, is_fixed := false, placement_priority := 100 }] }], stalks := [{ id := "elevator_passenger_1", element_type := "elevator", spec := { id := "elevator_passenger_1", category := GloqMassing.SpaceCategory.CIRCULATION, name := "Passenger Elevator 1", area_sf := 136, width_ft := 8, height_ft := 17, count := 1, floor_assignment := GloqMassing.FloorAssignment.VERTICAL, must_be_exterior := false, adjacency_requirements := [], is_vertical := true }, floor_range := (0, 5), position := some { x := -5, y := 0 }, rotation := 0 }, { id := "elevator_passenger_2", element_type := "elevator", spec := { id := "elevator_passenger_2", category := GloqMassing.SpaceCategory.CIRCULATION, name := "Passenger Elevator 2", area_sf := 136, width_ft := 8, height_ft := 17, count := 1, floor_assignment := GloqMassing.FloorAssignment.VERTICAL, must_be_exterior := false, adjacency_requirements := [], is_vertical := true }, floor_range := (0, 5), position := some { x := 4, y := 0 }, rotation := 0 }, { id := "stair_1", element_type := "stair", spec := { id := "stair_1", category := GloqMassing.SpaceCategory.CIRCULATION, name := "Stair 1", area_sf := 188, width_ft := (9695359 : Rat)/1000000, height_ft := (188000000 : Rat)/9695359, count := 1, floor_assignment := GloqMassing.FloorAssignment.VERTICAL, must_be_exterior := false, adjacency_requirements := [], is_vertical := true }, floor_range := (0, 5), position := some { x := (-29695359 : Rat)/2000000, y := 0 }, rotation := 0 }, { id := "stair_2", element_type := "stair", spec := { id := "stair_2", category := GloqMassing.SpaceCategory.CIRCULATION, name := "Stair 2", area_sf := 188, width_ft := (9695359 : Rat)/1000000, height_ft := (188000000 : Rat)/9695359, count := 1, floor_assignment := GloqMassing.FloorAssignment.VERTICAL, must_be_exterior := false, adjacency_requirements := [], is_vertical := true }, floor_range := (0, 5), position := some { x := (27695359 : Rat)/2000000, y := 0 }, rotation := 0 }], building := some { floor_plate_sf := 10000, stories_above_grade := 6, stories_below_grade := 0, story_distribution := { dwelling := 5, mixed_use := 1, parking := 0 }, dwelling_units := [], circulation := { corridor_width_ft := 6, corridor_length_ft := 0, elevator_passenger_count := 2, elevator_passenger_sf := 136, elevator_freight_count := 0, elevator_freight_sf := 0, stair_count := 2, stair_sf := 188, vestibule_lobby_sf := 0, shaft_elevator_sf := 0, shaft_stair_sf := 0 }, support_spaces := [], staff_spaces := [], amenity_indoor := [], amenity_outdoor := [], parking := { surface_stalls := 0, podium_stalls := 0, underground_stalls := 0 }, mep_spaces := [] } }

/-- Snapshot of `propagateStalkPositions c4Lit2`: the fully solved sheaf for
`c4Building`, with every stalk position copied onto its floor instances. -/
def c4SolvedSheaf : SheafQ :=
{ patches := [{ index := 0, floor_type := GloqMassing.FloorType.GROUND, domain := { vertices := [{ x := -50, y := -50 }, { x := 50, y := -50 }, { x := 50, y := 50 }, { x := -50, y := 50 }] }, spaces := [{ id := "elevator_passenger_1_f0", spec := { id := "elevator_passenger_1", category := GloqMassing.SpaceCategory.CIRCULATION, name := "Passenger Elevator 1", area_sf := 136, width_ft := 8, height_ft := 17, count := 1, floor_assignment := GloqMassing.FloorAssignment.VERTICAL, must_be_exterior := false, adjacency_requirements := [], is_vertical := true }, floor_index := 0, position := some { x := -5, y := 0 }, rotation := 0, actual_width := none, actual_height := none, membership := 1, is_fixed := false, placement_priority := 100 }, { id := "elevator_passenger_2_f0", spec := { id := "elevator_passenger_2", category := GloqMassing.SpaceCategory.CIRCULATION, name := "Passenger Elevator 2", area_sf := 136, width_ft := 8, height_ft := 17, count := 1, floor_assignment := GloqMassing.FloorAssignment.VERTICAL, must_be_exterior := false, adjacency_requirements := [], is_vertical := true }, floor_index := 0, position := some { x := 4, y := 0 }, rotation := 0, actual_width := none, actual_height := none, membership := 1, is_fixed := false, placement_priority := 100 }, { id := "stair_1_f0", spec := { id := "stair_1", category := GloqMassing.SpaceCategory.CIRCULATION, name := "Stair 1", area_sf := 188, width_ft := (9695359 : Rat)/1000000, height_ft := (188000000 : Rat)/9695359, count := 1, floor_assignment := GloqMassing.FloorAssignment.VERTICAL, must_be_exterior := false, adjacency_requirements := [], is_vertical := true }, floor_index := 0, position := some { x := (-29695359 : Rat)/2000000, y := 0 }, rotation := 0, actual_width := none, actual_height := none, membership := 1, is_fixed := false, placement_priority := 100 }, { id := "stair_2_f0", spec := { id := "stair_2", category := GloqMassing.SpaceCategory.CIRCULATION, name := "Stair 2", area_sf := 188, width_ft := (9695359 : Rat)/1000000, height_ft := (188000000 : Rat)/9695359, count := 1, floor_assignment := GloqMassing.FloorAssignment.VERTICAL, must_be_exterior := false, adjacency_requirements := [], is_vertical := true }, floor_index := 0, position := some { x := (27695359 : Rat)/2000000, y := 0 }, rotation := 0, actual_width := none, actual_height := none, membership := 1, is_fixed := false, placement_priority := 100 }] }, { index := 1, floor_type := GloqMassing.FloorType.RESIDENTIAL_TYPICAL, domain := { vertices := [{ x := -50, y := -50 }, { x := 50, y := -50 }, { x := 50, y := 50 }, { x := -50, y := 50 }] }, spaces := [{ id := "elevator_passenger_1_f1", spec := { id := "elevator_passenger_1", category := GloqMassing.SpaceCategory.CIRCULATION, name := "Passenger Elevator 1", area_sf := 136, width_ft := 8, height_ft := 17, count := 1, floor_assignment := GloqMassing.FloorAssignment.VERTICAL, must_be_exterior := false, adjacency_requirements := [], is_vertical := true }, floor_index := 1, position := some { x := -5, y := 0 }, rotation := 0, actual_width := none, actual_height := none, membership := 1, is_fixed := false, placement_priority := 100 }, { id := "elevator_passenger_2_f1", spec := { id := "elevator_passenger_2", category := GloqMassing.SpaceCategory.CIRCULATION, name := "Passenger Elevator 2", area_sf := 136, width_ft := 8, height_ft := 17, count := 1, floor_assignment := GloqMassing.FloorAssignment.VERTICAL, must_be_exterior := false, adjacency_requirements := [], is_vertical := true }, floor_index := 1, position := some { x := 4, y := 0 }, rotation := 0, actual_width := none, actual_height := none, membership := 1, is_fixed := false, placement_priority := 100 }, { id := "stair_1_f1", spec := { id := "stair_1", category := GloqMassing.SpaceCategory.CIRCULATION, name := "Stair 1", area_sf := 188, width_ft := (9695359 : Rat)/1000000, height_ft := (188000000 : Rat)/9695359, count := 1, floor_assignment := GloqMassing.FloorAssignment.VERTICAL, must_be_exterior := false, adjacency_requirements := [], is_vertical := true }, floor_index := 1, position := some { x := (-29695359 : Rat)/2000000, y := 0 }, rotation := 0, actual_width := none, actual_height := none, membership := 1, is_fixed := false, placement_priority := 100 }, { id := "stair_2_f1", spec := { id := "stair_2", category := GloqMassing.SpaceCategory.CIRCULATION, name := "Stair 2", area_sf := 188, width_ft := (9695359 : Rat)/1000000, height_ft := (188000000 : Rat)/9695359, count := 1, floor_assignment := GloqMassing.FloorAssignment.VERTICAL, must_be_exterior := false, adjacency_requirements := [], is_vertical := true }, floor_index := 1, position := some { x := (27695359 : Rat)/2000000, y := 0 }, rotation := 0, actual_width := none, actual_height := none, membership := 1, is_fixed := false, placement_priority := 100 }] }, { index := 2, floor_type := GloqMassing.FloorType.RESIDENTIAL_TYPICAL, domain := { vertices := [{ x := -50, y := -50 }, { x := 50, y := -50 }, { x := 50, y := 50 }, { x := -50, y := 50 }] }, spaces := [{ id := "elevator_passenger_1_f2", spec := { id := "elevator_passenger_1", category := GloqMassing.SpaceCategory.CIRCULATION, name := "Passenger Elevator 1", area_sf := 136, width_ft := 8, height_ft := 17, count := 1, floor_assignment := GloqMassing.FloorAssignment.VERTICAL, must_be_exterior := false, adjacency_requirements := [], is_vertical := true }, floor_index := 2, position := some { x := -5, y := 0 }, rotation := 0, actual_width := none, actual_height := none, membership := 1, is_fixed := false, placement_priority := 100 }, { id := "elevator_passenger_2_f2", spec := { id := "elevator_passenger_2", category := GloqMassing.SpaceCategory.CIRCULATION, name := "Passenger Elevator 2", area_sf := 136, width_ft := 8, height_ft := 17, count := 1, floor_assignment := GloqMassing.FloorAssignment.VERTICAL, must_be_exterior := false, adjacency_requirements := [], is_vertical := true }, floor_index := 2, position := some { x := 4, y := 0 }, rotation := 0, actual_width := none, actual_height := none, membership := 1, is_fixed := false, placement_priority := 100 }, { id := "stair_1_f2", spec := { id := "stair_1", category := GloqMassing.SpaceCategory.CIRCULATION, name := "Stair 1", area_sf := 188, width_ft := (9695359 : Rat)/1000000, height_ft := (188000000 : Rat)/9695359, count := 1, floor_assignment := GloqMassing.FloorAssignment.VERTICAL, must_be_exterior := false, adjacency_requirements := [], is_vertical := true }, floor_index := 2, position := some { x := (-29695359 : Rat)/2000000, y := 0 }, rotation := 0, actual_width := none, actual_height := none, membership := 1, is_fixed := false, placement_priority := 100 }, { id := "stair_2_f2", spec := { id := "stair_2", category := GloqMassing.SpaceCategory.CIRCULATION, name := "Stair 2", area_sf := 188, width_ft := (9695359 : Rat)/1000000, height_ft := (188000000 : Rat)/9695359, count := 1, floor_assignment := GloqMassing.FloorAssignment.VERTICAL, must_be_exterior := false, adjacency_requirements := [], is_vertical := true }, floor_index := 2, position := some { x := (27695359 : Rat)/2000000, y := 0 }, rotation := 0, actual_width := none, actual_height := none, membership := 1, is_fixed := false, placement_priority := 100 }] }, { index := 3, floor_type := GloqMassing.FloorType.RESIDENTIAL_TYPICAL, domain := { vertices := [{ x := -50, y := -50 }, { x := 50, y := -50 }, { x := 50, y := 50 }, { x := -50, y := 50 }] }, spaces := [{ id := "elevator_passenger_1_f3", spec := { id := "elevator_passenger_1", category := GloqMassing.SpaceCategory.CIRCULATION, name := "Passenger Elevator 1", area_sf := 136, width_ft := 8, height_ft := 17, count := 1, floor_assignment := GloqMassing.FloorAssignment.VERTICAL, must_be_exterior := false, adjacency_requirements := [], is_vertical := true }, floor_index := 3, position := some { x := -5, y := 0 }, rotation := 0, actual_width := none, actual_height := none, membership := 1, is_fixed := false, placement_priority := 100 }, { id := "elevator_passenger_2_f3", spec := { id := "elevator_passenger_2", category := GloqMassing.SpaceCategory.CIRCULATION, name := "Passenger Elevator 2", area_sf := 136, width_ft := 8, height_ft := 17, count := 1, floor_assignment := GloqMassing.FloorAssignment.VERTICAL, must_be_exterior := false, adjacency_requirements := [], is_vertical := true }, floor_index := 3, position := some { x := 4, y := 0 }, rotation := 0, actual_width := none, actual_height := none, membership := 1, is_fixed := false, placement_priority := 100 }, { id := "stair_1_f3", spec := { id := "stair_1", category := GloqMassing.SpaceCategory.CIRCULATION, name := "Stair 1", area_sf := 188, width_ft := (9695359 : Rat)/1000000, height_ft := (188000000 : Rat)/9695359, count := 1, floor_assignment := GloqMassing.FloorAssignment.VERTICAL, must_be_exterior := false, adjacency_requirements := [], is_vertical := true }, floor_index := 3, position := some { x := (-29695359 : Rat)/2000000, y := 0 }, rotation := 0, actual_width := none, actual_height := none, membership := 1, is_fixed := false, placement_priority := 100 }, { id := "stair_2_f3", spec := { id := "stair_2", category := GloqMassing.SpaceCategory.CIRCULATION, name := "Stair 2", area_sf := 188, width_ft := (9695359 : Rat)/1000000, height_ft := (188000000 : Rat)/9695359, count := 1, floor_assignment := GloqMassing.FloorAssignment.VERTICAL, must_be_exterior := false, adjacency_requirements := [], is_vertical := true }, floor_index := 3, position := some { x := (27695359 : Rat)/2000000, y := 0 }, rotation := 0, actual_width := none, actual_height := none, membership := 1, is_fixed := false, placement_priority := 100 }] }, { index := 4, floor_type := GloqMassing.FloorType.RESIDENTIAL_TYPICAL, domain := { vertices := [{ x := -50, y := -50 }, { x := 50, y := -50 }, { x := 50, y := 50 }, { x := -50, y := 50 }] }, spaces := [{ id := "elevator_passenger_1_f4", spec := { id := "elevator_passenger_1", category := GloqMassing.SpaceCategory.CIRCULATION, name := "Passenger Elevator 1", area_sf := 136, width_ft := 8, height_ft := 17, count := 1, floor_assignment := GloqMassing.FloorAssignment.VERTICAL, must_be_exterior := false, adjacency_requirements := [], is_vertical := true }, floor_index := 4, position := some { x := -5, y := 0 }, rotation := 0, actual_width := none, actual_height := none, membership := 1, is_fixed := false, placement_priority := 100 }, { id := "elevator_passenger_2_f4", spec := { id := "elevator_passenger_2", category := GloqMassing.SpaceCategory.CIRCULATION, name := "Passenger Elevator 2", area_sf := 136, width_ft := 8, height_ft := 17, count := 1, floor_assignment := GloqMassing.FloorAssignment.VERTICAL, must_be_exterior := false, adjacency_requirements := [], is_vertical := true }, floor_index := 4, position := some { x := 4, y := 0 }, rotation := 0, actual_width := none, actual_height := none, membership := 1, is_fixed := false, placement_priority := 100 }, { id := "stair_1_f4", spec := { id := "stair_1", category := GloqMassing.SpaceCategory.CIRCULATION, name := "Stair 1", area_sf := 188, width_ft := (9695359 : Rat)/1000000, height_ft := (188000000 : Rat)/9695359, count := 1, floor_assignment := GloqMassing.FloorAssignment.VERTICAL, must_be_exterior := false, adjacency_requirements := [], is_vertical := true }, floor_index := 4, position := some { x := (-29695359 : Rat)/2000000, y := 0 }, rotation := 0, actual_width := none, actual_height := none, membership := 1, is_fixed := false, placement_priority := 100 }, { id := "stair_2_f4", spec := { id := "stair_2", category := GloqMassing.SpaceCategory.CIRCULATION, name := "Stair 2", area_sf := 188, width_ft := (9695359 : Rat)/1000000, height_ft := (188000000 : Rat)/9695359, count := 1, floor_assignment := GloqMassing.FloorAssignment.VERTICAL, must_be_exterior := false, adjacency_requirements := [], is_vertical := true }, floor_index := 4, position := some { x := (27695359 : Rat)/2000000, y := 0 }, rotation := 0, actual_width := none, actual_height := none, membership := 1, is_fixed := false, placement_priority := 100 }] }, { index := 5, floor_type := GloqMassing.FloorType.RESIDENTIAL_TYPICAL, domain := { vertices := [{ x := -50, y := -50 }, { x := 50, y := -50 }, { x := 50, y := 50 }, { x := -50, y := 50 }] }, spaces := [{ id := "elevator_passenger_1_f5", spec := { id := "elevator_passenger_1", category := GloqMassing.SpaceCategory.CIRCULATION, name := "Passenger Elevator 1", area_sf := 136, width_ft := 8, height_ft := 17, count := 1, floor_assignment := GloqMassing.FloorAssignment.VERTICAL, must_be_exterior := false, adjacency_requirements := [], is_vertical := true }, floor_index := 5, position := some { x := -5, y := 0 }, rotation := 0, actual_width := none, actual_height := none, membership := 1, is_fixed := false, placement_priority := 100 }, { id := "elevator_passenger_2_f5", spec := { id := "elevator_passenger_2", category := GloqMassing.SpaceCategory.CIRCULATION, name := "Passenger Elevator 2", area_sf := 136, width_ft := 8, height_ft := 17, count := 1, floor_assignment := GloqMassing.FloorAssignment.VERTICAL, must_be_exterior := false, adjacency_requirements := [], is_vertical := true }, floor_index := 5, position := some { x := 4, y := 0 }, rotation := 0, actual_width := none, actual_height := none, membership := 1, is_fixed := false, placement_priority := 100 }, { id := "stair_1_f5", spec := { id := "stair_1", category := GloqMassing.SpaceCategory.CIRCULATION, name := "Stair 1", area_sf := 188, width_ft := (9695359 : Rat)/1000000, height_ft := (188000000 : Rat)/9695359, count := 1, floor_assignment := GloqMassing.FloorAssignment.VERTICAL, must_be_exterior := false, adjacency_requirements := [], is_vertical := true }, floor_index := 5, position := some { x := (-29695359 : Rat)/2000000, y := 0 }, rotation := 0, actual_width := none, actual_height := none, membership := 1, is_fixed := false, placement_priority := 100 }, { id := "stair_2_f5", spec := { id := "stair_2", category := GloqMassing.SpaceCategory.CIRCULATION, name := "Stair 2", area_sf := 188, width_ft := (9695359 : Rat)/1000000, height_ft := (188000000 : Rat)/9695359, count := 1, floor_assignment := GloqMassing.FloorAssignment.VERTICAL, must_be_exterior := false, adjacency_requirements := [], is_vertical := true }, floor_index := 5, position := some { x := (27695359 : Rat)/2000000, y := 0 }, rotation := 0, actual_width := none, actual_height := none, membership := 1, is_fixed := false, placement_priority := 100 }] }], stalks := [{ id := "elevator_passenger_1", element_type := "elevator", spec := { id := "elevator_passenger_1", category := GloqMassing.SpaceCategory.CIRCULATION, name := "Passenger Elevator 1", area_sf := 136, width_ft := 8, height_ft := 17, count := 1, floor_assignment := GloqMassing.FloorAssignment.VERTICAL, must_be_exterior := false, adjacency_requirements := [], is_vertical := true }, floor_range := (0, 5), position := some { x := -5, y := 0 }, rotation := 0 }, { id := "elevator_passenger_2", element_type := "elevator", spec := { id := "elevator_passenger_2", category := GloqMassing.SpaceCategory.CIRCULATION, name := "Passenger Elevator 2", area_sf := 136, width_ft := 8, height_ft := 17, count := 1, floor_assignment := GloqMassing.FloorAssignment.VERTICAL, must_be_exterior := false, adjacency_requirements := [], is_vertical := true }, floor_range := (0, 5), position := some { x := 4, y := 0 }, rotation := 0 }, { id := "stair_1", element_type := "stair", spec := { id := "stair_1", category := GloqMassing.SpaceCategory.CIRCULATION, name := "Stair 1", area_sf := 188, width_ft := (9695359 : Rat)/1000000, height_ft := (188000000 : Rat)/9695359, count := 1, floor_assignment := GloqMassing.FloorAssignment.VERTICAL, must_be_exterior := false, adjacency_requirements := [], is_vertical := true }, floor_range := (0, 5), position := some { x := (-29695359 : Rat)/2000000, y := 0 }, rotation := 0 }, { id := "stair_2", element_type := "stair", spec := { id := "stair_2", category := GloqMassing.SpaceCategory.CIRCULATION, name := "Stair 2", area_sf := 188, width_ft := (9695359 : Rat)/1000000, height_ft := (188000000 : Rat)/9695359, count := 1, floor_assignment := GloqMassing.FloorAssignment.VERTICAL, must_be_exterior := false, adjacency_requirements := [], is_vertical := true }, floor_range := (0, 5), position := some { x := (27695359 : Rat)/2000000, y := 0 }, rotation := 0 }], building := some { floor_plate_sf := 10000, stories_above_grade := 6, stories_below_grade := 0, story_distribution := { dwelling := 5, mixed_use := 1, parking := 0 }, dwelling_units := [], circulation := { corridor_width_ft := 6, corridor_length_ft := 0, elevator_passenger_count := 2, elevator_passenger_sf := 136, elevator_freight_count := 0, elevator_freight_sf := 0, stair_count := 2, stair_sf := 188, vestibule_lobby_sf := 0, shaft_elevator_sf := 0, shaft_stair_sf := 0 }, support_spaces := [], staff_spaces := [], amenity_indoor := [], amenity_outdoor := [], parking := { surface_stalls := 0, podium_stalls := 0, underground_stalls := 0 }, mep_spaces := [] } }

/-- Dwelling-unit spec for the single-unit end-to-end scenario: one 20 ft by
10 ft studio (200 sf), count 1, typical-floor assignment. -/
def c1Unit : DwellingUnitQ :=
  ⟨mkSpaceSpec "unit_studio" .DWELLING_UNIT "Studio" 200 (some 20) (some 10) 1
    .TYPICAL false ["corridor"] false, "studio"⟩

/-- Concrete building for the single-unit scenario: 1 story above grade,
10,000 sf floor plate (100 ft by 100 ft), the one studio unit, and no
circulation at all. -/
def c1Building : BuildingSpecQ :=
  ⟨10000, 1, 0, ⟨1, 0, 0⟩, [c1Unit], ⟨6, 0, 0, 0, 0, 0, 0, 0, 0, 0, 0⟩,
   [], [], [], [], ⟨0, 0, 0⟩, []⟩

/-- Claim-side formula for the penalized obstruction reported by
`solve_massing`: the raw total constraint violation over the id-keyed space
dict plus 0.1 times the sum of `1 - membership` over the placed spaces. -/
def penalizedObstructionSpec (sheaf : SheafQ) : ℚ :=
  totalViolation (buildSheafConstraints sheaf) sheaf.getAllSpaces
    + (1 / 10) * ((sheaf.getAllSpaces.filter (·.isPlaced)).map (fun s => 1 - s.membership)).sum

/-- Claim-side formula for the placement rate: placed spaces divided by total
spaces (0 when there are no spaces at all). -/
def placementRateSpec (sheaf : SheafQ) : ℚ :=
  if 0 < sheaf.getAllSpaces.length then
    ((sheaf.getAllSpaces.filter (·.isPlaced)).length : ℚ) / (sheaf.getAllSpaces.length : ℚ)
  else 0

/-- Narrow empty ground-floor patch (8 ft by 30 ft domain) on which a 10 ft
wide space can only fit after the 90-degree rotation retry. -/
def c10Patch : FloorPatchQ := ⟨0, .GROUND, Polygon.rectangle 8 30, []⟩

/-- A 10 ft by 2 ft support space: too wide for `c10Patch` unrotated. -/
def c10Space : SpaceQ :=
  SpaceQ.mk0 "c10_room" (mkSpaceSpec "c10_room" .SUPPORT "Long Room" 20 (some 10) (some 2) 1
    .GROUND false [] false) 0

/-!
Theorems for the frozen claims.
-/

section SatLemmas

variable {α : Type} [LinearOrderedField α]

/-- Maximum of the 4-projection list when the first two entries coincide. -/
lemma listMax_aabb (a b : α) : Rect.listMax [a, a, b, b] = max a b := by
  show List.foldl max a [a, b, b] = max a b
  rcases le_total a b with hab | hba
  · simp [List.foldl, max_eq_right hab, max_self, max_eq_left hab]
  · simp [List.foldl, max_eq_left hba, max_self, max_eq_right hba]

/-- Minimum of the 4-projection list when the first two entries coincide. -/
lemma listMin_aabb (a b : α) : Rect.listMin [a, a, b, b] = min a b := by
  show List.foldl min a [a, b, b] = min a b
  rcases le_total a b with hab | hba
  · simp [List.foldl, min_eq_left hab, min_self, min_eq_right hab]
  · simp [List.foldl, min_eq_right hba, min_self, min_eq_left hba]

/-- Maximum of the 4-projection list in outer/inner pair form. -/
lemma listMax_abba (a b : α) : Rect.listMax [a, b, b, a] = max a b := by
  show List.foldl max a [b, b, a] = max a b
  rcases le_total a b with hab | hba
  · simp [List.foldl, max_eq_right hab, max_self, max_eq_left hab]
  · simp [List.foldl, max_eq_left hba, max_self, max_eq_right hba]

/-- Minimum of the 4-projection list in outer/inner pair form. -/
lemma listMin_abba (a b : α) : Rect.listMin [a, b, b, a] = min a b := by
  show List.foldl min a [b, b, a] = min a b
  rcases le_total a b with hab | hba
  · simp [List.foldl, min_eq_left hab, min_self, min_eq_right hab]
  · simp [List.foldl, min_eq_right hba, min_self, min_eq_left hba]

/-- With positive dimensions the axis filter keeps all four edge normals and
the `[:2]` slice retains the normals of the first two edges. -/
lemma axesWithLen_pos (x y w h c s : α) (hw : 0 < w) (hh : 0 < h) :
    Rect.axesWithLen ⟨x, y, w, h, c, s⟩ =
      [((-(w * s), w * c), |w|), ((-(h * c), -(h * s)), |h|)] := by
  have d1 : decide ((0 : α) < |w|) = true := decide_eq_true (abs_pos.mpr (ne_of_gt hw))
  have d2 : decide ((0 : α) < |h|) = true := decide_eq_true (abs_pos.mpr (ne_of_gt hh))
  simp [Rect.axesWithLen, List.filter_cons, d1, d2, hw.ne', hh.ne']

/-- Corner projections onto the first edge normal, in closed form: the
spread is the height times the axis length, around `w(yc − xs)`. -/
lemma projs_axis1 (x y w h c s : α) (hcs : c ^ 2 + s ^ 2 = 1) :
    Rect.projs (Rect.corners ⟨x, y, w, h, c, s⟩) (-(w * s), w * c) =
      [w * (y * c - x * s) - w * h / 2, w * (y * c - x * s) - w * h / 2,
       w * (y * c - x * s) + w * h / 2, w * (y * c - x * s) + w * h / 2] := by
  simp only [Rect.projs, Rect.corners, List.map_cons, List.map_nil, List.cons.injEq,
    and_true]
  refine ⟨?_, ?_, ?_, ?_⟩
  · linear_combination (-(w * h) / 2) * hcs
  · linear_combination (-(w * h) / 2) * hcs
  · linear_combination ((w * h) / 2) * hcs
  · linear_combination ((w * h) / 2) * hcs

/-- Corner projections onto the second edge normal, in closed form: the
spread is the width times the axis length, around `−h(xc + ys)`. -/
lemma projs_axis2 (x y w h c s : α) (hcs : c ^ 2 + s ^ 2 = 1) :
    Rect.projs (Rect.corners ⟨x, y, w, h, c, s⟩) (-(h * c), -(h * s)) =
      [-(h * (x * c + y * s)) + h * w / 2, -(h * (x * c + y * s)) - h * w / 2,
       -(h * (x * c + y * s)) - h * w / 2, -(h * (x * c + y * s)) + h * w / 2] := by
  simp only [Rect.projs, Rect.corners, List.map_cons, List.map_nil, List.cons.injEq,
    and_true]
  refine ⟨?_, ?_, ?_, ?_⟩
  · linear_combination ((w * h) / 2) * hcs
  · linear_combination (-(w * h) / 2) * hcs
  · linear_combination (-(w * h) / 2) * hcs
  · linear_combination ((w * h) / 2) * hcs

set_option maxHeartbeats 1000000 in
/-- One of the two tested axes separates a rectangle from its translate by
`ew = w|c| + h|s|` (the bounding-box width) along the x-axis. -/
lemma sep_exists (x y w h c s ew : α) (hw : 0 < w) (hh : 0 < h)
    (hcs : c ^ 2 + s ^ 2 = 1) (hewW : ew = w * |c| + h * |s|) :
    Rect.separatedOn (⟨x, y, w, h, c, s⟩ : Rect α) ⟨x + ew, y + 0, w, h, c, s⟩
      ((-(w * s), w * c), |w|) = true ∨
    Rect.separatedOn (⟨x, y, w, h, c, s⟩ : Rect α) ⟨x + ew, y + 0, w, h, c, s⟩
      ((-(h * c), -(h * s)), |h|) = true := by
  have hw' : |w| = w := abs_of_pos hw
  have hh' : |h| = h := abs_of_pos hh
  have hsq_c : |c| ^ 2 = c ^ 2 := sq_abs c
  have hsq_s : |s| ^ 2 = s ^ 2 := sq_abs s
  have habs_c : (0 : α) ≤ |c| := abs_nonneg c
  have habs_s : (0 : α) ≤ |s| := abs_nonneg s
  have hpa1 := projs_axis1 x y w h c s hcs
  have hpb1 := projs_axis1 (x + ew) (y + 0) w h c s hcs
  have hpa2 := projs_axis2 x y w h c s hcs
  have hpb2 := projs_axis2 (x + ew) (y + 0) w h c s hcs
  rcases le_or_lt (h * |c|) (w * |s|) with ht | ht
  · -- the first axis separates
    left
    unfold Rect.separatedOn
    dsimp only
    rw [hw', hpa1, hpb1, listMax_aabb, listMin_aabb, listMax_aabb, listMin_aabb]
    clear hpa1 hpb1 hpa2 hpb2
    rcases abs_cases s with ⟨hsabs, hs⟩ | ⟨hsabs, hs⟩
    · -- s ≥ 0: the translate's projections sit below the original's
      simp only [Bool.or_eq_true, decide_eq_true_eq]
      refine Or.inr ?_
      have hP : (0 : α) ≤ |c| * (w * |s| - h * |c|) := mul_nonneg habs_c (sub_nonneg.mpr ht)
      have hid : ew * s - h = |c| * (w * |s| - h * |c|) := by
        rw [hewW, hsabs]
        linear_combination h * hcs + h * hsq_c
      have h1 : h ≤ ew * s := by linarith
      have h2 : (0 : α) ≤ w * (ew * s - h) := mul_nonneg hw.le (by linarith)
      have hwh : (0 : α) < w * h := mul_pos hw hh
      refine max_le ?_ ?_ <;>
        · rw [← sub_le_iff_le_add]
          refine le_min ?_ ?_ <;> linarith
    · -- s < 0: the translate's projections sit above the original's
      simp only [Bool.or_eq_true, decide_eq_true_eq]
      refine Or.inl ?_
      have hP : (0 : α) ≤ |c| * (w * |s| - h * |c|) := mul_nonneg habs_c (sub_nonneg.mpr ht)
      have hid : ew * (-s) - h = |c| * (w * |s| - h * |c|) := by
        rw [hewW, hsabs]
        linear_combination h * hcs + h * hsq_c
      have h1 : h ≤ ew * (-s) := by linarith
      have h2 : (0 : α) ≤ w * (ew * (-s) - h) := mul_nonneg hw.le (by linarith)
      have hwh : (0 : α) < w * h := mul_pos hw hh
      refine max_le ?_ ?_ <;>
        · rw [← sub_le_iff_le_add]
          refine le_min ?_ ?_ <;> linarith
  · -- the second axis separates
    right
    unfold Rect.separatedOn
    dsimp only
    rw [hh', hpa2, hpb2, listMax_abba, listMin_abba, listMax_abba, listMin_abba]
    clear hpa1 hpb1 hpa2 hpb2
    rcases abs_cases c with ⟨hcabs, hc⟩ | ⟨hcabs, hc⟩
    · -- c ≥ 0
      simp only [Bool.or_eq_true, decide_eq_true_eq]
      refine Or.inr ?_
      have hP : (0 : α) ≤ |s| * (h * |c| - w * |s|) := mul_nonneg habs_s (sub_nonneg.mpr ht.le)
      have hid : ew * c - w = |s| * (h * |c| - w * |s|) := by
        rw [hewW, hcabs]
        linear_combination w * hcs + w * hsq_s
      have h1 : w ≤ ew * c := by linarith
      have h2 : (0 : α) ≤ h * (ew * c - w) := mul_nonneg hh.le (by linarith)
      have hwh : (0 : α) < h * w := mul_pos hh hw
      refine max_le ?_ ?_ <;>
        · rw [← sub_le_iff_le_add]
          refine le_min ?_ ?_ <;> linarith
    · -- c < 0
      simp only [Bool.or_eq_true, decide_eq_true_eq]
      refine Or.inl ?_
      have hP : (0 : α) ≤ |s| * (h * |c| - w * |s|) := mul_nonneg habs_s (sub_nonneg.mpr ht.le)
      have hid : ew * (-c) - w = |s| * (h * |c| - w * |s|) := by
        rw [hewW, hcabs]
        linear_combination w * hcs + w * hsq_s
      have h1 : w ≤ ew * (-c) := by linarith
      have h2 : (0 : α) ≤ h * (ew * (-c) - w) := mul_nonneg hh.le (by linarith)
      have hwh : (0 : α) < h * w := mul_pos hh hw
      refine max_le ?_ ?_ <;>
        · rw [← sub_le_iff_le_add]
          refine le_min ?_ ?_ <;> linarith

end SatLemmas

/-- C6: for every valid oriented rectangle (positive dimensions, any
rotation — `(c, s)` ranges over exactly the unit circle, the range of
`(cos θ, sin θ)`), `intersects` is false against the copy translated by
exactly `effective_width` along the x-axis: rectangles that only touch at an
edge or corner of their bounding boxes do not register as overlapping. -/
theorem c6_intersects_edge_touching_false {α : Type} [LinearOrderedField α]
    (x y w h c s : α) (hw : 0 < w) (hh : 0 < h) (hcs : c ^ 2 + s ^ 2 = 1) :
    Rect.intersects (⟨x, y, w, h, c, s⟩ : Rect α)
      ((⟨x, y, w, h, c, s⟩ : Rect α).translate
        ((⟨x, y, w, h, c, s⟩ : Rect α).effectiveWidth) 0) = false := by
  have hewW : (⟨x, y, w, h, c, s⟩ : Rect α).effectiveWidth = w * |c| + h * |s| := by
    show |w * c| + |h * s| = w * |c| + h * |s|
    rw [abs_mul, abs_mul, abs_of_pos hw, abs_of_pos hh]
  have hB : (⟨x, y, w, h, c, s⟩ : Rect α).translate
      ((⟨x, y, w, h, c, s⟩ : Rect α).effectiveWidth) 0 =
      ⟨x + (⟨x, y, w, h, c, s⟩ : Rect α).effectiveWidth, y + 0, w, h, c, s⟩ := rfl
  rw [hB]
  have hsep := sep_exists x y w h c s _ hw hh hcs hewW
  have hfin : ∀ axl, axl ∈ (⟨x, y, w, h, c, s⟩ : Rect α).axesWithLen →
      Rect.separatedOn (⟨x, y, w, h, c, s⟩ : Rect α)
        ⟨x + (⟨x, y, w, h, c, s⟩ : Rect α).effectiveWidth, y + 0, w, h, c, s⟩ axl = true →
      Rect.intersects (⟨x, y, w, h, c, s⟩ : Rect α)
        ⟨x + (⟨x, y, w, h, c, s⟩ : Rect α).effectiveWidth, y + 0, w, h, c, s⟩ = false := by
    intro axl hmem hsepax
    unfold Rect.intersects
    rw [List.all_eq_false]
    exact ⟨axl, List.mem_append_left _ hmem,
      by simp only [hsepax, Bool.not_true]; exact Bool.false_ne_true⟩
  rcases hsep with key | key
  · refine hfin _ ?_ key
    rw [axesWithLen_pos x y w h c s hw hh]
    exact List.mem_cons_self _ _
  · refine hfin _ ?_ key
    rw [axesWithLen_pos x y w h c s hw hh]
    exact List.mem_cons_of_mem _ (List.mem_cons_self _ _)

/-- Witness for C6 over ℚ: a 2×1 axis-aligned rectangle, `(c, s) = (1, 0)`. -/
theorem c6_witness : (0 : ℚ) < 2 ∧ (0 : ℚ) < 1 ∧ (1 : ℚ) ^ 2 + (0 : ℚ) ^ 2 = 1 ∧
    Rect.intersects (⟨0, 0, 2, 1, 1, 0⟩ : Rect ℚ)
      ((⟨0, 0, 2, 1, 1, 0⟩ : Rect ℚ).translate
        ((⟨0, 0, 2, 1, 1, 0⟩ : Rect ℚ).effectiveWidth) 0) = false :=
  ⟨by norm_num, by norm_num, by norm_num,
   c6_intersects_edge_touching_false 0 0 2 1 1 0 (by norm_num) (by norm_num) (by norm_num)⟩

/-- C7: for every `target > 0` and `tolerance > 0`,
`fuzzy_area_membership(actual, target, tolerance)` returns exactly 1.0 when
`actual == target`, is strictly decreasing in the relative deviation
`|actual − target| / target` on the interval up to the tolerance bound, and
returns exactly 0 beyond it. -/
theorem c7_fuzzyAreaMembership_triangular {α : Type} [LinearOrderedField α]
    (target tolerance : α) (htarget : 0 < target) (htol : 0 < tolerance) :
    (∀ actual, actual = target → fuzzyAreaMembership actual target tolerance = 1) ∧
    (∀ a b, |a - target| / target < |b - target| / target →
      |b - target| / target ≤ tolerance →
      fuzzyAreaMembership b target tolerance < fuzzyAreaMembership a target tolerance) ∧
    (∀ actual, tolerance < |actual - target| / target →
      fuzzyAreaMembership actual target tolerance = 0) := by
  have hnle : ¬target ≤ 0 := not_le.mpr htarget
  refine ⟨?_, ?_, ?_⟩
  · intro actual h
    subst h
    simp [fuzzyAreaMembership, hnle]
  · intro a b hab hb
    have ha0 : 0 ≤ |a - target| / target := div_nonneg (abs_nonneg _) htarget.le
    have hb0 : 0 < |b - target| / target := lt_of_le_of_lt ha0 hab
    have hbne : b ≠ target := by
      intro h
      rw [h, sub_self, abs_zero, zero_div] at hb0
      exact lt_irrefl 0 hb0
    have hfb : fuzzyAreaMembership b target tolerance =
        1 - |b - target| / target / tolerance := by
      simp [fuzzyAreaMembership, hnle, hbne, hb]
    by_cases haeq : a = target
    · have hfa : fuzzyAreaMembership a target tolerance = 1 := by
        simp [fuzzyAreaMembership, hnle, haeq]
      rw [hfa, hfb]
      have : 0 < |b - target| / target / tolerance := div_pos hb0 htol
      linarith
    · have ha : |a - target| / target ≤ tolerance := le_of_lt (lt_of_lt_of_le hab hb)
      have hfa : fuzzyAreaMembership a target tolerance =
          1 - |a - target| / target / tolerance := by
        simp [fuzzyAreaMembership, hnle, haeq, ha]
      rw [hfa, hfb]
      have hdiv : |a - target| / target / tolerance < |b - target| / target / tolerance := by
        gcongr
      linarith
  · intro actual hout
    have hane : actual ≠ target := by
      intro h
      rw [h, sub_self, abs_zero, zero_div] at hout
      exact absurd hout (not_lt.mpr htol.le)
    have hnot : ¬(|actual - target| / target ≤ tolerance) := not_le.mpr hout
    simp [fuzzyAreaMembership, hnle, hane, hnot]

/-- Witness for C7 at target 100, tolerance 0.15 over ℚ. -/
theorem c7_witness : (0 : ℚ) < 100 ∧ (0 : ℚ) < 15 / 100 ∧
    ((∀ actual, actual = (100 : ℚ) → fuzzyAreaMembership actual 100 (15 / 100) = 1) ∧
     (∀ a b : ℚ, |a - 100| / 100 < |b - 100| / 100 → |b - 100| / 100 ≤ 15 / 100 →
       fuzzyAreaMembership b 100 (15 / 100) < fuzzyAreaMembership a 100 (15 / 100)) ∧
     (∀ actual : ℚ, 15 / 100 < |actual - 100| / 100 →
       fuzzyAreaMembership actual 100 (15 / 100) = 0)) :=
  ⟨by norm_num, by norm_num,
   c7_fuzzyAreaMembership_triangular 100 (15 / 100) (by norm_num) (by norm_num)⟩

/-- C8: for every `target_area > 0`, `compute_optimal_scale` grows uniformly
by `sqrt(available/target)` when the target fits and the available area is
within the max-growth fraction, holds scale 1 with membership 1 beyond that,
shrinks by `sqrt(available/target)` down to the max-shrink floor, and when
even the floor area `target*(1 − max_shrink)` exceeds the available area it
clamps the scale to `sqrt(1 − max_shrink)` with membership exactly 0 while
still returning that scale. -/
theorem c8_computeOptimalScale_cases (target_area available_area : ℝ)
    (config : FuzzyConfig ℝ) (htarget : 0 < target_area) :
    (target_area ≤ available_area →
      (available_area ≤ target_area * (1 + config.max_growth) →
        computeOptimalScale target_area available_area config =
          (Real.sqrt (available_area / target_area),
           fuzzyAreaMembership available_area target_area config.area_tolerance)) ∧
      (target_area * (1 + config.max_growth) < available_area →
        computeOptimalScale target_area available_area config = (1, 1))) ∧
    (available_area < target_area →
      (target_area * (1 - config.max_shrink) ≤ available_area →
        computeOptimalScale target_area available_area config =
          (Real.sqrt (available_area / target_area),
           fuzzyAreaMembership available_area target_area config.area_tolerance)) ∧
      (available_area < target_area * (1 - config.max_shrink) →
        computeOptimalScale target_area available_area config =
          (Real.sqrt (1 - config.max_shrink), 0))) := by
  have hnle : ¬target_area ≤ 0 := not_le.mpr htarget
  constructor
  · intro hfits
    constructor
    · intro hgrow
      rw [computeOptimalScale, if_neg hnle, if_pos hfits, if_pos hgrow]
    · intro hbig
      rw [computeOptimalScale, if_neg hnle, if_pos hfits, if_neg (not_le.mpr hbig)]
  · intro hshrink
    constructor
    · intro hfloor
      rw [computeOptimalScale, if_neg hnle, if_neg (not_le.mpr hshrink),
        if_neg (not_lt.mpr hfloor)]
    · intro hclamp
      rw [computeOptimalScale, if_neg hnle, if_neg (not_le.mpr hshrink), if_pos hclamp,
        mul_div_cancel_left₀ _ (ne_of_gt htarget)]

/-- Witness for C8 at target 1, available 1/2 and the default config
(max_shrink 0.4): the shrink floor 0.6 exceeds the available area, so the
scale clamps to `sqrt(0.6)` with membership 0. -/
theorem c8_witness : (0 : ℝ) < 1 ∧
    computeOptimalScale 1 (1 / 2) FuzzyConfig.default =
      (Real.sqrt (1 - (FuzzyConfig.default : FuzzyConfig ℝ).max_shrink), 0) :=
  ⟨by norm_num,
   ((c8_computeOptimalScale_cases 1 (1 / 2) FuzzyConfig.default (by norm_num)).2
     (by norm_num)).2 (by norm_num [FuzzyConfig.default])⟩

/-- C9 (amended): `AdjacencyConstraint.evaluate` is total and, whenever the
minimum contact length is nonnegative (its default is 3 ft), returns a
nonnegative value: the full penalty `min_contact_ft` when either referenced
space is entirely absent from the space map, 0 when both exist but either is
unplaced, and `max(0, min_contact − shared_edge_length)` when both are
placed. -/
theorem c9_adjacency_total_nonneg (aid bid : String) (mc : ℚ) (spaces : List SpaceQ)
    (hmc : 0 ≤ mc) :
    0 ≤ evalConstraint (ConstraintQ.adjacency aid bid mc) spaces ∧
    ((dictGet spaces aid = none ∨ dictGet spaces bid = none) →
      evalConstraint (ConstraintQ.adjacency aid bid mc) spaces = mc) ∧
    (∀ a b, dictGet spaces aid = some a → dictGet spaces bid = some b →
      (a.isPlaced = false ∨ b.isPlaced = false) →
      evalConstraint (ConstraintQ.adjacency aid bid mc) spaces = 0) ∧
    (∀ a b ga gb, dictGet spaces aid = some a → dictGet spaces bid = some b →
      a.tryGeometry = some ga → b.tryGeometry = some gb →
      evalConstraint (ConstraintQ.adjacency aid bid mc) spaces =
        max 0 (mc - ga.sharedEdgeLength gb)) := by
  have unplaced_geom : ∀ s : SpaceQ, s.isPlaced = false → s.tryGeometry = none := by
    intro s hs
    unfold SpaceQ.tryGeometry
    unfold SpaceQ.isPlaced at hs
    cases hpos : s.position with
    | none => rfl
    | some p => rw [hpos] at hs; simp at hs
  have hval : evalConstraint (ConstraintQ.adjacency aid bid mc) spaces =
      (match dictGet spaces aid, dictGet spaces bid with
       | none, _ => mc
       | _, none => mc
       | some a, some b =>
         match a.tryGeometry, b.tryGeometry with
         | some ga, some gb =>
           if mc ≤ ga.sharedEdgeLength gb then 0 else mc - ga.sharedEdgeLength gb
         | _, _ => 0) := rfl
  have hsome : ∀ (a b : SpaceQ),
      (match (some a : Option SpaceQ), (some b : Option SpaceQ) with
       | none, _ => mc
       | _, none => mc
       | some a, some b =>
         match a.tryGeometry, b.tryGeometry with
         | some ga, some gb =>
           if mc ≤ ga.sharedEdgeLength gb then 0 else mc - ga.sharedEdgeLength gb
         | _, _ => (0 : ℚ)) =
      (match a.tryGeometry, b.tryGeometry with
       | some ga, some gb =>
         if mc ≤ ga.sharedEdgeLength gb then 0 else mc - ga.sharedEdgeLength gb
       | _, _ => (0 : ℚ)) := fun a b => rfl
  refine ⟨?_, ?_, ?_, ?_⟩
  · rw [hval]
    cases h1 : dictGet spaces aid with
    | none => cases dictGet spaces bid <;> exact hmc
    | some a =>
      cases h2 : dictGet spaces bid with
      | none => exact hmc
      | some b =>
        rw [hsome a b]
        cases hga : a.tryGeometry with
        | none => cases b.tryGeometry <;> exact le_refl (0 : ℚ)
        | some ga =>
          cases hgb : b.tryGeometry with
          | none => exact le_refl (0 : ℚ)
          | some gb =>
            dsimp only
            split
            · exact le_refl (0 : ℚ)
            · rename_i hlt
              have : ga.sharedEdgeLength gb < mc := not_le.mp hlt
              linarith
  · intro hmiss
    rw [hval]
    rcases hmiss with hmiss | hmiss
    · rw [hmiss]
      cases dictGet spaces bid <;> rfl
    · rw [hmiss]
      cases dictGet spaces aid <;> rfl
  · intro a b ha hb hunp
    rw [hval, ha, hb, hsome a b]
    rcases hunp with hunp | hunp
    · rw [unplaced_geom a hunp]
    · rw [unplaced_geom b hunp]
      cases a.tryGeometry <;> rfl
  · intro a b ga gb ha hb hga hgb
    rw [hval, ha, hb, hsome a b, hga, hgb]
    dsimp only
    rcases le_or_lt mc (ga.sharedEdgeLength gb) with hle | hlt
    · rw [if_pos hle, max_eq_left (by linarith)]
    · rw [if_neg (not_le.mpr hlt), max_eq_right (by linarith)]

/-- Counterexample for C9 as stated: with a negative minimum contact length
(the dataclass accepts any float) and both spaces absent, the evaluation
returns the negative `min_contact_ft`, so "always returns a nonnegative
value" fails on the code. -/
theorem c9_counterexample :
    evalConstraint (ConstraintQ.adjacency "a" "b" (-1 : ℚ)) [] = -1 ∧
    ¬(0 ≤ evalConstraint (ConstraintQ.adjacency "a" "b" (-1 : ℚ)) []) := by
  constructor
  · rfl
  · intro h
    have : ((-1 : ℚ)) = evalConstraint (ConstraintQ.adjacency "a" "b" (-1 : ℚ)) [] := rfl
    rw [← this] at h
    norm_num at h

/-- Witness for C9 (amended): at the default contact length 3 and two placed
spaces sharing a 10 ft edge the violation is `max(0, 3 − 10) = 0`. -/
theorem c9_witness : (0 : ℚ) ≤ 3 ∧
    evalConstraint (ConstraintQ.adjacency "a" "b" 3) [c9SpaceA, c9SpaceB] = 0 := by
  refine ⟨by norm_num, ?_⟩
  have h := (c9_adjacency_total_nonneg "a" "b" 3 [c9SpaceA, c9SpaceB] (by norm_num)).2.2.2
    c9SpaceA c9SpaceB _ _ (by with_unfolding_all rfl) (by with_unfolding_all rfl) rfl rfl
  rw [h]
  with_unfolding_all rfl


/-- Applying a recorded write never changes the space id. -/
lemma applyWrite_id (sp : SpaceQ) (w : Option (Pt ℚ × ℤ)) : (applyWrite sp w).id = sp.id := by
  cases w <;> rfl

/-- Writes collapse: only the last one survives. -/
lemma applyWrite_applyWrite (sp : SpaceQ) (w : Option (Pt ℚ × ℤ)) (pr : Pt ℚ × ℤ) :
    applyWrite (applyWrite sp w) (some pr) = applyWrite sp (some pr) := by
  cases w <;> rfl

/-- Fold characterization of `propagateIntoSpace`: starting from a space with
a pending write, the stalk fold applies exactly the accumulated last write. -/
lemma propagateIntoSpace_applyWrite (stalks : List VerticalStalkQ) (floorIdx : ℤ)
    (sp : SpaceQ) (w : Option (Pt ℚ × ℤ)) :
    propagateIntoSpace stalks floorIdx (applyWrite sp w) =
      applyWrite sp (stalks.foldl (fun acc st => stalkWrite st floorIdx sp.id acc) w) := by
  induction stalks generalizing w with
  | nil => rfl
  | cons st l ih =>
    have hstep : propagateIntoSpace (st :: l) floorIdx (applyWrite sp w) =
        propagateIntoSpace l floorIdx
          (match st.position with
           | none => applyWrite sp w
           | some pos =>
             if st.floors.contains floorIdx && stalkMatchId st floorIdx (applyWrite sp w).id then
               (applyWrite sp w).place pos.x pos.y st.rotation
             else applyWrite sp w) := rfl
    rw [hstep]
    have hfold : (st :: l).foldl (fun acc st => stalkWrite st floorIdx sp.id acc) w =
        l.foldl (fun acc st => stalkWrite st floorIdx sp.id acc)
          (stalkWrite st floorIdx sp.id w) := rfl
    rw [hfold]
    cases hpos : st.position with
    | none =>
      have hsw : stalkWrite st floorIdx sp.id w = w := by
        unfold stalkWrite
        rw [hpos]
      rw [hsw]
      exact ih w
    | some pos =>
      dsimp only
      rw [applyWrite_id]
      by_cases hcond : (st.floors.contains floorIdx && stalkMatchId st floorIdx sp.id) = true
      · rw [if_pos hcond]
        have hsw : stalkWrite st floorIdx sp.id w = some (pos, st.rotation) := by
          unfold stalkWrite
          rw [hpos]
          dsimp only
          rw [if_pos hcond]
        rw [hsw]
        have hplace : (applyWrite sp w).place pos.x pos.y st.rotation =
            applyWrite sp (some (pos, st.rotation)) := by
          cases w <;> rfl
        rw [hplace]
        exact ih (some (pos, st.rotation))
      · rw [if_neg hcond]
        have hsw : stalkWrite st floorIdx sp.id w = w := by
          unfold stalkWrite
          rw [hpos]
          dsimp only
          rw [if_neg hcond]
        rw [hsw]
        exact ih w


/-- The write fold from an arbitrary accumulator equals the fold from `none`
when the latter produces a write, and returns the accumulator otherwise. -/
lemma stalkWriteFold_shift (l : List VerticalStalkQ) (floorIdx : ℤ) (id : String)
    (acc : Option (Pt ℚ × ℤ)) :
    l.foldl (fun a st => stalkWrite st floorIdx id a) acc =
      (match l.foldl (fun a st => stalkWrite st floorIdx id a) none with
       | some v => some v
       | none => acc) := by
  induction l generalizing acc with
  | nil => rfl
  | cons st l ih =>
    show l.foldl (fun a st => stalkWrite st floorIdx id a) (stalkWrite st floorIdx id acc) = _
    cases hpos : st.position with
    | none =>
      have hkeep : ∀ a, stalkWrite st floorIdx id a = a := by
        intro a
        unfold stalkWrite
        rw [hpos]
      rw [hkeep]
      show _ = (match l.foldl (fun a st => stalkWrite st floorIdx id a)
        (stalkWrite st floorIdx id none) with | some v => some v | none => acc)
      rw [hkeep]
      exact ih acc
    | some pos =>
      by_cases hcond : (st.floors.contains floorIdx && stalkMatchId st floorIdx id) = true
      · have hwrite : ∀ a, stalkWrite st floorIdx id a = some (pos, st.rotation) := by
          intro a
          unfold stalkWrite
          rw [hpos]
          dsimp only
          rw [if_pos hcond]
        rw [hwrite]
        show _ = (match l.foldl (fun a st => stalkWrite st floorIdx id a)
          (stalkWrite st floorIdx id none) with | some v => some v | none => acc)
        rw [hwrite]
        rw [ih (some (pos, st.rotation))]
        cases l.foldl (fun a st => stalkWrite st floorIdx id a) none <;> rfl
      · have hkeep : ∀ a, stalkWrite st floorIdx id a = a := by
          intro a
          unfold stalkWrite
          rw [hpos]
          dsimp only
          rw [if_neg hcond]
        rw [hkeep]
        show _ = (match l.foldl (fun a st => stalkWrite st floorIdx id a)
          (stalkWrite st floorIdx id none) with | some v => some v | none => acc)
        rw [hkeep]
        exact ih acc

/-- Per-space idempotence of the propagation fold. -/
lemma propagateIntoSpace_idem (stalks : List VerticalStalkQ) (floorIdx : ℤ) (sp : SpaceQ) :
    propagateIntoSpace stalks floorIdx (propagateIntoSpace stalks floorIdx sp) =
      propagateIntoSpace stalks floorIdx sp := by
  have h0 : propagateIntoSpace stalks floorIdx sp =
      applyWrite sp (stalks.foldl (fun acc st => stalkWrite st floorIdx sp.id acc) none) := by
    have := propagateIntoSpace_applyWrite stalks floorIdx sp none
    simpa [applyWrite] using this
  rw [h0, propagateIntoSpace_applyWrite stalks floorIdx sp
    (stalks.foldl (fun acc st => stalkWrite st floorIdx sp.id acc) none),
    stalkWriteFold_shift]
  cases stalks.foldl (fun acc st => stalkWrite st floorIdx sp.id acc) none <;> rfl

/-- C5: `propagate_stalk_positions` is idempotent — a second call changes no
space position or rotation: the whole sheaf after two calls equals the sheaf
after one call. -/
theorem c5_propagate_idempotent (sheaf : SheafQ) :
    propagateStalkPositions (propagateStalkPositions sheaf) = propagateStalkPositions sheaf := by
  unfold propagateStalkPositions
  dsimp only
  congr 1
  rw [List.map_map]
  refine List.map_congr_left ?_
  intro p _
  dsimp only [Function.comp]
  congr 1
  rw [List.map_map]
  refine List.map_congr_left ?_
  intro s _
  exact propagateIntoSpace_idem sheaf.stalks p.index s


/-- A positively-guarded difference is the max with zero. -/
lemma if_lt_eq_max (a b : ℚ) : (if a < b then b - a else 0) = max 0 (b - a) := by
  rcases lt_or_le a b with h | h
  · rw [if_pos h, max_eq_right (by linarith)]
  · rw [if_neg (not_lt.mpr h), max_eq_left (by linarith)]

/-- Bounding-box intersection areas are nonnegative. -/
lemma intersectionArea_nonneg (g1 g2 : Rect ℚ) : 0 ≤ g1.intersectionArea g2 :=
  mul_nonneg (le_max_left _ _) (le_max_left _ _)

/-- Per-space equality of the code's boundary term and the claim's max form. -/
lemma boundaryTerm_eq (p : FloorPatchQ) (s : SpaceQ) :
    (match s.tryGeometry with
     | none => (0 : ℚ)
     | some geom =>
       if p.checkBoundary s then 0 else boundaryOverflow p.domain.boundingBox geom) =
    (if p.checkBoundary s then 0
     else
       match s.tryGeometry with
       | none => (0 : ℚ)
       | some geom =>
         max 0 (p.domain.boundingBox.left - geom.left) +
         max 0 (geom.right - p.domain.boundingBox.right) +
         max 0 (p.domain.boundingBox.bottom - geom.bottom) +
         max 0 (geom.top - p.domain.boundingBox.top)) := by
  cases hg : s.tryGeometry with
  | none =>
    have hcb : p.checkBoundary s = false := by
      unfold FloorPatchQ.checkBoundary
      rw [hg]
    rw [hcb]
    simp
  | some geom =>
    cases hcb : p.checkBoundary s with
    | true => simp
    | false =>
      simp only [Bool.false_eq_true, if_false]
      unfold boundaryOverflow
      simp only [if_lt_eq_max]

/-- Per-pair equality of the code's guarded overlap term and the raw area. -/
lemma overlapTerm_eq (pr : SpaceQ × SpaceQ) :
    (match pr.1.tryGeometry, pr.2.tryGeometry with
     | some g1, some g2 =>
       if 0 < g1.intersectionArea g2 then g1.intersectionArea g2 else 0
     | _, _ => (0 : ℚ)) =
    (match pr.1.tryGeometry, pr.2.tryGeometry with
     | some g1, some g2 => g1.intersectionArea g2
     | _, _ => (0 : ℚ)) := by
  cases pr.1.tryGeometry with
  | none => cases pr.2.tryGeometry <;> rfl
  | some g1 =>
    cases pr.2.tryGeometry with
    | none => rfl
    | some g2 =>
      dsimp only
      rcases (intersectionArea_nonneg g1 g2).lt_or_eq with h | h
      · rw [if_pos h]
      · rw [if_neg (by rw [← h]; exact lt_irrefl 0)]
        exact h

/-- The code's cohomology equals the claim's formula. -/
lemma computeCohomology_eq_spec (sheaf : SheafQ) :
    computeCohomology sheaf = cohomologySpec sheaf := by
  unfold computeCohomology cohomologySpec
  refine congrArg₂ (· + ·) ?_ rfl
  refine congrArg List.sum (List.map_congr_left ?_)
  intro p _
  refine congrArg₂ (· + ·) ?_ ?_
  · unfold patchBoundaryObstruction
    refine congrArg List.sum (List.map_congr_left ?_)
    intro s _
    exact boundaryTerm_eq p s
  · unfold patchOverlapObstruction
    refine congrArg List.sum (List.map_congr_left ?_)
    intro pr _
    exact overlapTerm_eq pr

/-- The code's cohomology is nonnegative. -/
lemma computeCohomology_nonneg (sheaf : SheafQ) : 0 ≤ computeCohomology sheaf := by
  unfold computeCohomology
  have h1 : 0 ≤ (sheaf.patches.map
      (fun p => patchBoundaryObstruction p + patchOverlapObstruction p)).sum := by
    refine List.sum_nonneg ?_
    intro x hx
    obtain ⟨p, _, rfl⟩ := List.mem_map.mp hx
    have hb : 0 ≤ patchBoundaryObstruction p := by
      refine List.sum_nonneg ?_
      intro v hv
      obtain ⟨s, _, rfl⟩ := List.mem_map.mp hv
      cases s.tryGeometry with
      | none => exact le_refl 0
      | some geom =>
        dsimp only
        split
        · exact le_refl 0
        · unfold boundaryOverflow
          have t1 : (0:ℚ) ≤ if geom.left < p.domain.boundingBox.left then
              p.domain.boundingBox.left - geom.left else 0 := by split <;> linarith
          have t2 : (0:ℚ) ≤ if p.domain.boundingBox.right < geom.right then
              geom.right - p.domain.boundingBox.right else 0 := by split <;> linarith
          have t3 : (0:ℚ) ≤ if geom.bottom < p.domain.boundingBox.bottom then
              p.domain.boundingBox.bottom - geom.bottom else 0 := by split <;> linarith
          have t4 : (0:ℚ) ≤ if p.domain.boundingBox.top < geom.top then
              geom.top - p.domain.boundingBox.top else 0 := by split <;> linarith
          linarith
    have ho : 0 ≤ patchOverlapObstruction p := by
      refine List.sum_nonneg ?_
      intro v hv
      obtain ⟨pr, _, rfl⟩ := List.mem_map.mp hv
      cases pr.1.tryGeometry with
      | none => cases pr.2.tryGeometry <;> exact le_refl 0
      | some g1 =>
        cases pr.2.tryGeometry with
        | none => exact le_refl 0
        | some g2 =>
          dsimp only
          split
          · exact intersectionArea_nonneg g1 g2
          · exact le_refl 0
    linarith
  have h2 : 0 ≤ alignmentObstruction sheaf := by
    refine List.sum_nonneg ?_
    intro x hx
    obtain ⟨st, _, rfl⟩ := List.mem_map.mp hx
    split
    · cases stalkPositions sheaf st with
      | nil => exact le_refl 0
      | cons ref rest =>
        refine List.sum_nonneg ?_
        intro v hv
        obtain ⟨pos, _, rfl⟩ := List.mem_map.mp hv
        positivity
    · exact le_refl 0
  linarith

/-- The code's cohomology vanishes on a sheaf whose placed spaces are inside
their floor boundaries and pairwise non-overlapping and whose stalk instance
positions coincide. -/
lemma computeCohomology_eq_zero (sheaf : SheafQ)
    (hb : ∀ p ∈ sheaf.patches, ∀ s ∈ p.placedSpaces, p.checkBoundary s = true)
    (ho : ∀ p ∈ sheaf.patches, ∀ pr ∈ offDiagPairs p.placedSpaces,
      (match pr.1.tryGeometry, pr.2.tryGeometry with
       | some g1, some g2 => g1.intersectionArea g2
       | _, _ => (0 : ℚ)) = 0)
    (ha : ∀ st ∈ sheaf.stalks, ∀ q ∈ stalkPositions sheaf st,
      ∀ r ∈ stalkPositions sheaf st, q = r) :
    computeCohomology sheaf = 0 := by
  unfold computeCohomology
  have h1 : (sheaf.patches.map
      (fun p => patchBoundaryObstruction p + patchOverlapObstruction p)).sum = 0 := by
    refine List.sum_eq_zero ?_
    intro x hx
    obtain ⟨p, hp, rfl⟩ := List.mem_map.mp hx
    have hbz : patchBoundaryObstruction p = 0 := by
      refine List.sum_eq_zero ?_
      intro v hv
      obtain ⟨s, hs, rfl⟩ := List.mem_map.mp hv
      cases hg : s.tryGeometry with
      | none => rfl
      | some geom =>
        dsimp only
        rw [hb p hp s hs]
        rfl
    have hoz : patchOverlapObstruction p = 0 := by
      refine List.sum_eq_zero ?_
      intro v hv
      obtain ⟨pr, hpr, rfl⟩ := List.mem_map.mp hv
      have := ho p hp pr hpr
      cases hg1 : pr.1.tryGeometry with
      | none => cases pr.2.tryGeometry <;> rfl
      | some g1 =>
        cases hg2 : pr.2.tryGeometry with
        | none => rfl
        | some g2 =>
          rw [hg1, hg2] at this
          dsimp only at this ⊢
          rw [this]
          rfl
    rw [hbz, hoz, add_zero]
  have h2 : alignmentObstruction sheaf = 0 := by
    refine List.sum_eq_zero ?_
    intro x hx
    obtain ⟨st, hst, rfl⟩ := List.mem_map.mp hx
    split
    · cases hsp : stalkPositions sheaf st with
      | nil => rfl
      | cons ref rest =>
        refine List.sum_eq_zero ?_
        intro v hv
        obtain ⟨pos, hpos, rfl⟩ := List.mem_map.mp hv
        have hrefmem : ref ∈ stalkPositions sheaf st := by
          rw [hsp]; exact List.mem_cons_self _ _
        have hposmem : pos ∈ stalkPositions sheaf st := by
          rw [hsp]; exact List.mem_cons_of_mem _ hpos
        have : pos = ref := ha st hst pos hposmem ref hrefmem
        rw [this, sub_self, sub_self, abs_zero, add_zero]
    · rfl
  rw [h1, h2, add_zero]

/-- C3: `compute_cohomology` returns a nonnegative scalar equal to the sum of
(a) boundary overflow for placed spaces not contained in their floor,
(b) pairwise overlap areas of placed spaces per floor, and (c) Manhattan
misalignment of each placed stalk's instance positions to the first one; it
is exactly 0 when all placed spaces are inside their floor boundary,
pairwise non-overlapping, and all stalk instances coincide, and positive
when an overlap is introduced. -/
theorem c3_computeCohomology_characterization :
    (∀ sheaf, computeCohomology sheaf = cohomologySpec sheaf) ∧
    (∀ sheaf, 0 ≤ computeCohomology sheaf) ∧
    (∀ sheaf,
      (∀ p ∈ sheaf.patches, ∀ s ∈ p.placedSpaces, p.checkBoundary s = true) →
      (∀ p ∈ sheaf.patches, ∀ pr ∈ offDiagPairs p.placedSpaces,
        (match pr.1.tryGeometry, pr.2.tryGeometry with
         | some g1, some g2 => g1.intersectionArea g2
         | _, _ => (0 : ℚ)) = 0) →
      (∀ st ∈ sheaf.stalks, ∀ q ∈ stalkPositions sheaf st,
        ∀ r ∈ stalkPositions sheaf st, q = r) →
      computeCohomology sheaf = 0) ∧
    0 < computeCohomology c3BadSheaf := by
  refine ⟨computeCohomology_eq_spec, computeCohomology_nonneg, computeCohomology_eq_zero, ?_⟩
  have h : computeCohomology c3BadSheaf = 60 := by with_unfolding_all rfl
  rw [h]
  norm_num

/-- Witness for C3: the hand-constructed aligned sheaf satisfies the three
side conditions and its cohomology is exactly 0. -/
theorem c3_witness :
    (∀ p ∈ c3GoodSheaf.patches, ∀ s ∈ p.placedSpaces, p.checkBoundary s = true) ∧
    computeCohomology c3GoodSheaf = 0 := by
  have hb : ∀ p ∈ c3GoodSheaf.patches, ∀ s ∈ p.placedSpaces, p.checkBoundary s = true := by
    with_unfolding_all decide
  have ho : ∀ p ∈ c3GoodSheaf.patches, ∀ pr ∈ offDiagPairs p.placedSpaces,
      (match pr.1.tryGeometry, pr.2.tryGeometry with
       | some g1, some g2 => g1.intersectionArea g2
       | _, _ => (0 : ℚ)) = 0 := by
    with_unfolding_all decide
  have ha : ∀ st ∈ c3GoodSheaf.stalks, ∀ q ∈ stalkPositions c3GoodSheaf st,
      ∀ r ∈ stalkPositions c3GoodSheaf st, q = r := by
    with_unfolding_all decide
  exact ⟨hb, c3_computeCohomology_characterization.2.2.1 c3GoodSheaf hb ho ha⟩

set_option maxRecDepth 100000 in
/-- C4: at solve completion (after `solve_massing` runs
`propagate_stalk_positions`), every per-floor space instance of every stalk
carries the same position.  In the concrete building with 5 typical
residential floors above a ground floor and 2 passenger elevators + 2 stairs,
the solved sheaf has exactly those 4 stalks, each stalk has exactly one
placed instance on every floor it spans, and all of a stalk's instance
positions agree with the first recorded one to within 1e-6. -/
theorem c4_stalk_alignment :
    (solveMassingQ c4Building).sheaf.stalks.length = 4 ∧
    c4AlignCheck (solveMassingQ c4Building).sheaf = true := by
  have h0 : constructSheaf c4Building (Polygon.rectangle 800 800) = c4Lit0 := by
    with_unfolding_all rfl
  have h1 : placeVerticalCore c4Lit0 SolverConfigQ.default = c4Lit1 := by
    with_unfolding_all rfl
  have h2 : c4Lit1.floorIndices.foldl (fun sh fi =>
      match sh.getPatch fi with
      | none => sh
      | some _ => sh.modifyPatch fi (fun p => placeFloorSpaces sh p SolverConfigQ.default))
      c4Lit1 = c4Lit2 := by
    with_unfolding_all rfl
  have h3 : propagateStalkPositions c4Lit2 = c4SolvedSheaf := by
    with_unfolding_all rfl
  have hunfold : solveSheafQ c4Building none SolverConfigQ.default =
      propagateStalkPositions
        ((placeVerticalCore (constructSheaf c4Building (Polygon.rectangle 800 800))
            SolverConfigQ.default).floorIndices.foldl
          (fun sh fi =>
            match sh.getPatch fi with
            | none => sh
            | some _ => sh.modifyPatch fi (fun p => placeFloorSpaces sh p SolverConfigQ.default))
          (placeVerticalCore (constructSheaf c4Building (Polygon.rectangle 800 800))
            SolverConfigQ.default)) := rfl
  rw [h0, h1, h2, h3] at hunfold
  have hms : (solveMassingQ c4Building).sheaf
      = solveSheafQ c4Building none SolverConfigQ.default := rfl
  rw [hms, hunfold]
  constructor
  · with_unfolding_all rfl
  · with_unfolding_all rfl

set_option maxRecDepth 10000 in
/-- C1 (counterexample to the claim as stated): in the 1-story, 100 ft by
100 ft floor-plate building with one 20 ft by 10 ft studio unit and no
circulation, `solve_massing` does NOT reach a 100% placement rate — the
reported rate is 0, because `construct_sheaf` distributes dwelling units only
onto `RESIDENTIAL_TYPICAL` floors and the single floor of a 1-story building
is typed `GROUND`, so the unit space is never instantiated at all. -/
theorem c1_counterexample : (solveMassingQ c1Building).placement_rate ≠ 1 := by
  have h : (solveMassingQ c1Building).placement_rate = 0 := by with_unfolding_all rfl
  rw [h]
  norm_num

set_option maxRecDepth 10000 in
/-- C1 (amended): in the 1-story single-studio scenario the solver creates no
space instances whatsoever (`total_spaces = 0`), reports `placement_rate = 0`
and `success = false`, and the solved ground-floor patch is empty with domain
the ORIGIN-CENTERED square `[-50, 50] × [-50, 50]` (the side is
`sqrt(10000) = 100` but `Polygon.rectangle` centers the floor plate at the
origin, not at the corner as the `[0, 100] × [0, 100]` reading suggests). -/
theorem c1_single_unit_scenario :
    (solveMassingQ c1Building).total_spaces = 0 ∧
    (solveMassingQ c1Building).placement_rate = 0 ∧
    (solveMassingQ c1Building).success = false ∧
    (solveMassingQ c1Building).sheaf.getPatch 0
      = some ⟨0, .GROUND, Polygon.rectangle 100 100, []⟩ ∧
    Polygon.rectangle (100 : ℚ) 100
      = ⟨[⟨-50, -50⟩, ⟨50, -50⟩, ⟨50, 50⟩, ⟨-50, 50⟩]⟩ := by
  refine ⟨?_, ?_, ?_, ?_, ?_⟩ <;> with_unfolding_all rfl

/-- C2: for every building, lot and solver configuration, `solve_massing`
reports success exactly when the penalized obstruction (raw violation plus
0.1 times the placed-space membership deficit) is below the configured
tolerance AND the placement rate is at least 90%; and the result carries
exactly those two metrics in its `obstruction` and `placement_rate` fields
either way. -/
theorem c2_success_criterion (building : BuildingSpecQ) (lotGeometry : Option (Polygon ℚ))
    (config : SolverConfigQ) :
    ((solveMassingQ building lotGeometry config).success = true ↔
      penalizedObstructionSpec (solveMassingQ building lotGeometry config).sheaf
          < config.tolerance ∧
        9 / 10 ≤ placementRateSpec (solveMassingQ building lotGeometry config).sheaf) ∧
    (solveMassingQ building lotGeometry config).obstruction
      = penalizedObstructionSpec (solveMassingQ building lotGeometry config).sheaf ∧
    (solveMassingQ building lotGeometry config).placement_rate
      = placementRateSpec (solveMassingQ building lotGeometry config).sheaf := by
  suffices h : ∀ sh : SheafQ,
      ((evaluateSolutionQ sh config).success = true ↔
        penalizedObstructionSpec sh < config.tolerance ∧ 9 / 10 ≤ placementRateSpec sh) ∧
      (evaluateSolutionQ sh config).obstruction = penalizedObstructionSpec sh ∧
      (evaluateSolutionQ sh config).placement_rate = placementRateSpec sh by
    exact h (solveSheafQ building lotGeometry config)
  intro sh
  unfold evaluateSolutionQ penalizedObstructionSpec placementRateSpec
  refine ⟨?_, by ring, rfl⟩
  rw [Bool.and_eq_true, decide_eq_true_eq, decide_eq_true_eq]
  constructor
  · rintro ⟨h1, h2⟩
    exact ⟨by linarith [h1], h2⟩
  · rintro ⟨h1, h2⟩
    exact ⟨by linarith [h1], h2⟩

/-- C10: `Space.place(x, y)` called without an explicit rotation argument
always stores rotation 0, overwriting whatever rotation the space carried;
and when `find_valid_position`'s first grid search fails while its
90-degree-rotated retry (allowed rotation, non-square spec) finds a position
`p`, the function returns `p` together with the space mutated to rotation 90
— so the caller's commit `space.place(pos.x, pos.y)` of that very result
carries rotation 0, not 90. -/
theorem c10_rotation_commit :
    (∀ (s : SpaceQ) (x y : ℚ), (s.place x y).rotation = 0) ∧
    ∀ (patch : FloorPatchQ) (s : SpaceQ) (cfg : SolverConfigQ) (p : Pt ℚ),
      gridSearch patch s cfg patch.domain.boundingBox 2
          (s.spec.width_ft / 2) (s.spec.height_ft / 2) = none →
      cfg.allow_rotation = true →
      s.spec.width_ft ≠ s.spec.height_ft →
      gridSearch patch { s with rotation := 90 } cfg patch.domain.boundingBox 2
          (s.spec.height_ft / 2) (s.spec.width_ft / 2) = some p →
      findValidPosition patch s cfg = (some p, { s with rotation := 90 }) ∧
        (SpaceQ.place { s with rotation := 90 } p.x p.y).rotation = 0 := by
  constructor
  · intro s x y
    simp [SpaceQ.place]
  · intro patch s cfg p h1 h2 h3 h4
    refine ⟨?_, by simp [SpaceQ.place]⟩
    simp only [findValidPosition]
    rw [h1, h2]
    simp only [decide_eq_true_eq] at *
    rw [decide_eq_true h3]
    simp only [Bool.and_self, if_pos]
    rw [h4]

/-- Witness for C10: on the narrow 8 ft by 30 ft floor the 10 ft by 2 ft
space fails the unrotated grid search, the rotated retry finds (-1, -8), and
the committed placement of the returned (rotation-90) space has rotation 0. -/
theorem c10_witness :
    gridSearch c10Patch c10Space SolverConfigQ.default c10Patch.domain.boundingBox 2
        (c10Space.spec.width_ft / 2) (c10Space.spec.height_ft / 2) = none ∧
    SolverConfigQ.default.allow_rotation = true ∧
    c10Space.spec.width_ft ≠ c10Space.spec.height_ft ∧
    gridSearch c10Patch { c10Space with rotation := 90 } SolverConfigQ.default
        c10Patch.domain.boundingBox 2
        (c10Space.spec.height_ft / 2) (c10Space.spec.width_ft / 2) = some ⟨-1, -8⟩ ∧
    findValidPosition c10Patch c10Space SolverConfigQ.default
      = (some ⟨-1, -8⟩, { c10Space with rotation := 90 }) ∧
    (SpaceQ.place { c10Space with rotation := 90 } (-1) (-8)).rotation = 0 := by
  have h1 : gridSearch c10Patch c10Space SolverConfigQ.default c10Patch.domain.boundingBox 2
      (c10Space.spec.width_ft / 2) (c10Space.spec.height_ft / 2) = none := by
    with_unfolding_all rfl
  have h2 : SolverConfigQ.default.allow_rotation = true := by with_unfolding_all rfl
  have h3 : c10Space.spec.width_ft ≠ c10Space.spec.height_ft := by with_unfolding_all decide
  have h4 : gridSearch c10Patch { c10Space with rotation := 90 } SolverConfigQ.default
      c10Patch.domain.boundingBox 2
      (c10Space.spec.height_ft / 2) (c10Space.spec.width_ft / 2) = some ⟨-1, -8⟩ := by
    with_unfolding_all rfl
  have main := c10_rotation_commit.2 c10Patch c10Space SolverConfigQ.default ⟨-1, -8⟩ h1 h2 h3 h4
  exact ⟨h1, h2, h3, h4, main.1, main.2⟩

end GloqMassing